import Mathlib

/-! TWI bus-master transaction engine (twi.c): shallow embedding

The engine of `src/twi.c` is embedded as state-passing functions over one record `Twi`
holding the file's static variables, the two queue arrays, the caller memory the engine reads
and writes through pointers, and a chronological log of the hardware register writes.

Conventions of the embedding
* `uint8_t` values are `Nat`; every store that can leave the byte range is reduced `% 256`.
* `int8_t` results are `Int`.
* The interrupt handler `SIGNAL(TWI_vect)` is the function `TWI_vect status twdr`, where `status`
  is the value of `TW_STATUS` and `twdr` the content of the data register at the interrupt.
* A blocking call receives the list of interrupts that arrive while it runs.  An interrupt is
  taken each time a busy-wait loop finds its condition true; when the list is exhausted while
  the loop still spins, the call does not return (`none`).
* Interrupt masking (`cli` / restoring `SREG`) makes the guarded region atomic; the functions
  below are atomic as a whole, so the guard leaves no trace in the state.
-/

namespace Grbl

/-! ## Constants -/

/-- Capacity of `twi_masterBuffer` (`#define TWI_BUFFER_LENGTH 8`). -/
def TWI_BUFFER_LENGTH : Nat := 8

/-- The null pointer. -/
def NULL : Nat := 0

/-- Values of `twi_state`.  The header `twi.h` that defines the five macros is not part of the
sources; the states are kept as the five distinct names the code uses. -/
inductive BusState
  | TWI_READY
  | TWI_MRX
  | TWI_MTX
  | TWI_MTRX
  | TWI_M_RMW
  deriving DecidableEq, Repr

open BusState

/-! Status codes and direction bits of avr-libc `compat/twi.h`. -/

def TW_START : Nat := 0x08
def TW_REP_START : Nat := 0x10
def TW_MT_SLA_ACK : Nat := 0x18
def TW_MT_SLA_NACK : Nat := 0x20
def TW_MT_DATA_ACK : Nat := 0x28
def TW_MT_DATA_NACK : Nat := 0x30
def TW_MT_ARB_LOST : Nat := 0x38
def TW_MR_SLA_ACK : Nat := 0x40
def TW_MR_SLA_NACK : Nat := 0x48
def TW_MR_DATA_ACK : Nat := 0x50
def TW_MR_DATA_NACK : Nat := 0x58
def TW_NO_INFO : Nat := 0xF8
def TW_BUS_ERROR : Nat := 0x00
def TW_READ : Nat := 1
def TW_WRITE : Nat := 0

/-! Bit numbers of the control register `TWCR` (avr/io.h) and `_BV`. -/

def TWINT : Nat := 7
def TWEA : Nat := 6
def TWSTA : Nat := 5
def TWSTO : Nat := 4
def TWEN : Nat := 2
def TWIE : Nat := 0

/-- Bit value `_BV(b) = 1 << b`. -/
def _BV (b : Nat) : Nat := 1 <<< b

/-- Control word that sends a start condition:
`_BV(TWEN) | _BV(TWIE) | _BV(TWEA) | _BV(TWINT) | _BV(TWSTA)`. -/
def TWCR_START : Nat := _BV TWEN ||| _BV TWIE ||| _BV TWEA ||| _BV TWINT ||| _BV TWSTA

/-- Control word that sends a stop condition:
`_BV(TWEN) | _BV(TWIE) | _BV(TWEA) | _BV(TWINT) | _BV(TWSTO)`. -/
def TWCR_STOP : Nat := _BV TWEN ||| _BV TWIE ||| _BV TWEA ||| _BV TWINT ||| _BV TWSTO

/-- Control word of `twi_reply(1)`: `_BV(TWEN) | _BV(TWIE) | _BV(TWINT) | _BV(TWEA)`. -/
def TWCR_ACK : Nat := _BV TWEN ||| _BV TWIE ||| _BV TWINT ||| _BV TWEA

/-- Control word of `twi_reply(0)`: `_BV(TWEN) | _BV(TWIE) | _BV(TWINT)`. -/
def TWCR_NACK : Nat := _BV TWEN ||| _BV TWIE ||| _BV TWINT

/-- Control word of `twi_releaseBus`: `_BV(TWEN) | _BV(TWIE) | _BV(TWEA) | _BV(TWINT)`. -/
def TWCR_RELEASE : Nat := _BV TWEN ||| _BV TWIE ||| _BV TWEA ||| _BV TWINT

/-- Control word written at the end of `twi_init`: `_BV(TWEN) | _BV(TWIE) | _BV(TWEA)`. -/
def TWCR_ENABLE : Nat := _BV TWEN ||| _BV TWIE ||| _BV TWEA

/-! ## Data model -/

/-- A write to a hardware register, as it appears in the log `Twi.hw`. -/
inductive HwOp
  | TWCR (v : Nat)
  | TWDR (v : Nat)
  | PORT_pullups
  | TWSR_prescaler
  | TWBR_bitrate
  deriving DecidableEq, Repr

/-- Target of `twi_masterBufferPtr`: the static array `twi_masterBuffer`, or an address in the
caller memory. -/
inductive Ptr
  | masterBuffer
  | ram (a : Nat)
  deriving DecidableEq, Repr

/-- The request record `twi_transaction_read` (fields as used by `twi_check_queues`). -/
structure twi_transaction_read where
  address : Nat
  reg : Nat
  data : Ptr
  length : Nat
  deriving DecidableEq, Repr

/-- The request record `twi_transaction_write_one_masked` (fields as used by
`twi_check_queues`). -/
structure twi_transaction_write_one_masked where
  address : Nat
  reg : Nat
  data : Nat
  mask : Nat
  deriving DecidableEq, Repr

/-- The engine state: the static variables of `twi.c`, the two queue arrays (arrays of pointers,
`NULL` = empty slot), and the environment the code touches.

* `ram` is the caller memory, byte addressed;
* `rd_trans` / `wr1_trans` give the request record a non-null pointer refers to;
* `hw` is the chronological log of hardware register writes;
* `ub` is set by a store or load outside the eight bytes of `twi_masterBuffer`
  (undefined behaviour in C); no function ever clears it.

The array sizes `TWI_RD_TRANS_QUEUE_SIZE` and `TWI_WR1_TRANS_QUEUE_SIZE` come from the absent
header `twi.h`; they are the lengths of the two lists, so every statement holds for every
choice of the two sizes (sizes up to 255, the range of the `uint8_t` loop counter). -/
structure Twi where
  twi_state : BusState
  twi_slarw : Nat
  twi_reg : Nat
  twi_rmw_data : Nat
  twi_rmw_mask : Nat
  twi_masterBuffer : Nat → Nat
  twi_masterBufferIndex : Nat
  twi_masterBufferLength : Nat
  twi_masterBufferPtr : Ptr
  twi_error : Nat
  twi_read_queue : List Nat
  twi_wr1_queue : List Nat
  ram : Nat → Nat
  rd_trans : Nat → twi_transaction_read
  wr1_trans : Nat → twi_transaction_write_one_masked
  hw : List HwOp
  ub : Bool

/-- Size of the read queue array. -/
def TWI_RD_TRANS_QUEUE_SIZE (s : Twi) : Nat := s.twi_read_queue.length

/-- Size of the masked-write queue array. -/
def TWI_WR1_TRANS_QUEUE_SIZE (s : Twi) : Nat := s.twi_wr1_queue.length

/-- Conversion of a `uint8_t` value to `int8_t` (two's complement, as avr-gcc does). -/
def int8_of_uint8 (n : Nat) : Int :=
  if n % 256 < 128 then ((n % 256 : Nat) : Int) else ((n % 256 : Nat) : Int) - 256

/-- Pointwise update of a byte array or memory. -/
def upd (f : Nat → Nat) (a v : Nat) : Nat → Nat := fun x => if x = a then v else f x

/-- The store `*(p + i) = v`. -/
def store (p : Ptr) (i v : Nat) (s : Twi) : Twi :=
  match p with
  | Ptr.masterBuffer =>
    if i < TWI_BUFFER_LENGTH then { s with twi_masterBuffer := upd s.twi_masterBuffer i v }
    else { s with ub := true }
  | Ptr.ram a => { s with ram := upd s.ram (a + i) v }

/-- The value read by `*(p + i)`. -/
def load (p : Ptr) (i : Nat) (s : Twi) : Nat :=
  match p with
  | Ptr.masterBuffer => if i < TWI_BUFFER_LENGTH then s.twi_masterBuffer i else 0
  | Ptr.ram a => s.ram (a + i)

/-- State after evaluating `*(p + i)`: a read outside `twi_masterBuffer` is flagged. -/
def load_ub (p : Ptr) (i : Nat) (s : Twi) : Twi :=
  match p with
  | Ptr.masterBuffer => if i < TWI_BUFFER_LENGTH then s else { s with ub := true }
  | Ptr.ram _ => s

/-- Append one register write to the hardware log. -/
def out (op : HwOp) (s : Twi) : Twi := { s with hw := s.hw ++ [op] }

/-! ## Non-blocking transfer operations -/

/-- Function `twi_nonBlockingReadFrom(address, data, length)`. -/
def twi_nonBlockingReadFrom (address : Nat) (data : Ptr) (length : Nat) (s : Twi) : Int × Twi :=
  if s.twi_state ≠ TWI_READY then (-1, s)
  else
    let s := { s with twi_state := TWI_MRX }
    let s := { s with twi_error := 0xFF }
    let s := { s with twi_masterBufferPtr := data }
    let s := { s with twi_masterBufferIndex := 0 }
    let s := { s with twi_masterBufferLength := (length + 255) % 256 }
    let s := { s with twi_slarw := TW_READ }
    let s := { s with twi_slarw := (s.twi_slarw ||| (address <<< 1)) % 256 }
    let s := out (HwOp.TWCR TWCR_START) s
    (0, s)

/-- Function `twi_nonBlockingReadRegisterFrom(address, reg, data, length)`. -/
def twi_nonBlockingReadRegisterFrom (address reg : Nat) (data : Ptr) (length : Nat) (s : Twi) :
    Int × Twi :=
  if s.twi_state ≠ TWI_READY then (-1, s)
  else
    let s := { s with twi_state := TWI_MTRX }
    let s := { s with twi_error := 0xFF }
    let s := { s with twi_reg := reg }
    let s := { s with twi_masterBufferPtr := data }
    let s := { s with twi_masterBufferIndex := 0 }
    let s := { s with twi_masterBufferLength := (length + 255) % 256 }
    let s := { s with twi_slarw := TW_WRITE }
    let s := { s with twi_slarw := (s.twi_slarw ||| (address <<< 1)) % 256 }
    let s := out (HwOp.TWCR TWCR_START) s
    if s.twi_error = 0xFF then (0, s) else (-2, s)

/-- Function `twi_writeRegisterMaskedOneByte(address, reg, data, mask)`. -/
def twi_writeRegisterMaskedOneByte (address reg data mask : Nat) (s : Twi) : Int × Twi :=
  if s.twi_state ≠ TWI_READY then (-1, s)
  else
    let s := { s with twi_state := TWI_M_RMW }
    let s := { s with twi_rmw_data := data }
    let s := { s with twi_rmw_mask := mask }
    let s := { s with twi_error := 0xFF }
    let s := { s with twi_reg := reg }
    let s := { s with twi_masterBufferPtr := Ptr.masterBuffer }
    let s := { s with twi_masterBufferIndex := 0 }
    let s := { s with twi_masterBufferLength := 0 }
    let s := { s with twi_slarw := TW_WRITE }
    let s := { s with twi_slarw := (s.twi_slarw ||| (address <<< 1)) % 256 }
    let s := out (HwOp.TWCR TWCR_START) s
    if s.twi_error = 0xFF then (0, s) else (-2, s)

/-! ## Transaction queue -/

/-- Function `twi_queue_init()`: both loops store `NULL` in every slot. -/
def twi_queue_init (s : Twi) : Twi :=
  let s := { s with twi_read_queue := List.replicate (TWI_RD_TRANS_QUEUE_SIZE s) NULL }
  { s with twi_wr1_queue := List.replicate (TWI_WR1_TRANS_QUEUE_SIZE s) NULL }

/-- The block of `twi_check_queues` run for an occupied read slot `p`: hand the request to
`twi_nonBlockingReadRegisterFrom`; unless that reports busy (-1), clear the slot. -/
def twi_check_queues_read (p : Nat) (s : Twi) : Twi :=
  let tr := s.twi_read_queue.getD p NULL
  let r := twi_nonBlockingReadRegisterFrom (s.rd_trans tr).address (s.rd_trans tr).reg
    (s.rd_trans tr).data (s.rd_trans tr).length s
  if r.1 = -1 then r.2
  else { r.2 with twi_read_queue := r.2.twi_read_queue.set p NULL }

/-- The block of `twi_check_queues` run for an occupied masked-write slot `p`: hand the request
to `twi_writeRegisterMaskedOneByte`; unless that reports busy (-1), clear the slot. -/
def twi_check_queues_wr1 (p : Nat) (s : Twi) : Twi :=
  let tw1 := s.twi_wr1_queue.getD p NULL
  let r := twi_writeRegisterMaskedOneByte (s.wr1_trans tw1).address (s.wr1_trans tw1).reg
    (s.wr1_trans tw1).data (s.wr1_trans tw1).mask s
  if r.1 = -1 then r.2
  else { r.2 with twi_wr1_queue := r.2.twi_wr1_queue.set p NULL }

/-- The `for` loop of `twi_check_queues`, entered at counter `p`.  The first argument bounds
the number of iterations; `twi_check_queues` passes the larger queue size, which the loop
condition never lets the counter exceed. -/
def twi_check_queues_loop : Nat → Nat → Twi → Twi
  | 0, _, s => s
  | fuel + 1, p, s =>
    if p < TWI_RD_TRANS_QUEUE_SIZE s ∨ p < TWI_WR1_TRANS_QUEUE_SIZE s then
      if p < TWI_RD_TRANS_QUEUE_SIZE s ∧ s.twi_read_queue.getD p NULL ≠ NULL then
        twi_check_queues_read p s
      else if p < TWI_WR1_TRANS_QUEUE_SIZE s ∧ s.twi_wr1_queue.getD p NULL ≠ NULL then
        twi_check_queues_wr1 p s
      else twi_check_queues_loop fuel (p + 1) s
    else s

/-- Function `twi_check_queues()`. -/
def twi_check_queues (s : Twi) : Twi :=
  twi_check_queues_loop (max (TWI_RD_TRANS_QUEUE_SIZE s) (TWI_WR1_TRANS_QUEUE_SIZE s)) 0 s

/-- Function `twi_queue_read_transaction(trans, priority)`. -/
def twi_queue_read_transaction (trans priority : Nat) (s : Twi) : Int × Twi :=
  if priority ≥ TWI_RD_TRANS_QUEUE_SIZE s then (-2, s)
  else
    let rv : Nat := 0
    if s.twi_read_queue.getD priority NULL ≠ NULL then
      let rv : Nat := 255
      (int8_of_uint8 rv, s)
    else
      let s := { s with twi_read_queue := s.twi_read_queue.set priority trans }
      let s := if s.twi_state = TWI_READY then twi_check_queues s else s
      (int8_of_uint8 rv, s)

/-- Function `twi_queue_write_one_masked_transaction(trans, priority)`. -/
def twi_queue_write_one_masked_transaction (trans priority : Nat) (s : Twi) : Int × Twi :=
  if priority ≥ TWI_WR1_TRANS_QUEUE_SIZE s then (-2, s)
  else
    let rv : Nat := 0
    if s.twi_wr1_queue.getD priority NULL ≠ NULL then
      let rv : Nat := 255
      (int8_of_uint8 rv, s)
    else
      let s := { s with twi_wr1_queue := s.twi_wr1_queue.set priority trans }
      let s := if s.twi_state = TWI_READY then twi_check_queues s else s
      (int8_of_uint8 rv, s)

/-! ## Initialisation -/

/-- Function `twi_init()`. -/
def twi_init (s : Twi) : Twi :=
  let s := { s with twi_state := TWI_READY }
  let s := out HwOp.PORT_pullups s
  let s := out HwOp.TWSR_prescaler s
  let s := out HwOp.TWBR_bitrate s
  let s := twi_queue_init s
  out (HwOp.TWCR TWCR_ENABLE) s

/-! ## Interrupt service routine -/

/-- Function `twi_reply(ack)`. -/
def twi_reply (ack : Nat) (s : Twi) : Twi :=
  if ack ≠ 0 then out (HwOp.TWCR TWCR_ACK) s else out (HwOp.TWCR TWCR_NACK) s

/-- Function `twi_stop()`: the hardware clears `TWSTO` once the stop condition is on the bus, which ends
the wait loop. -/
def twi_stop (s : Twi) : Twi :=
  let s := out (HwOp.TWCR TWCR_STOP) s
  let s := { s with twi_state := TWI_READY }
  twi_check_queues s

/-- Function `twi_releaseBus()`. -/
def twi_releaseBus (s : Twi) : Twi :=
  let s := out (HwOp.TWCR TWCR_RELEASE) s
  { s with twi_state := TWI_READY }

/-- Body of `case TW_MT_DATA_ACK:` (also reached by fall-through from `TW_MT_SLA_ACK`). -/
def TWI_vect_MT_DATA_ACK (s : Twi) : Twi :=
  if s.twi_state = TWI_MTRX ∨ s.twi_state = TWI_M_RMW then
    let s := out (HwOp.TWCR TWCR_STOP) s
    let s := { s with twi_slarw := s.twi_slarw ||| TW_READ }
    out (HwOp.TWCR TWCR_START) s
  else if s.twi_masterBufferIndex < s.twi_masterBufferLength then
    let v := load s.twi_masterBufferPtr s.twi_masterBufferIndex s
    let s := load_ub s.twi_masterBufferPtr s.twi_masterBufferIndex s
    let s := { s with twi_masterBufferIndex := (s.twi_masterBufferIndex + 1) % 256 }
    let s := out (HwOp.TWDR v) s
    twi_reply 1 s
  else twi_stop s

/-- Body of `case TW_MR_SLA_ACK:` (also reached by fall-through from `TW_MR_DATA_ACK`). -/
def TWI_vect_MR_SLA_ACK (s : Twi) : Twi :=
  if s.twi_masterBufferIndex < s.twi_masterBufferLength then twi_reply 1 s else twi_reply 0 s

/-- The statement `*(twi_masterBufferPtr+twi_masterBufferIndex++) = TWDR;`. -/
def TWI_vect_put (twdr : Nat) (s : Twi) : Twi :=
  let s := store s.twi_masterBufferPtr s.twi_masterBufferIndex (twdr % 256) s
  { s with twi_masterBufferIndex := (s.twi_masterBufferIndex + 1) % 256 }

/-- Function `SIGNAL(TWI_vect)`: `status` is `TW_STATUS`, `twdr` the data register at the interrupt.
Status codes without a body of their own (the slave codes, `TW_NO_INFO`, and values the
switch does not list) do nothing. -/
def TWI_vect (status twdr : Nat) (s : Twi) : Twi :=
  if status = TW_START ∨ status = TW_REP_START then
    let s := out (HwOp.TWDR s.twi_slarw) s
    twi_reply 1 s
  else if status = TW_MT_SLA_ACK then
    if s.twi_state = TWI_MTRX ∨ s.twi_state = TWI_M_RMW then
      let s := out (HwOp.TWDR s.twi_reg) s
      twi_reply 1 s
    else TWI_vect_MT_DATA_ACK s
  else if status = TW_MT_DATA_ACK then TWI_vect_MT_DATA_ACK s
  else if status = TW_MT_SLA_NACK then
    let s := { s with twi_error := TW_MT_SLA_NACK }
    twi_stop s
  else if status = TW_MT_DATA_NACK then
    let s := { s with twi_error := TW_MT_DATA_NACK }
    twi_stop s
  else if status = TW_MT_ARB_LOST then
    let s := { s with twi_error := TW_MT_ARB_LOST }
    twi_releaseBus s
  else if status = TW_MR_DATA_ACK then
    let s := TWI_vect_put twdr s
    TWI_vect_MR_SLA_ACK s
  else if status = TW_MR_SLA_ACK then TWI_vect_MR_SLA_ACK s
  else if status = TW_MR_DATA_NACK then
    let s := TWI_vect_put twdr s
    if s.twi_state = TWI_M_RMW then
      let merged := ((load s.twi_masterBufferPtr 0 s &&& (255 - s.twi_rmw_mask % 256))
        ||| (s.twi_rmw_data &&& s.twi_rmw_mask)) % 256
      let s := store s.twi_masterBufferPtr 1 merged s
      let s := store s.twi_masterBufferPtr 0 s.twi_reg s
      let s := { s with twi_masterBufferIndex := 0 }
      let s := { s with twi_masterBufferLength := 2 }
      let s := { s with twi_state := TWI_MTX }
      let s := { s with twi_slarw := s.twi_slarw &&& 254 }
      out (HwOp.TWCR TWCR_START) s
    else twi_stop s
  else if status = TW_MR_SLA_NACK then twi_stop s
  else if status = TW_BUS_ERROR then
    let s := { s with twi_error := TW_BUS_ERROR }
    twi_stop s
  else s

/-- An interrupt: the status code and the data register content it finds. -/
structure Event where
  status : Nat
  twdr : Nat
  deriving DecidableEq, Repr

/-- The handler run on a sequence of interrupts, in order. -/
def run (evs : List Event) (s : Twi) : Twi :=
  evs.foldl (fun s e => TWI_vect e.status e.twdr s) s

/-! ## Blocking transfer operations -/

/-- A busy-wait loop `while (cond) continue;` over the shared state: each time the condition
holds the next interrupt is served; without a further interrupt the loop spins for ever. -/
def spin (cond : Twi → Bool) : List Event → Twi → Option (Twi × List Event)
  | [], s => if cond s then none else some (s, [])
  | e :: es, s => if cond s then spin cond es (TWI_vect e.status e.twdr s) else some (s, e :: es)

/-- The loop `for(i = 0; i < length; ++i) twi_masterBuffer[i] = data[i];` of `twi_writeTo`
(`length` is at most `TWI_BUFFER_LENGTH` there). -/
def twi_writeTo_copy (data length : Nat) (s : Twi) : Twi :=
  (List.range length).foldl
    (fun s i => { s with twi_masterBuffer := upd s.twi_masterBuffer i (s.ram (data + i)) }) s

/-- The final `if` chain of `twi_writeTo`, mapping the error record to the status code. -/
def twi_writeTo_status (s : Twi) : Nat :=
  if s.twi_error = 0xFF then 0
  else if s.twi_error = TW_MT_SLA_NACK then 2
  else if s.twi_error = TW_MT_DATA_NACK then 3
  else 4

/-- The straight-line part of `twi_writeTo` between the claim loop and the wait loop: take the
bus, reset the error record, set up the buffer variables, copy the data, build the address
byte and send the start condition. -/
def twi_writeTo_setup (address data length : Nat) (s : Twi) : Twi :=
  let s := { s with twi_state := TWI_MTX }
  let s := { s with twi_error := 0xFF }
  let s := { s with twi_masterBufferPtr := Ptr.masterBuffer }
  let s := { s with twi_masterBufferIndex := 0 }
  let s := { s with twi_masterBufferLength := length }
  let s := twi_writeTo_copy data length s
  let s := { s with twi_slarw := TW_WRITE }
  let s := { s with twi_slarw := (s.twi_slarw ||| (address <<< 1)) % 256 }
  out (HwOp.TWCR TWCR_START) s

/-- Function `twi_writeTo(address, data, length, wait)`, with `data` the address of the caller's bytes,
run against the interrupts `evs`; the result carries the interrupts not yet served. -/
def twi_writeTo (address data length wait : Nat) (evs : List Event) (s : Twi) :
    Option (Nat × Twi × List Event) :=
  if TWI_BUFFER_LENGTH < length then some (1, s, evs)
  else
    match spin (fun s => decide (s.twi_state ≠ TWI_READY)) evs s with
    | none => none
    | some (s, evs) =>
      let s := twi_writeTo_setup address data length s
      match spin (fun s => decide (wait ≠ 0) && decide (s.twi_state = TWI_MTX)) evs s with
      | none => none
      | some (s, evs) => some (twi_writeTo_status s, s, evs)

/-- The loop `while(twi_nonBlockingReadFrom(address, twi_masterBuffer, length)) continue;`. -/
def twi_readFrom_claim (address length : Nat) : List Event → Twi → Option (Twi × List Event)
  | [], s =>
    let r := twi_nonBlockingReadFrom address Ptr.masterBuffer length s
    if r.1 ≠ 0 then none else some (r.2, [])
  | e :: es, s =>
    let r := twi_nonBlockingReadFrom address Ptr.masterBuffer length s
    if r.1 ≠ 0 then twi_readFrom_claim address length es (TWI_vect e.status e.twdr r.2)
    else some (r.2, e :: es)

/-- The loop `for(i = 0; i < length; ++i) data[i] = twi_masterBuffer[i];` of `twi_readFrom`
(`length` is at most `TWI_BUFFER_LENGTH` there). -/
def twi_readFrom_copy (data length : Nat) (s : Twi) : Twi :=
  (List.range length).foldl
    (fun s i => { s with ram := upd s.ram (data + i) (s.twi_masterBuffer i) }) s

/-- Function `twi_readFrom(address, data, length)`, with `data` the address of the destination bytes,
run against the interrupts `evs`; the result carries the interrupts not yet served. -/
def twi_readFrom (address data length : Nat) (evs : List Event) (s : Twi) :
    Option (Nat × Twi × List Event) :=
  if TWI_BUFFER_LENGTH < length then some (0, s, evs)
  else
    match twi_readFrom_claim address length evs s with
    | none => none
    | some (s, evs) =>
      match spin (fun s => decide (s.twi_state = TWI_MRX)) evs s with
      | none => none
      | some (s, evs) =>
        let length := if s.twi_masterBufferIndex < length then s.twi_masterBufferIndex else length
        let s := twi_readFrom_copy data length s
        some (length, s, evs)

/-! ## Reference states -/

/-- An engine with `nr` read slots and `nw` masked-write slots, all variables zero, before
`twi_init`. -/
def blank (nr nw : Nat) : Twi :=
  { twi_state := TWI_READY, twi_slarw := 0, twi_reg := 0, twi_rmw_data := 0, twi_rmw_mask := 0,
    twi_masterBuffer := fun _ => 0, twi_masterBufferIndex := 0, twi_masterBufferLength := 0,
    twi_masterBufferPtr := Ptr.masterBuffer, twi_error := 0,
    twi_read_queue := List.replicate nr NULL, twi_wr1_queue := List.replicate nw NULL,
    ram := fun _ => 0, rd_trans := fun _ => ⟨0, 0, Ptr.ram 0, 0⟩,
    wr1_trans := fun _ => ⟨0, 0, 0, 0⟩, hw := [], ub := false }

/-- The state the read phase of a masked write reaches just before its final byte: the request
`(address, reg, data, mask)` accepted by an initialised engine with two slots per direction,
then start, address ack, register ack, start and read-address ack. -/
def rmw_before_final (address reg data mask : Nat) : Twi :=
  run [⟨TW_START, 0⟩, ⟨TW_MT_SLA_ACK, 0⟩, ⟨TW_MT_DATA_ACK, 0⟩, ⟨TW_START, 0⟩, ⟨TW_MR_SLA_ACK, 0⟩]
    (twi_writeRegisterMaskedOneByte address reg data mask (twi_init (blank 2 2))).2

/-- An engine in which a read request is pending while the bus is Ready: two reads are queued
(priority 0 is dispatched at once, priority 1 stays pending behind it) and the running
transaction then loses arbitration, which releases the bus without queue dispatch. -/
def ready_with_pending_read : Twi :=
  let s := { twi_init (blank 2 2) with
    rd_trans := fun p => if p = 1 then ⟨0x21, 0x12, Ptr.ram 100, 2⟩ else ⟨0x22, 0x13, Ptr.ram 200, 1⟩ }
  let s := (twi_queue_read_transaction 1 0 s).2
  let s := (twi_queue_read_transaction 2 1 s).2
  run [⟨TW_START, 0⟩, ⟨TW_MT_ARB_LOST, 0⟩] s

/-- An engine in which requests of both directions are pending while the bus is Ready: a
non-blocking read owns the bus while a masked write is queued at priority 0 and a read at
priority 1; the running transaction then loses arbitration. -/
def ready_with_two_pending : Twi :=
  let s := { twi_init (blank 2 2) with
    rd_trans := fun _ => ⟨0x21, 0x12, Ptr.ram 100, 2⟩,
    wr1_trans := fun _ => ⟨0x23, 0x14, 0x0F, 0x3C⟩ }
  let s := (twi_nonBlockingReadFrom 0x20 (Ptr.ram 300) 1 s).2
  let s := (twi_queue_write_one_masked_transaction 3 0 s).2
  let s := (twi_queue_read_transaction 1 1 s).2
  run [⟨TW_START, 0⟩, ⟨TW_MT_ARB_LOST, 0⟩] s

/-! ## Predicates used in the statements -/

/-- The engine variables hold the read request `r` just handed over by queue dispatch: state
`TWI_MTRX`, address byte with the write bit, register, destination, programmed length
`length - 1` on eight bits, index 0 and a clean error record. -/
def loaded_read (r : twi_transaction_read) (s : Twi) : Prop :=
  s.twi_state = TWI_MTRX ∧ s.twi_slarw = (r.address <<< 1) % 256 ∧ s.twi_reg = r.reg ∧
  s.twi_masterBufferPtr = r.data ∧ s.twi_masterBufferLength = (r.length + 255) % 256 ∧
  s.twi_masterBufferIndex = 0 ∧ s.twi_error = 0xFF

/-- The engine variables hold the masked-write request `w` just handed over by queue dispatch:
state `TWI_M_RMW`, address byte with the write bit, register, data and mask, the internal
buffer with length 0 and index 0, and a clean error record. -/
def loaded_wr1 (w : twi_transaction_write_one_masked) (s : Twi) : Prop :=
  s.twi_state = TWI_M_RMW ∧ s.twi_slarw = (w.address <<< 1) % 256 ∧ s.twi_reg = w.reg ∧
  s.twi_rmw_data = w.data ∧ s.twi_rmw_mask = w.mask ∧
  s.twi_masterBufferPtr = Ptr.masterBuffer ∧ s.twi_masterBufferLength = 0 ∧
  s.twi_masterBufferIndex = 0 ∧ s.twi_error = 0xFF

instance (r : twi_transaction_read) (s : Twi) : Decidable (loaded_read r s) := by
  unfold loaded_read; infer_instance

instance (w : twi_transaction_write_one_masked) (s : Twi) : Decidable (loaded_wr1 w s) := by
  unfold loaded_wr1; infer_instance

/-- No request is pending in any slot of either queue. -/
def nothing_pending (s : Twi) : Prop :=
  ∀ q, s.twi_read_queue.getD q NULL = NULL ∧ s.twi_wr1_queue.getD q NULL = NULL

/-- No request is pending in a slot of priority `q` with `lo ≤ q < hi`. -/
def none_pending (lo hi : Nat) (s : Twi) : Prop :=
  ∀ q, lo ≤ q → q < hi →
    s.twi_read_queue.getD q NULL = NULL ∧ s.twi_wr1_queue.getD q NULL = NULL

/-! ## Auxiliary functions for the statements -/

/-- Buffer content after the bytes `bs` are stored from index `i` on. -/
def recv_buf (f : Nat → Nat) (i : Nat) : List Nat → Nat → Nat
  | [] => f
  | b :: bs => recv_buf (upd f i (b % 256)) (i + 1) bs

/-- Replies the handler gives while the bytes `bs` arrive from index `i` on, with programmed
length `len`: ack while more bytes are expected, nack otherwise. -/
def recv_hw (i len : Nat) : List Nat → List HwOp
  | [] => []
  | _ :: bs => HwOp.TWCR (if i + 1 < len then TWCR_ACK else TWCR_NACK) :: recv_hw (i + 1) len bs

/-- The interrupts "data received, ack sent" carrying the bytes `bs`. -/
def data_acks (bs : List Nat) : List Event := bs.map (fun b => ⟨TW_MR_DATA_ACK, b⟩)

/-- The interrupts of a read that is cut short: start, read-address ack, the bytes `bs` each
acknowledged, then a bus error. -/
def short_read_events (t0 t1 t2 : Nat) (bs : List Nat) : List Event :=
  ⟨TW_START, t0⟩ :: ⟨TW_MR_SLA_ACK, t1⟩ :: (data_acks bs ++ [⟨TW_BUS_ERROR, t2⟩])

/-- The interrupts of a complete read: start, read-address ack, the bytes `bs` each
acknowledged, then the final byte `last` answered with nack. -/
def full_read_events (t0 t1 : Nat) (bs : List Nat) (last : Nat) : List Event :=
  ⟨TW_START, t0⟩ :: ⟨TW_MR_SLA_ACK, t1⟩ :: (data_acks bs ++ [⟨TW_MR_DATA_NACK, last⟩])

/-- The interrupts of a masked write whose every byte is acknowledged: start, address ack,
register ack, start, read-address ack, final byte `old`, repeated start, address ack, data ack
(register address), data ack (merged byte).  The function `t` gives the data register content
found by the interrupts that do not read it. -/
def rmw_events (t : Nat → Nat) (old : Nat) : List Event :=
  [⟨TW_START, t 0⟩, ⟨TW_MT_SLA_ACK, t 1⟩, ⟨TW_MT_DATA_ACK, t 2⟩, ⟨TW_START, t 3⟩,
   ⟨TW_MR_SLA_ACK, t 4⟩, ⟨TW_MR_DATA_NACK, old⟩, ⟨TW_REP_START, t 6⟩, ⟨TW_MT_SLA_ACK, t 7⟩,
   ⟨TW_MT_DATA_ACK, t 8⟩, ⟨TW_MT_DATA_ACK, t 9⟩]

/-- The engine after the first `k` interrupts of a masked write `(address, reg, data, mask)`
offered to the engine `s`. -/
def rmw_after (s : Twi) (address reg data mask : Nat) (t : Nat → Nat) (old k : Nat) : Twi :=
  run ((rmw_events t old).take k) (twi_writeRegisterMaskedOneByte address reg data mask s).2

/-- An engine in which a masked write owns the bus and a read request, offered meanwhile, is
pending at priority 0. -/
def rmw_with_pending_read : Twi :=
  let s := { twi_init (blank 2 2) with rd_trans := fun _ => ⟨0x21, 0x12, Ptr.ram 100, 2⟩ }
  let s := (twi_writeRegisterMaskedOneByte 0x20 5 0x0F 0x0F s).2
  (twi_queue_read_transaction 1 0 s).2

/-- The request that comes first in dispatch order in the engine `s` (read[0], write[0],
read[1], write[1], ...) has been handed to the engine in `s1`: its fields are loaded, its slot
is empty and every other slot is as in `s`. -/
def first_dispatched (s s1 : Twi) : Prop :=
  ∃ t, none_pending 0 t s ∧
    ((s.twi_read_queue.getD t NULL ≠ NULL ∧
        loaded_read (s.rd_trans (s.twi_read_queue.getD t NULL)) s1 ∧
        s1.twi_read_queue = s.twi_read_queue.set t NULL ∧
        s1.twi_wr1_queue = s.twi_wr1_queue) ∨
     (s.twi_read_queue.getD t NULL = NULL ∧ s.twi_wr1_queue.getD t NULL ≠ NULL ∧
        loaded_wr1 (s.wr1_trans (s.twi_wr1_queue.getD t NULL)) s1 ∧
        s1.twi_wr1_queue = s.twi_wr1_queue.set t NULL ∧
        s1.twi_read_queue = s.twi_read_queue))

/-- The interrupts of a write whose every byte is acknowledged: start, address ack, and one
data ack per entry of `ts` (the data register content each finds). -/
def write_events (t0 t1 : Nat) (ts : List Nat) : List Event :=
  ⟨TW_START, t0⟩ :: ⟨TW_MT_SLA_ACK, t1⟩ :: ts.map (fun x => ⟨TW_MT_DATA_ACK, x⟩)

/-- The register writes of the handler while it sends `n` buffer bytes from index `i` on: each
byte is loaded into the data register and followed by an ack reply. -/
def send_log (buf : Nat → Nat) (i : Nat) : Nat → List HwOp
  | 0 => []
  | n + 1 => HwOp.TWDR (buf i) :: HwOp.TWCR TWCR_ACK :: send_log buf (i + 1) n

/-- The values written to the data register, in order, in a log of register writes. -/
def twdr_writes (hw : List HwOp) : List Nat :=
  hw.filterMap (fun op => match op with
    | HwOp.TWDR v => some v
    | _ => none)

/-- The engine after a non-blocking read `(address, dst, L)` offered to the engine `s` and the
interrupts `evs`. -/
def read_after (s : Twi) (address : Nat) (dst : Ptr) (L : Nat) (evs : List Event) : Twi :=
  run evs (twi_nonBlockingReadFrom address dst L s).2

/-! ## Peripheral driver (MCP23017.c) -/

/-- The constants the driver takes from the absent headers `MCP23017.h` and `config.h`
(register addresses, `INPUT`, `DO_WAIT`) and its global `i2caddr`, as parameters. -/
structure MCP23017_consts where
  i2caddr : Nat
  MCP23017_IODIRA : Nat
  MCP23017_IODIRB : Nat
  MCP23017_GPIOA : Nat
  MCP23017_GPIOB : Nat
  MCP23017_OLATA : Nat
  MCP23017_OLATB : Nat
  INPUT : Nat
  DO_WAIT : Nat

/-- The statement `localbuf[1] |= 1 << p;` on the byte `v`. -/
def set_pin_bit (v p : Nat) : Nat := (v ||| (1 <<< p)) % 256

/-- The statement `localbuf[1] &= ~(1 << p);` on the byte `v`. -/
def clear_pin_bit (v p : Nat) : Nat := (v &&& (255 - (1 <<< p) % 256)) % 256

/-- Function `MCP23017_pinMode(p, d)`, run against the interrupts `evs`; `localbuf` is the
address of the local two-byte array. -/
def MCP23017_pinMode (c : MCP23017_consts) (localbuf p d : Nat) (evs : List Event) (s : Twi) :
    Option (Twi × List Event) :=
  if p > 15 then some (s, evs)
  else
    let reg := if p < 8 then c.MCP23017_IODIRA else c.MCP23017_IODIRB
    let p := if p < 8 then p else p - 8
    let s := { s with ram := upd s.ram localbuf reg }
    match twi_writeTo c.i2caddr localbuf 1 c.DO_WAIT evs s with
    | none => none
    | some (r, s, evs) =>
      if r ≠ 0 then some (s, evs)
      else
        match twi_readFrom c.i2caddr (localbuf + 1) 1 evs s with
        | none => none
        | some (n, s, evs) =>
          if n ≠ 1 then some (s, evs)
          else
            let v := if d = c.INPUT then set_pin_bit (s.ram (localbuf + 1)) p
              else clear_pin_bit (s.ram (localbuf + 1)) p
            let s := { s with ram := upd s.ram (localbuf + 1) v }
            match twi_writeTo c.i2caddr localbuf 2 c.DO_WAIT evs s with
            | none => none
            | some (_, s, evs) => some (s, evs)

/-- Function `MCP23017_digitalWrite(p, d)`, run against the interrupts `evs`; `localbuf` and
`olataddr` are the addresses of the two local variables. -/
def MCP23017_digitalWrite (c : MCP23017_consts) (localbuf olataddr p d : Nat)
    (evs : List Event) (s : Twi) : Option (Twi × List Event) :=
  if p > 15 then some (s, evs)
  else
    let olat := if p < 8 then c.MCP23017_OLATA else c.MCP23017_OLATB
    let reg := if p < 8 then c.MCP23017_GPIOA else c.MCP23017_GPIOB
    let p := if p < 8 then p else p - 8
    let s := { s with ram := upd s.ram olataddr olat }
    let s := { s with ram := upd s.ram localbuf reg }
    match twi_writeTo c.i2caddr olataddr 1 c.DO_WAIT evs s with
    | none => none
    | some (_, s, evs) =>
      match twi_readFrom c.i2caddr (localbuf + 1) 1 evs s with
      | none => none
      | some (n, s, evs) =>
        if n ≠ 1 then some (s, evs)
        else
          let v := if d ≠ 0 then set_pin_bit (s.ram (localbuf + 1)) p
            else clear_pin_bit (s.ram (localbuf + 1)) p
          let s := { s with ram := upd s.ram (localbuf + 1) v }
          match twi_writeTo c.i2caddr localbuf 2 c.DO_WAIT evs s with
          | none => none
          | some (_, s, evs) => some (s, evs)

/-- The interrupts of a read-modify-write done by the driver with every byte acknowledged: a
one-byte write (register address), a one-byte read delivering `old`, a two-byte write. -/
def driver_events (t : Nat → Nat) (old : Nat) : List Event :=
  write_events (t 0) (t 1) [t 2] ++
    (full_read_events (t 3) (t 4) [] old ++ write_events (t 5) (t 6) [t 7, t 8])

/-- Register values of a commonly used header, for the concrete examples. -/
def example_consts : MCP23017_consts :=
  { i2caddr := 0x20, MCP23017_IODIRA := 0x00, MCP23017_IODIRB := 0x01, MCP23017_GPIOA := 0x12,
    MCP23017_GPIOB := 0x13, MCP23017_OLATA := 0x14, MCP23017_OLATB := 0x15, INPUT := 0,
    DO_WAIT := 1 }

/-! ## Bit-level facts -/

/-- The masked merge of two bytes is a byte. -/
theorem merge_lt {old data : Nat} (mask : Nat) (hold : old < 256) (hdata : data < 256) :
    (old &&& (255 - mask % 256)) ||| (data &&& mask) < 256 := by
  have h1 : old &&& (255 - mask % 256) < 2 ^ 8 :=
    Nat.lt_of_le_of_lt Nat.and_le_left (by simpa using hold)
  have h2 : data &&& mask < 2 ^ 8 := Nat.lt_of_le_of_lt Nat.and_le_left (by simpa using hdata)
  simpa using Nat.or_lt_two_pow h1 h2

/-- Bit `i` of the eight-bit complement `255 - mask`. -/
theorem testBit_compl8 {mask : Nat} (hmask : mask < 256) (i : Nat) :
    (255 - mask).testBit i = (decide (i < 8) && !mask.testBit i) := by
  have h : mask < 2 ^ 8 := by simpa using hmask
  have h2 : 255 - mask = 2 ^ 8 - (mask + 1) := by omega
  rw [h2]
  exact Nat.testBit_two_pow_sub_succ h i

/-- Bit `i` of the masked merge: the bit of `data` inside the mask, the bit of `old` outside. -/
theorem merge_testBit {old data mask : Nat} (hold : old < 256) (hmask : mask < 256) (i : Nat) :
    ((old &&& (255 - mask % 256)) ||| (data &&& mask)).testBit i =
      if mask.testBit i then data.testBit i else old.testBit i := by
  rw [Nat.mod_eq_of_lt hmask, Nat.testBit_or, Nat.testBit_and, Nat.testBit_and,
    testBit_compl8 hmask]
  by_cases hi : i < 8
  · cases hm : mask.testBit i <;> simp [hi]
  · have ho : old.testBit i = false :=
      Nat.testBit_lt_two_pow (Nat.lt_of_lt_of_le hold
        (by simpa using Nat.pow_le_pow_right (by decide : 0 < 2) (Nat.le_of_not_lt hi)))
    have hm : mask.testBit i = false :=
      Nat.testBit_lt_two_pow (Nat.lt_of_lt_of_le hmask
        (by simpa using Nat.pow_le_pow_right (by decide : 0 < 2) (Nat.le_of_not_lt hi)))
    simp [ho, hm]

/-! ## Facts about queue dispatch -/

/-- A slot that holds a request lies inside its array. -/
theorem lt_length_of_getD_ne {l : List Nat} {p : Nat} (h : l.getD p NULL ≠ NULL) :
    p < l.length := by
  by_contra hp
  exact h (List.getD_eq_default _ _ (Nat.le_of_not_lt hp))

/-- The loop started at or before `t`, with nothing pending before `t` and a read pending at
`t`, runs the read block at `t`. -/
theorem loop_reaches_read (s : Twi) (t : Nat) (hr : s.twi_read_queue.getD t NULL ≠ NULL) :
    ∀ fuel p, p ≤ t → t < p + fuel → none_pending p t s →
      twi_check_queues_loop fuel p s = twi_check_queues_read t s := by
  intro fuel
  induction fuel with
  | zero => intro p h1 h2 _; omega
  | succ n ih =>
    intro p h1 h2 hnone
    have ht : t < TWI_RD_TRANS_QUEUE_SIZE s := lt_length_of_getD_ne hr
    rcases Nat.eq_or_lt_of_le h1 with heq | hlt
    · subst heq
      rw [twi_check_queues_loop, if_pos (Or.inl ht), if_pos ⟨ht, hr⟩]
    · have hp := hnone p (Nat.le_refl p) hlt
      have hcond : p < TWI_RD_TRANS_QUEUE_SIZE s ∨ p < TWI_WR1_TRANS_QUEUE_SIZE s :=
        Or.inl (Nat.lt_trans hlt ht)
      have hrec := ih (p + 1) hlt (by omega)
        (fun q hq1 hq2 => hnone q (by omega) hq2)
      rw [twi_check_queues_loop, if_pos hcond, if_neg (fun h => h.2 hp.1),
        if_neg (fun h => h.2 hp.2), hrec]

/-- The loop started at or before `t`, with nothing pending before `t`, no read pending at `t`
and a masked write pending at `t`, runs the masked-write block at `t`. -/
theorem loop_reaches_wr1 (s : Twi) (t : Nat) (hr : s.twi_read_queue.getD t NULL = NULL)
    (hw : s.twi_wr1_queue.getD t NULL ≠ NULL) :
    ∀ fuel p, p ≤ t → t < p + fuel → none_pending p t s →
      twi_check_queues_loop fuel p s = twi_check_queues_wr1 t s := by
  intro fuel
  induction fuel with
  | zero => intro p h1 h2 _; omega
  | succ n ih =>
    intro p h1 h2 hnone
    have ht : t < TWI_WR1_TRANS_QUEUE_SIZE s := lt_length_of_getD_ne hw
    rcases Nat.eq_or_lt_of_le h1 with heq | hlt
    · subst heq
      rw [twi_check_queues_loop, if_pos (Or.inr ht), if_neg (fun h => h.2 hr), if_pos ⟨ht, hw⟩]
    · have hp := hnone p (Nat.le_refl p) hlt
      have hcond : p < TWI_RD_TRANS_QUEUE_SIZE s ∨ p < TWI_WR1_TRANS_QUEUE_SIZE s :=
        Or.inr (Nat.lt_trans hlt ht)
      have hrec := ih (p + 1) hlt (by omega)
        (fun q hq1 hq2 => hnone q (by omega) hq2)
      rw [twi_check_queues_loop, if_pos hcond, if_neg (fun h => h.2 hp.1),
        if_neg (fun h => h.2 hp.2), hrec]

/-- With no request pending anywhere, the loop changes nothing. -/
theorem loop_nothing_pending (s : Twi) :
    ∀ fuel p, (∀ q, p ≤ q →
        s.twi_read_queue.getD q NULL = NULL ∧ s.twi_wr1_queue.getD q NULL = NULL) →
      twi_check_queues_loop fuel p s = s := by
  intro fuel
  induction fuel with
  | zero => intro p _; rfl
  | succ n ih =>
    intro p hnone
    have hp := hnone p (Nat.le_refl p)
    have hrec := ih (p + 1) (fun q hq => hnone q (by omega))
    rw [twi_check_queues_loop]
    split
    · rw [if_neg (fun h => h.2 hp.1), if_neg (fun h => h.2 hp.2), hrec]
    · rfl

/-- Dispatch with a read pending at `t` and nothing pending before it. -/
theorem check_queues_read (s : Twi) (t : Nat) (hr : s.twi_read_queue.getD t NULL ≠ NULL)
    (hnone : none_pending 0 t s) : twi_check_queues s = twi_check_queues_read t s := by
  have ht : t < TWI_RD_TRANS_QUEUE_SIZE s := lt_length_of_getD_ne hr
  exact loop_reaches_read s t hr _ 0 (Nat.zero_le t)
    (by have := Nat.le_max_left (TWI_RD_TRANS_QUEUE_SIZE s) (TWI_WR1_TRANS_QUEUE_SIZE s); omega)
    hnone

/-- Dispatch with a masked write pending at `t`, no read pending at `t` and nothing pending
before it. -/
theorem check_queues_wr1 (s : Twi) (t : Nat) (hr : s.twi_read_queue.getD t NULL = NULL)
    (hw : s.twi_wr1_queue.getD t NULL ≠ NULL) (hnone : none_pending 0 t s) :
    twi_check_queues s = twi_check_queues_wr1 t s := by
  have ht : t < TWI_WR1_TRANS_QUEUE_SIZE s := lt_length_of_getD_ne hw
  exact loop_reaches_wr1 s t hr hw _ 0 (Nat.zero_le t)
    (by have := Nat.le_max_right (TWI_RD_TRANS_QUEUE_SIZE s) (TWI_WR1_TRANS_QUEUE_SIZE s); omega)
    hnone

/-- The read block on a Ready bus loads the request of slot `t` and clears that slot only. -/
theorem check_queues_read_ready (s : Twi) (t : Nat) (hready : s.twi_state = TWI_READY) :
    loaded_read (s.rd_trans (s.twi_read_queue.getD t NULL)) (twi_check_queues_read t s) ∧
    (twi_check_queues_read t s).twi_read_queue = s.twi_read_queue.set t NULL ∧
    (twi_check_queues_read t s).twi_wr1_queue = s.twi_wr1_queue ∧
    (twi_check_queues_read t s).hw = s.hw ++ [HwOp.TWCR TWCR_START] := by
  simp [twi_check_queues_read, twi_nonBlockingReadRegisterFrom, loaded_read, out, hready,
    TW_WRITE]

/-- The masked-write block on a Ready bus loads the request of slot `t` and clears that slot
only. -/
theorem check_queues_wr1_ready (s : Twi) (t : Nat) (hready : s.twi_state = TWI_READY) :
    loaded_wr1 (s.wr1_trans (s.twi_wr1_queue.getD t NULL)) (twi_check_queues_wr1 t s) ∧
    (twi_check_queues_wr1 t s).twi_wr1_queue = s.twi_wr1_queue.set t NULL ∧
    (twi_check_queues_wr1 t s).twi_read_queue = s.twi_read_queue ∧
    (twi_check_queues_wr1 t s).hw = s.hw ++ [HwOp.TWCR TWCR_START] := by
  simp [twi_check_queues_wr1, twi_writeRegisterMaskedOneByte, loaded_wr1, out, hready,
    TW_WRITE]

/-- Dispatch on a Ready bus at the first occupied priority `p`: a read pending there is handed
over; failing that, a masked write pending there is handed over. -/
theorem check_queues_dispatch (s : Twi) (p : Nat) (hready : s.twi_state = TWI_READY)
    (hnone : none_pending 0 p s) :
    (s.twi_read_queue.getD p NULL ≠ NULL →
      loaded_read (s.rd_trans (s.twi_read_queue.getD p NULL)) (twi_check_queues s) ∧
      (twi_check_queues s).twi_read_queue = s.twi_read_queue.set p NULL ∧
      (twi_check_queues s).twi_wr1_queue = s.twi_wr1_queue ∧
      (twi_check_queues s).hw = s.hw ++ [HwOp.TWCR TWCR_START]) ∧
    (s.twi_read_queue.getD p NULL = NULL → s.twi_wr1_queue.getD p NULL ≠ NULL →
      loaded_wr1 (s.wr1_trans (s.twi_wr1_queue.getD p NULL)) (twi_check_queues s) ∧
      (twi_check_queues s).twi_wr1_queue = s.twi_wr1_queue.set p NULL ∧
      (twi_check_queues s).twi_read_queue = s.twi_read_queue ∧
      (twi_check_queues s).hw = s.hw ++ [HwOp.TWCR TWCR_START]) := by
  constructor
  · intro hr
    rw [check_queues_read s p hr hnone]
    exact check_queues_read_ready s p hready
  · intro hr hw
    rw [check_queues_wr1 s p hr hw hnone]
    exact check_queues_wr1_ready s p hready

/-! ## Facts about single handler steps and wait loops -/

/-- Dispatch with an empty queue changes nothing. -/
theorem check_queues_nothing_pending (s : Twi) (h : nothing_pending s) :
    twi_check_queues s = s :=
  loop_nothing_pending s _ 0 (fun q _ => h q)

/-- Function `twi_stop` with an empty queue: the stop is issued and the bus state is Ready. -/
theorem twi_stop_nothing_pending (s : Twi) (h : nothing_pending s) :
    twi_stop s = { s with hw := s.hw ++ [HwOp.TWCR TWCR_STOP], twi_state := TWI_READY } := by
  unfold twi_stop
  exact check_queues_nothing_pending _ (fun q => h q)

/-- A wait loop whose condition holds serves the next interrupt. -/
theorem spin_cons_of_true (cond : Twi → Bool) (e : Event) (es : List Event) (s : Twi)
    (h : cond s = true) : spin cond (e :: es) s = spin cond es (TWI_vect e.status e.twdr s) := by
  simp [spin, h]

/-- A wait loop whose condition fails ends at once. -/
theorem spin_of_false (cond : Twi → Bool) (evs : List Event) (s : Twi)
    (h : cond s = false) : spin cond evs s = some (s, evs) := by
  cases evs <;> simp [spin, h]

/-- A non-blocking read accepted on a Ready bus. -/
theorem nonBlockingReadFrom_ready (address : Nat) (data : Ptr) (length : Nat) (s : Twi)
    (hready : s.twi_state = TWI_READY) :
    twi_nonBlockingReadFrom address data length s =
      (0, { s with
        twi_state := TWI_MRX, twi_error := 0xFF, twi_masterBufferPtr := data,
        twi_masterBufferIndex := 0, twi_masterBufferLength := (length + 255) % 256,
        twi_slarw := (TW_READ ||| (address <<< 1)) % 256,
        hw := s.hw ++ [HwOp.TWCR TWCR_START] }) := by
  simp [twi_nonBlockingReadFrom, hready, out]

/-- The claim loop of `twi_readFrom` on a Ready bus succeeds at its first attempt. -/
theorem readFrom_claim_ready (address length : Nat) (evs : List Event) (s : Twi)
    (hready : s.twi_state = TWI_READY) :
    twi_readFrom_claim address length evs s =
      some ((twi_nonBlockingReadFrom address Ptr.masterBuffer length s).2, evs) := by
  cases evs <;> simp [twi_readFrom_claim, twi_nonBlockingReadFrom, hready]

/-- The handler on "start sent" or "repeated start sent": address byte, then ack. -/
theorem vect_START (s : Twi) (t : Nat) :
    TWI_vect TW_START t s =
      { s with hw := s.hw ++ [HwOp.TWDR s.twi_slarw, HwOp.TWCR TWCR_ACK] } := by
  simp [TWI_vect, twi_reply, out, TW_START]

/-- The handler on "read address acked": ack if more than one byte is expected, else nack. -/
theorem vect_MR_SLA_ACK (s : Twi) (t : Nat) :
    TWI_vect TW_MR_SLA_ACK t s =
      { s with hw := s.hw ++ [HwOp.TWCR
          (if s.twi_masterBufferIndex < s.twi_masterBufferLength then TWCR_ACK else TWCR_NACK)] } := by
  by_cases h : s.twi_masterBufferIndex < s.twi_masterBufferLength <;>
    simp [TWI_vect, TWI_vect_MR_SLA_ACK, twi_reply, out, h, TW_MR_SLA_ACK, TW_START,
      TW_REP_START, TW_MT_SLA_ACK, TW_MT_DATA_ACK, TW_MT_SLA_NACK, TW_MT_DATA_NACK,
      TW_MT_ARB_LOST, TW_MR_DATA_ACK]

/-- The handler on a bus error with an empty queue: error recorded, stop, Ready. -/
theorem vect_BUS_ERROR (s : Twi) (t : Nat) (h : nothing_pending s) :
    TWI_vect TW_BUS_ERROR t s =
      { s with twi_error := TW_BUS_ERROR, hw := s.hw ++ [HwOp.TWCR TWCR_STOP],
               twi_state := TWI_READY } := by
  have hs := twi_stop_nothing_pending { s with twi_error := TW_BUS_ERROR } (fun q => h q)
  simpa [TWI_vect, TW_BUS_ERROR, TW_MR_SLA_ACK, TW_START, TW_MR_DATA_NACK, TW_MR_SLA_NACK,
      TW_REP_START, TW_MT_SLA_ACK, TW_MT_DATA_ACK, TW_MT_SLA_NACK, TW_MT_DATA_NACK,
      TW_MT_ARB_LOST, TW_MR_DATA_ACK] using hs

/-- The handler on the final byte of a plain read (`TWI_MRX`) into the internal buffer, with
an empty queue: byte stored, stop, Ready. -/
theorem vect_MR_DATA_NACK_mrx (s : Twi) (b : Nat) (hstate : s.twi_state = TWI_MRX)
    (hptr : s.twi_masterBufferPtr = Ptr.masterBuffer) (hidx : s.twi_masterBufferIndex < 8)
    (h : nothing_pending s) :
    TWI_vect TW_MR_DATA_NACK b s =
      { s with
        twi_masterBuffer := upd s.twi_masterBuffer s.twi_masterBufferIndex (b % 256),
        twi_masterBufferIndex := s.twi_masterBufferIndex + 1,
        hw := s.hw ++ [HwOp.TWCR TWCR_STOP], twi_state := TWI_READY } := by
  have h256 : (s.twi_masterBufferIndex + 1) % 256 = s.twi_masterBufferIndex + 1 :=
    Nat.mod_eq_of_lt (by omega)
  have hs := twi_stop_nothing_pending
    { s with
      twi_masterBuffer := upd s.twi_masterBuffer s.twi_masterBufferIndex (b % 256),
      twi_masterBufferIndex := s.twi_masterBufferIndex + 1 } (fun q => h q)
  simpa [TWI_vect, TWI_vect_put, store, hptr, hidx, hstate, h256, TWI_BUFFER_LENGTH,
      TW_BUS_ERROR, TW_MR_SLA_ACK, TW_START, TW_MR_DATA_NACK, TW_MR_SLA_NACK,
      TW_REP_START, TW_MT_SLA_ACK, TW_MT_DATA_ACK, TW_MT_SLA_NACK, TW_MT_DATA_NACK,
      TW_MT_ARB_LOST, TW_MR_DATA_ACK] using hs

/-- The copy loop of `twi_writeTo` fills the first `n` buffer bytes from `data`, `data + 1`,
... and touches nothing else. -/
theorem twi_writeTo_copy_eq (data : Nat) (s : Twi) :
    ∀ n, twi_writeTo_copy data n s =
      { s with twi_masterBuffer := fun i =>
          if i < n then s.ram (data + i) else s.twi_masterBuffer i } := by
  intro n
  induction n with
  | zero => simp [twi_writeTo_copy]
  | succ n ih =>
    unfold twi_writeTo_copy at ih ⊢
    rw [List.range_succ, List.foldl_append, ih]
    simp only [List.foldl_cons, List.foldl_nil]
    congr 1
    funext i
    simp only [upd]
    by_cases h1 : i = n
    · subst h1; simp
    · by_cases h2 : i < n
      · have h3 : i < n + 1 := by omega
        simp [h1, h2, h3]
      · have h3 : ¬ i < n + 1 := by omega
        simp [h1, h2, h3]

/-- The engine after the set-up part of `twi_writeTo`. -/
theorem twi_writeTo_setup_eq (address data length : Nat) (s : Twi) :
    twi_writeTo_setup address data length s =
      { s with
        twi_state := TWI_MTX, twi_error := 0xFF, twi_masterBufferPtr := Ptr.masterBuffer,
        twi_masterBufferIndex := 0, twi_masterBufferLength := length,
        twi_masterBuffer := fun i => if i < length then s.ram (data + i) else s.twi_masterBuffer i,
        twi_slarw := (address <<< 1) % 256,
        hw := s.hw ++ [HwOp.TWCR TWCR_START] } := by
  simp [twi_writeTo_setup, twi_writeTo_copy_eq, out, TW_WRITE]

/-- A `twi_writeTo` that fits the buffer, called on a Ready bus: the claim succeeds at once and
the call is the set-up followed by the wait loop. -/
theorem twi_writeTo_ready (address data length wait : Nat) (evs : List Event) (s : Twi)
    (hready : s.twi_state = TWI_READY) (hlen : length ≤ 8) :
    twi_writeTo address data length wait evs s =
      (spin (fun s => decide (wait ≠ 0) && decide (s.twi_state = TWI_MTX)) evs
        (twi_writeTo_setup address data length s)).map
        (fun r => (twi_writeTo_status r.1, r.1, r.2)) := by
  have hL : ¬ TWI_BUFFER_LENGTH < length := by simp [TWI_BUFFER_LENGTH]; omega
  unfold twi_writeTo
  rw [if_neg hL, spin_of_false _ _ _ (by simp [hready])]
  dsimp only
  cases spin (fun s => decide (wait ≠ 0) && decide (s.twi_state = TWI_MTX)) evs
    (twi_writeTo_setup address data length s) <;> rfl

/-- The handler on "address acked" or "data acked" in `TWI_MTX` when every buffered byte has
been sent, with an empty queue: stop, Ready. -/
theorem vect_MT_ACK_done (s : Twi) (status t : Nat)
    (hstatus : status = TW_MT_SLA_ACK ∨ status = TW_MT_DATA_ACK)
    (hstate : s.twi_state = TWI_MTX)
    (hidx : ¬ s.twi_masterBufferIndex < s.twi_masterBufferLength) (h : nothing_pending s) :
    TWI_vect status t s =
      { s with hw := s.hw ++ [HwOp.TWCR TWCR_STOP], twi_state := TWI_READY } := by
  have hs := twi_stop_nothing_pending s h
  rcases hstatus with h1 | h1 <;> subst h1 <;>
    simpa [TWI_vect, TWI_vect_MT_DATA_ACK, hstate, hidx, TW_MT_SLA_ACK, TW_MT_DATA_ACK, TW_START,
      TW_REP_START] using hs

/-- The handler on "read address not acked" with an empty queue: stop, Ready. -/
theorem vect_MR_SLA_NACK (s : Twi) (t : Nat) (h : nothing_pending s) :
    TWI_vect TW_MR_SLA_NACK t s =
      { s with hw := s.hw ++ [HwOp.TWCR TWCR_STOP], twi_state := TWI_READY } := by
  have hs := twi_stop_nothing_pending s h
  simpa [TWI_vect, TW_BUS_ERROR, TW_MR_SLA_ACK, TW_START, TW_MR_DATA_NACK, TW_MR_SLA_NACK,
      TW_REP_START, TW_MT_SLA_ACK, TW_MT_DATA_ACK, TW_MT_SLA_NACK, TW_MT_DATA_NACK,
      TW_MT_ARB_LOST, TW_MR_DATA_ACK] using hs

/-! ## Facts about reception into the internal buffer -/

/-- One "data received, ack sent" interrupt while the buffer pointer is on `twi_masterBuffer`
and the index is inside the buffer. -/
theorem vect_MR_DATA_ACK (s : Twi) (b : Nat) (hptr : s.twi_masterBufferPtr = Ptr.masterBuffer)
    (hidx : s.twi_masterBufferIndex < 8) :
    TWI_vect TW_MR_DATA_ACK b s =
      { s with
        twi_masterBuffer := upd s.twi_masterBuffer s.twi_masterBufferIndex (b % 256),
        twi_masterBufferIndex := s.twi_masterBufferIndex + 1,
        hw := s.hw ++ [HwOp.TWCR (if s.twi_masterBufferIndex + 1 < s.twi_masterBufferLength
          then TWCR_ACK else TWCR_NACK)] } := by
  have h256 : (s.twi_masterBufferIndex + 1) % 256 = s.twi_masterBufferIndex + 1 :=
    Nat.mod_eq_of_lt (by omega)
  by_cases hlt : s.twi_masterBufferIndex + 1 < s.twi_masterBufferLength
  · simp [TWI_vect, TWI_vect_put, TWI_vect_MR_SLA_ACK, twi_reply, store, out, hptr, hidx,
      TWI_BUFFER_LENGTH, TW_MR_DATA_ACK, TW_START, TW_REP_START, TW_MT_SLA_ACK, TW_MT_DATA_ACK,
      TW_MT_SLA_NACK, TW_MT_DATA_NACK, TW_MT_ARB_LOST, h256, hlt]
  · simp [TWI_vect, TWI_vect_put, TWI_vect_MR_SLA_ACK, twi_reply, store, out, hptr, hidx,
      TWI_BUFFER_LENGTH, TW_MR_DATA_ACK, TW_START, TW_REP_START, TW_MT_SLA_ACK, TW_MT_DATA_ACK,
      TW_MT_SLA_NACK, TW_MT_DATA_NACK, TW_MT_ARB_LOST, h256, hlt]

/-- The handler run on a block of "data received, ack sent" interrupts that fits the buffer. -/
theorem run_data_acks (bs : List Nat) :
    ∀ s : Twi, s.twi_masterBufferPtr = Ptr.masterBuffer →
      s.twi_masterBufferIndex + bs.length ≤ 8 →
      run (data_acks bs) s =
        { s with
          twi_masterBuffer := recv_buf s.twi_masterBuffer s.twi_masterBufferIndex bs,
          twi_masterBufferIndex := s.twi_masterBufferIndex + bs.length,
          hw := s.hw ++ recv_hw s.twi_masterBufferIndex s.twi_masterBufferLength bs } := by
  induction bs with
  | nil => intro s _ _; simp [run, data_acks, recv_buf, recv_hw]
  | cons b bs ih =>
    intro s hptr hlen
    have hlen2 : s.twi_masterBufferIndex + (bs.length + 1) ≤ 8 := by simpa using hlen
    have hstep := vect_MR_DATA_ACK s b hptr (by omega)
    have hrun : run (data_acks (b :: bs)) s = run (data_acks bs) (TWI_vect TW_MR_DATA_ACK b s) := by
      simp [run, data_acks]
    rw [hrun, hstep, ih _ (by simpa using hptr) (by simp; omega)]
    simp [recv_buf, recv_hw, Nat.add_assoc, Nat.add_comm 1]

/-- A busy-wait loop that polls for the end of `TWI_MRX` keeps spinning through a block of
"data received, ack sent" interrupts that fits the buffer. -/
theorem spin_data_acks (bs : List Nat) (rest : List Event) :
    ∀ s : Twi, s.twi_state = TWI_MRX → s.twi_masterBufferPtr = Ptr.masterBuffer →
      s.twi_masterBufferIndex + bs.length ≤ 8 →
      spin (fun s => decide (s.twi_state = TWI_MRX)) (data_acks bs ++ rest) s =
        spin (fun s => decide (s.twi_state = TWI_MRX)) rest (run (data_acks bs) s) := by
  induction bs with
  | nil => intro s _ _ _; simp [run, data_acks]
  | cons b bs ih =>
    intro s hstate hptr hlen
    have hlen2 : s.twi_masterBufferIndex + (bs.length + 1) ≤ 8 := by simpa using hlen
    have hstep := vect_MR_DATA_ACK s b hptr (by omega)
    have hrun : run (data_acks (b :: bs)) s = run (data_acks bs) (TWI_vect TW_MR_DATA_ACK b s) := by
      simp [run, data_acks]
    have hsplit : data_acks (b :: bs) ++ rest = ⟨TW_MR_DATA_ACK, b⟩ :: (data_acks bs ++ rest) := by
      simp [data_acks]
    rw [hrun, hsplit, spin]
    simp only [hstate, decide_True, if_true]
    rw [hstep]
    exact ih _ (by simpa using hstate) (by simpa using hptr) (by simp; omega)

/-- Content of the buffer after a block of bytes was stored from index `i` on. -/
theorem recv_buf_apply (bs : List Nat) :
    ∀ (f : Nat → Nat) (i j : Nat),
      recv_buf f i bs j = if i ≤ j ∧ j < i + bs.length then bs.getD (j - i) 0 % 256 else f j := by
  induction bs with
  | nil =>
    intro f i j
    have h : ¬ (i ≤ j ∧ j < i + ([] : List Nat).length) := by
      intro ⟨h1, h2⟩
      simp at h2
      omega
    rw [recv_buf, if_neg h]
  | cons b bs ih =>
    intro f i j
    rw [recv_buf, ih]
    by_cases h1 : j = i
    · subst h1; simp [upd]
    · by_cases h2 : i + 1 ≤ j ∧ j < i + 1 + bs.length
      · have h3 : i ≤ j ∧ j < i + (b :: bs).length := by simp; omega
        have h4 : j - i = (j - (i + 1)) + 1 := by omega
        rw [if_pos h2, if_pos h3, h4]; simp
      · have h3 : ¬ (i ≤ j ∧ j < i + (b :: bs).length) := by simp; omega
        rw [if_neg h2, if_neg h3]; simp [upd, h1]

/-- The copy loop of `twi_readFrom` writes `length` buffer bytes to `data`, `data + 1`, ... and
touches nothing else. -/
theorem twi_readFrom_copy_eq (data : Nat) (s : Twi) :
    ∀ n, twi_readFrom_copy data n s =
      { s with ram := fun a =>
          if data ≤ a ∧ a < data + n then s.twi_masterBuffer (a - data) else s.ram a } := by
  intro n
  induction n with
  | zero =>
    simp [twi_readFrom_copy]
    have : (fun a => if data ≤ a ∧ a < data then s.twi_masterBuffer (a - data) else s.ram a)
        = s.ram := by
      funext a; rw [if_neg]; omega
    rw [this]
  | succ n ih =>
    unfold twi_readFrom_copy at ih ⊢
    rw [List.range_succ, List.foldl_append, ih]
    simp only [List.foldl_cons, List.foldl_nil]
    congr 1
    funext a
    simp only [upd]
    by_cases h1 : a = data + n
    · subst h1; simp
    · by_cases h2 : data ≤ a ∧ a < data + n
      · have h3 : data ≤ a ∧ a < data + (n + 1) := by omega
        simp [h1, h2, h3]
      · have h3 : ¬ (data ≤ a ∧ a < data + (n + 1)) := by omega
        simp [h1, h2, h3]

/-! ## Facts about the blocking read -/

/-- A blocking read cut short by a bus error after the bytes `bs`, fewer than requested, with
an empty queue. -/
theorem readFrom_short (s : Twi) (address data L t0 t1 t2 : Nat) (bs : List Nat)
    (hready : s.twi_state = TWI_READY) (hq : nothing_pending s) (hL8 : L ≤ 8)
    (hk : bs.length < L) :
    ∃ s', twi_readFrom address data L (short_read_events t0 t1 t2 bs) s
        = some (bs.length, s', []) ∧
      (∀ i, i < bs.length → s'.ram (data + i) = bs.getD i 0 % 256) ∧
      (∀ a, a < data ∨ data + bs.length ≤ a → s'.ram a = s.ram a) ∧
      s'.twi_error = TW_BUS_ERROR ∧ twi_writeTo_status s' = 4 ∧
      s'.twi_state = TWI_READY ∧ s'.ub = s.ub ∧
      s'.twi_read_queue = s.twi_read_queue ∧ s'.twi_wr1_queue = s.twi_wr1_queue := by
  have hnb := nonBlockingReadFrom_ready address Ptr.masterBuffer L s hready
  have hL : ¬ TWI_BUFFER_LENGTH < L := by simp [TWI_BUFFER_LENGTH]; omega
  unfold twi_readFrom short_read_events
  rw [if_neg hL, readFrom_claim_ready _ _ _ _ hready, hnb]
  dsimp only
  rw [spin_cons_of_true _ _ _ _ (by simp), vect_START]
  dsimp only
  rw [spin_cons_of_true _ _ _ _ (by simp), vect_MR_SLA_ACK]
  dsimp only
  rw [spin_data_acks bs _ _ (by simp) (by simp) (by simp; omega)]
  rw [run_data_acks bs _ (by simp) (by simp; omega)]
  dsimp only
  rw [spin_cons_of_true _ _ _ _ (by simp), vect_BUS_ERROR]
  swap
  · exact fun q => hq q
  dsimp only
  rw [spin_of_false _ _ _ (by simp)]
  dsimp only
  simp only [Nat.zero_add, if_pos hk]
  rw [twi_readFrom_copy_eq]
  refine ⟨_, rfl, ?_, ?_, ?_, ?_, ?_, ?_, ?_, ?_⟩
  · intro i hi
    simp [hi, recv_buf_apply]
  · intro a ha
    have : ¬ (data ≤ a ∧ a < data + bs.length) := by omega
    simp [this]
  all_goals simp [twi_writeTo_status, TW_BUS_ERROR, TW_MT_SLA_NACK, TW_MT_DATA_NACK]

/-- A blocking read that receives all its bytes, `bs` then `last`, with an empty queue. -/
theorem readFrom_full (s : Twi) (address data L t0 t1 last : Nat) (bs : List Nat)
    (hready : s.twi_state = TWI_READY) (hq : nothing_pending s) (hL8 : L ≤ 8)
    (hk : bs.length + 1 = L) :
    ∃ s', twi_readFrom address data L (full_read_events t0 t1 bs last) s = some (L, s', []) ∧
      (∀ i, i < L → s'.ram (data + i) = (bs ++ [last]).getD i 0 % 256) ∧
      (∀ a, a < data ∨ data + L ≤ a → s'.ram a = s.ram a) ∧
      s'.twi_error = 0xFF ∧ twi_writeTo_status s' = 0 ∧
      s'.twi_state = TWI_READY ∧ s'.ub = s.ub ∧
      s'.twi_read_queue = s.twi_read_queue ∧ s'.twi_wr1_queue = s.twi_wr1_queue := by
  have hnb := nonBlockingReadFrom_ready address Ptr.masterBuffer L s hready
  have hL : ¬ TWI_BUFFER_LENGTH < L := by simp [TWI_BUFFER_LENGTH]; omega
  unfold twi_readFrom full_read_events
  rw [if_neg hL, readFrom_claim_ready _ _ _ _ hready, hnb]
  dsimp only
  rw [spin_cons_of_true _ _ _ _ (by simp), vect_START]
  dsimp only
  rw [spin_cons_of_true _ _ _ _ (by simp), vect_MR_SLA_ACK]
  dsimp only
  rw [spin_data_acks bs _ _ (by simp) (by simp) (by simp; omega)]
  rw [run_data_acks bs _ (by simp) (by simp; omega)]
  dsimp only
  rw [spin_cons_of_true _ _ _ _ (by simp), vect_MR_DATA_NACK_mrx]
  rotate_left
  · rfl
  · rfl
  · simp; omega
  · exact fun q => hq q
  dsimp only
  rw [spin_of_false _ _ _ (by simp)]
  dsimp only
  have hnot : ¬ (0 + bs.length + 1 < L) := by omega
  simp only [if_neg hnot]
  rw [twi_readFrom_copy_eq]
  refine ⟨_, rfl, ?_, ?_, ?_, ?_, ?_, ?_, ?_, ?_⟩
  · intro i hi
    by_cases hlast : i = bs.length
    · subst hlast
      simp [hi, upd]
    · have hlt : i < bs.length := by omega
      simp [hi, upd, hlast, recv_buf_apply, hlt, List.getElem?_append_left hlt]
  · intro a ha
    have : ¬ (data ≤ a ∧ a < data + L) := by omega
    simp [this]
  all_goals simp [twi_writeTo_status]

/-- After `twi_init` no request is pending. -/
theorem nothing_pending_init (s : Twi) : nothing_pending (twi_init s) := by
  intro q
  simp [twi_init, twi_queue_init, out, List.getD_eq_getElem?_getD, List.getElem?_replicate]
  constructor <;> split <;> simp

/-! ## Read-modify-write merge -/

/-- C1: in state `TWI_M_RMW`, with the buffer pointer on `twi_masterBuffer` and index 0 (the
situation a masked write is in when its single byte arrives), the handler on the final-byte
event `TW_MR_DATA_NACK` with received byte `old` leaves the buffer starting with
`[reg, merged]`, where `merged = (old AND NOT mask) OR (data AND mask)` on eight bits: every
bit of `merged` is the bit of `data` where the mask bit is set and the bit of `old` where it
is clear.  It sets index 0, length 2, state `TWI_MTX`, clears the direction bit of the address
byte (write) keeping its other bits, and issues a start. -/
theorem rmw_final_byte_merges (s : Twi) (old : Nat)
    (hstate : s.twi_state = TWI_M_RMW)
    (hptr : s.twi_masterBufferPtr = Ptr.masterBuffer)
    (hidx : s.twi_masterBufferIndex = 0)
    (hold : old < 256) (hdata : s.twi_rmw_data < 256) (hmask : s.twi_rmw_mask < 256) :
    (TWI_vect TW_MR_DATA_NACK old s).twi_masterBuffer 0 = s.twi_reg ∧
    (TWI_vect TW_MR_DATA_NACK old s).twi_masterBuffer 1 =
      ((old &&& (255 - s.twi_rmw_mask)) ||| (s.twi_rmw_data &&& s.twi_rmw_mask)) ∧
    (TWI_vect TW_MR_DATA_NACK old s).twi_masterBuffer 1 < 256 ∧
    (∀ i, s.twi_rmw_mask.testBit i = false →
      ((TWI_vect TW_MR_DATA_NACK old s).twi_masterBuffer 1).testBit i = old.testBit i) ∧
    (∀ i, s.twi_rmw_mask.testBit i = true →
      ((TWI_vect TW_MR_DATA_NACK old s).twi_masterBuffer 1).testBit i =
        s.twi_rmw_data.testBit i) ∧
    (∀ j, 2 ≤ j → (TWI_vect TW_MR_DATA_NACK old s).twi_masterBuffer j = s.twi_masterBuffer j) ∧
    (TWI_vect TW_MR_DATA_NACK old s).twi_masterBufferIndex = 0 ∧
    (TWI_vect TW_MR_DATA_NACK old s).twi_masterBufferLength = 2 ∧
    (TWI_vect TW_MR_DATA_NACK old s).twi_state = TWI_MTX ∧
    (TWI_vect TW_MR_DATA_NACK old s).twi_slarw = s.twi_slarw &&& 254 ∧
    (TWI_vect TW_MR_DATA_NACK old s).twi_slarw.testBit 0 = false ∧
    (TWI_vect TW_MR_DATA_NACK old s).hw = s.hw ++ [HwOp.TWCR TWCR_START] ∧
    (TWI_vect TW_MR_DATA_NACK old s).twi_read_queue = s.twi_read_queue ∧
    (TWI_vect TW_MR_DATA_NACK old s).twi_wr1_queue = s.twi_wr1_queue := by
  have hm := merge_lt s.twi_rmw_mask hold hdata
  have hval : (TWI_vect TW_MR_DATA_NACK old s).twi_masterBuffer 1 =
      ((old &&& (255 - s.twi_rmw_mask % 256)) ||| (s.twi_rmw_data &&& s.twi_rmw_mask)) := by
    simp [TWI_vect, TWI_vect_put, store, load, out, upd, hstate, hptr, hidx, TW_MR_DATA_NACK,
      TW_START, TW_REP_START, TW_MT_SLA_ACK, TW_MT_DATA_ACK, TW_MT_SLA_NACK, TW_MT_DATA_NACK,
      TW_MT_ARB_LOST, TW_MR_DATA_ACK, TW_MR_SLA_ACK, TWI_BUFFER_LENGTH,
      Nat.mod_eq_of_lt hold, Nat.mod_eq_of_lt hm]
  refine ⟨?_, ?_, ?_, ?_, ?_, ?_, ?_, ?_, ?_, ?_, ?_, ?_, ?_, ?_⟩
  · simp [TWI_vect, TWI_vect_put, store, load, out, upd, hstate, hptr, hidx, TW_MR_DATA_NACK,
      TW_START, TW_REP_START, TW_MT_SLA_ACK, TW_MT_DATA_ACK, TW_MT_SLA_NACK, TW_MT_DATA_NACK,
      TW_MT_ARB_LOST, TW_MR_DATA_ACK, TW_MR_SLA_ACK, TWI_BUFFER_LENGTH]
  · rw [hval, Nat.mod_eq_of_lt hmask]
  · rw [hval]; exact hm
  · intro i hi
    rw [hval, merge_testBit hold hmask, hi]; simp
  · intro i hi
    rw [hval, merge_testBit hold hmask, hi]; simp
  · intro j hj
    have h0 : j ≠ 0 := by omega
    have h1 : j ≠ 1 := by omega
    simp [TWI_vect, TWI_vect_put, store, load, out, upd, hstate, hptr, hidx, TW_MR_DATA_NACK,
      TW_START, TW_REP_START, TW_MT_SLA_ACK, TW_MT_DATA_ACK, TW_MT_SLA_NACK, TW_MT_DATA_NACK,
      TW_MT_ARB_LOST, TW_MR_DATA_ACK, TW_MR_SLA_ACK, TWI_BUFFER_LENGTH, h0, h1]
  all_goals
    simp [TWI_vect, TWI_vect_put, store, load, out, upd, hstate, hptr, hidx, TW_MR_DATA_NACK,
      TW_START, TW_REP_START, TW_MT_SLA_ACK, TW_MT_DATA_ACK, TW_MT_SLA_NACK, TW_MT_DATA_NACK,
      TW_MT_ARB_LOST, TW_MR_DATA_ACK, TW_MR_SLA_ACK, TWI_BUFFER_LENGTH]

/-- The spec's scenario for C1: register holding `0b11110000`, `data = 0b00001111`,
`mask = 0b00001111`, reached by a real masked write; the merged byte is `0b11111111`. -/
theorem rmw_final_byte_merges_witness :
    (rmw_before_final 0x20 5 0x0F 0x0F).twi_state = TWI_M_RMW ∧
    (rmw_before_final 0x20 5 0x0F 0x0F).twi_masterBufferPtr = Ptr.masterBuffer ∧
    (rmw_before_final 0x20 5 0x0F 0x0F).twi_masterBufferIndex = 0 ∧
    (TWI_vect TW_MR_DATA_NACK 0xF0 (rmw_before_final 0x20 5 0x0F 0x0F)).twi_masterBuffer 0 = 5 ∧
    (TWI_vect TW_MR_DATA_NACK 0xF0 (rmw_before_final 0x20 5 0x0F 0x0F)).twi_masterBuffer 1
      = 0xFF :=
  have h := rmw_final_byte_merges (rmw_before_final 0x20 5 0x0F 0x0F) 0xF0
    (by decide) (by decide) (by decide) (by decide) (by decide) (by decide)
  ⟨by decide, by decide, by decide, h.1.trans (by decide), h.2.1.trans (by decide)⟩

/-! ## Blocking write -/

/-- C2: for every length above `TWI_BUFFER_LENGTH`, `twi_writeTo` returns 1 at once: the engine
state (every variable, both queues, the hardware log, hence no start condition) and the
pending interrupts are exactly what they were, whatever the bus state. -/
theorem twi_writeTo_too_long (address data length wait : Nat) (evs : List Event) (s : Twi)
    (h : TWI_BUFFER_LENGTH < length) :
    twi_writeTo address data length wait evs s = some (1, s, evs) := by
  simp [twi_writeTo, h]

/-- A nine-byte write to a busy engine is refused with code 1. -/
theorem twi_writeTo_too_long_witness :
    TWI_BUFFER_LENGTH < 9 ∧
    twi_writeTo 0x20 50 9 1 [] (rmw_before_final 0x20 5 0x0F 0x0F)
      = some (1, rmw_before_final 0x20 5 0x0F 0x0F, []) :=
  ⟨by decide, twi_writeTo_too_long 0x20 50 9 1 [] (rmw_before_final 0x20 5 0x0F 0x0F) (by decide)⟩

/-- C3 (the code at the failing input): a blocking one-byte write started from Ready while a
read request is pending, whose address byte is not acknowledged, returns 0 and not 2.  The
stop issued for the nack dispatches the pending read, which resets the error record to `0xFF`
and takes the bus state to `TWI_MTRX`, so the wait loop ends on the next transaction. -/
theorem twi_writeTo_nack_with_pending_read :
    ready_with_pending_read.twi_state = TWI_READY ∧
    ready_with_pending_read.twi_read_queue = [NULL, 2] ∧
    (twi_writeTo 0x20 50 1 1 [⟨TW_START, 0⟩, ⟨TW_MT_SLA_NACK, 0⟩] ready_with_pending_read).map
      (fun r => (r.1, r.2.1.twi_state, r.2.1.twi_error, r.2.1.twi_read_queue))
      = some (0, TWI_MTRX, 0xFF, [NULL, NULL]) ∧
    (twi_writeTo 0x20 50 1 1 [⟨TW_START, 0⟩, ⟨TW_MT_SLA_NACK, 0⟩] (twi_init (blank 2 2))).map
      (fun r => (r.1, r.2.1.twi_state, r.2.1.twi_error))
      = some (2, TWI_READY, TW_MT_SLA_NACK) := by
  decide

/-! ## Transaction queue -/

/-- C4: for both enqueue operations, a call on an occupied slot returns -1 (the `uint8_t` value
255 read as `int8_t`) and leaves the whole engine state as it was, so the slot still holds the
original pointer and the bus state is unchanged.  The original request is the one handed to
the engine later: in any later state `s2` with the bus Ready, that slot and its record as they
were, and no request pending before it in dispatch order, `twi_check_queues` loads the
original record's own fields and clears the slot. -/
theorem enqueue_occupied_slot_rejected (s : Twi) (trans priority : Nat) :
    (s.twi_read_queue.getD priority NULL ≠ NULL →
      priority < TWI_RD_TRANS_QUEUE_SIZE s ∧
      twi_queue_read_transaction trans priority s = (-1, s) ∧
      ∀ s2 : Twi, s2.twi_state = TWI_READY →
        s2.twi_read_queue.getD priority NULL = s.twi_read_queue.getD priority NULL →
        s2.rd_trans (s.twi_read_queue.getD priority NULL)
          = s.rd_trans (s.twi_read_queue.getD priority NULL) →
        none_pending 0 priority s2 →
        loaded_read (s.rd_trans (s.twi_read_queue.getD priority NULL)) (twi_check_queues s2) ∧
        (twi_check_queues s2).twi_read_queue = s2.twi_read_queue.set priority NULL) ∧
    (s.twi_wr1_queue.getD priority NULL ≠ NULL →
      priority < TWI_WR1_TRANS_QUEUE_SIZE s ∧
      twi_queue_write_one_masked_transaction trans priority s = (-1, s) ∧
      ∀ s2 : Twi, s2.twi_state = TWI_READY →
        s2.twi_wr1_queue.getD priority NULL = s.twi_wr1_queue.getD priority NULL →
        s2.wr1_trans (s.twi_wr1_queue.getD priority NULL)
          = s.wr1_trans (s.twi_wr1_queue.getD priority NULL) →
        none_pending 0 priority s2 → s2.twi_read_queue.getD priority NULL = NULL →
        loaded_wr1 (s.wr1_trans (s.twi_wr1_queue.getD priority NULL)) (twi_check_queues s2) ∧
        (twi_check_queues s2).twi_wr1_queue = s2.twi_wr1_queue.set priority NULL) := by
  constructor
  · intro hocc
    have hlt : priority < TWI_RD_TRANS_QUEUE_SIZE s := lt_length_of_getD_ne hocc
    refine ⟨hlt, ?_, ?_⟩
    · unfold twi_queue_read_transaction
      rw [if_neg (Nat.not_le_of_lt hlt)]
      simp only [if_pos hocc]
      rfl
    · intro s2 hready hslot hrec hnone
      have hocc2 : s2.twi_read_queue.getD priority NULL ≠ NULL := by rw [hslot]; exact hocc
      have h := check_queues_read_ready s2 priority hready
      rw [check_queues_read s2 priority hocc2 hnone]
      rw [hslot, hrec] at h
      exact ⟨h.1, h.2.1⟩
  · intro hocc
    have hlt : priority < TWI_WR1_TRANS_QUEUE_SIZE s := lt_length_of_getD_ne hocc
    refine ⟨hlt, ?_, ?_⟩
    · unfold twi_queue_write_one_masked_transaction
      rw [if_neg (Nat.not_le_of_lt hlt)]
      simp only [if_pos hocc]
      rfl
    · intro s2 hready hslot hrec hnone hnoread
      have hocc2 : s2.twi_wr1_queue.getD priority NULL ≠ NULL := by rw [hslot]; exact hocc
      have h := check_queues_wr1_ready s2 priority hready
      rw [check_queues_wr1 s2 priority hnoread hocc2 hnone]
      rw [hslot, hrec] at h
      exact ⟨h.1, h.2.1⟩

/-- Both halves of C4 on concrete engines: a second read at the occupied read slot 1, a second
masked write at the occupied write slot 0; each is refused and the next dispatch loads the
original record. -/
theorem enqueue_occupied_slot_rejected_witness :
    ready_with_pending_read.twi_read_queue.getD 1 NULL ≠ NULL ∧
    (twi_queue_read_transaction 7 1 ready_with_pending_read).1 = -1 ∧
    loaded_read ⟨0x22, 0x13, Ptr.ram 200, 1⟩ (twi_check_queues ready_with_pending_read) ∧
    ready_with_two_pending.twi_wr1_queue.getD 0 NULL ≠ NULL ∧
    (twi_queue_write_one_masked_transaction 7 0 ready_with_two_pending).1 = -1 ∧
    loaded_wr1 ⟨0x23, 0x14, 0x0F, 0x3C⟩ (twi_check_queues ready_with_two_pending) :=
  have hr := (enqueue_occupied_slot_rejected ready_with_pending_read 7 1).1 (by decide)
  have hw := (enqueue_occupied_slot_rejected ready_with_two_pending 7 0).2 (by decide)
  ⟨by decide, congrArg Prod.fst hr.2.1,
    (hr.2.2 ready_with_pending_read (by decide) rfl rfl
      (by intro q _ h2; interval_cases q; decide)).1,
    by decide, congrArg Prod.fst hw.2.1,
    (hw.2.2 ready_with_two_pending (by decide) rfl rfl
      (by intro q _ h2; omega) (by decide)).1⟩

/-- C5: with the bus Ready, `twi_check_queues` hands over the first occupied slot in the order
read[0], write[0], read[1], write[1], ...: if nothing is pending at a priority below `p`, a
read pending at `p` is dispatched (whatever the write slot at `p` and all later slots hold),
and if no read is pending at `p` a masked write pending at `p` is dispatched.  The bus state
becomes `TWI_MTRX`, respectively `TWI_M_RMW`, with that request's address, register and
length, respectively data and mask, loaded; only that slot is cleared and one start is
issued. -/
theorem dispatch_order (s : Twi) (p : Nat) (hready : s.twi_state = TWI_READY)
    (hnone : none_pending 0 p s) :
    (s.twi_read_queue.getD p NULL ≠ NULL →
      loaded_read (s.rd_trans (s.twi_read_queue.getD p NULL)) (twi_check_queues s) ∧
      (twi_check_queues s).twi_read_queue = s.twi_read_queue.set p NULL ∧
      (twi_check_queues s).twi_wr1_queue = s.twi_wr1_queue ∧
      (twi_check_queues s).hw = s.hw ++ [HwOp.TWCR TWCR_START]) ∧
    (s.twi_read_queue.getD p NULL = NULL → s.twi_wr1_queue.getD p NULL ≠ NULL →
      loaded_wr1 (s.wr1_trans (s.twi_wr1_queue.getD p NULL)) (twi_check_queues s) ∧
      (twi_check_queues s).twi_wr1_queue = s.twi_wr1_queue.set p NULL ∧
      (twi_check_queues s).twi_read_queue = s.twi_read_queue ∧
      (twi_check_queues s).hw = s.hw ++ [HwOp.TWCR TWCR_START]) := by
  constructor
  · intro hr
    rw [check_queues_read s p hr hnone]
    exact check_queues_read_ready s p hready
  · intro hr hw
    rw [check_queues_wr1 s p hr hw hnone]
    exact check_queues_wr1_ready s p hready

/-- Requests pending at priority 0 (a masked write) and priority 1 (a read): the priority-0
request is the one dispatched, and the priority-1 read stays queued. -/
theorem dispatch_order_witness :
    ready_with_two_pending.twi_state = TWI_READY ∧
    ready_with_two_pending.twi_read_queue = [NULL, 1] ∧
    ready_with_two_pending.twi_wr1_queue = [3, NULL] ∧
    loaded_wr1 ⟨0x23, 0x14, 0x0F, 0x3C⟩ (twi_check_queues ready_with_two_pending) ∧
    (twi_check_queues ready_with_two_pending).twi_wr1_queue = [NULL, NULL] ∧
    (twi_check_queues ready_with_two_pending).twi_read_queue = [NULL, 1] :=
  have h := (dispatch_order ready_with_two_pending 0 (by decide)
    (by intro q _ h2; omega)).2 (by decide) (by decide)
  ⟨by decide, by decide, by decide, h.1, h.2.1.trans (by decide), h.2.2.1.trans (by decide)⟩

/-! ## Blocking read -/

/-- C6: a blocking read of `L ≤ 8` bytes started from Ready with no request pending.  If the
bytes `bs`, fewer than `L`, arrive and then a bus error, `twi_readFrom` returns `bs.length`,
the first `bs.length` destination bytes are the received bytes in order (each as the
eight-bit data register delivers it), every other memory byte is untouched, and the error record holds `TW_BUS_ERROR`, which the status mapping of
`twi_writeTo` classifies as 4.  If all `L` bytes arrive (`bs` then `last`) it returns `L` with
the `L` bytes copied and a clean error record. -/
theorem twi_readFrom_count (s : Twi) (address data L t0 t1 t2 last : Nat) (bs : List Nat)
    (hready : s.twi_state = TWI_READY) (hq : nothing_pending s) (hL8 : L ≤ 8) :
    (bs.length < L →
      ∃ s', twi_readFrom address data L (short_read_events t0 t1 t2 bs) s
          = some (bs.length, s', []) ∧
        (∀ i, i < bs.length → s'.ram (data + i) = bs.getD i 0 % 256) ∧
        (∀ a, a < data ∨ data + bs.length ≤ a → s'.ram a = s.ram a) ∧
        s'.twi_error = TW_BUS_ERROR ∧ twi_writeTo_status s' = 4 ∧
        s'.twi_state = TWI_READY ∧ s'.ub = s.ub) ∧
    (bs.length + 1 = L →
      ∃ s', twi_readFrom address data L (full_read_events t0 t1 bs last) s = some (L, s', []) ∧
        (∀ i, i < L → s'.ram (data + i) = (bs ++ [last]).getD i 0 % 256) ∧
        (∀ a, a < data ∨ data + L ≤ a → s'.ram a = s.ram a) ∧
        s'.twi_error = 0xFF ∧ s'.twi_state = TWI_READY ∧ s'.ub = s.ub) := by
  constructor
  · intro hk
    obtain ⟨s', h1, h2, h3, h4, h5, h6, h7, _⟩ :=
      readFrom_short s address data L t0 t1 t2 bs hready hq hL8 hk
    exact ⟨s', h1, h2, h3, h4, h5, h6, h7⟩
  · intro hk
    obtain ⟨s', h1, h2, h3, h4, _, h6, h7, _⟩ :=
      readFrom_full s address data L t0 t1 last bs hready hq hL8 hk
    exact ⟨s', h1, h2, h3, h4, h6, h7⟩

/-- The spec's scenario for C6: three bytes requested, two arrive, then a bus error: the call
returns 2. -/
theorem twi_readFrom_count_witness :
    (twi_init (blank 2 2)).twi_state = TWI_READY ∧ 3 ≤ 8 ∧ [0xA1, 0xB2].length < 3 ∧
    (twi_readFrom 0x20 50 3 (short_read_events 0 0 0 [0xA1, 0xB2]) (twi_init (blank 2 2))).map
      (fun r => r.1) = some 2 :=
  match (twi_readFrom_count (twi_init (blank 2 2)) 0x20 50 3 0 0 0 0 [0xA1, 0xB2] (by decide)
    (nothing_pending_init (blank 2 2)) (by decide)).1 (by decide) with
  | ⟨_, h, _⟩ => ⟨by decide, by decide, by decide, by rw [h]; rfl⟩

/-! ## Length-0 transfers -/

/-- C7 (as stated, refuted): from Ready, `twi_nonBlockingReadFrom` with length 0 claims the bus
(`TWI_MRX`), issues a start and programs a transfer length (255); `twi_writeTo` with length 0
claims the bus (`TWI_MTX`) and issues a start as well. -/
theorem length_zero_claims_bus :
    (twi_init (blank 2 2)).twi_state = TWI_READY ∧
    (twi_nonBlockingReadFrom 0x20 (Ptr.ram 50) 0 (twi_init (blank 2 2))).1 = 0 ∧
    (twi_nonBlockingReadFrom 0x20 (Ptr.ram 50) 0 (twi_init (blank 2 2))).2.twi_state = TWI_MRX ∧
    (twi_nonBlockingReadFrom 0x20 (Ptr.ram 50) 0 (twi_init (blank 2 2))).2.hw
      = (twi_init (blank 2 2)).hw ++ [HwOp.TWCR TWCR_START] ∧
    (twi_nonBlockingReadFrom 0x20 (Ptr.ram 50) 0 (twi_init (blank 2 2))).2.twi_masterBufferLength
      = 255 ∧
    (twi_writeTo 0x20 50 0 0 [] (twi_init (blank 2 2))).map
      (fun r => (r.1, r.2.1.twi_state, r.2.1.hw))
      = some (0, TWI_MTX, (twi_init (blank 2 2)).hw ++ [HwOp.TWCR TWCR_START]) := by
  decide

/-- C7 (amended): a transfer of length 0 is not rejected.  From Ready, each of the transfer
operations called with length 0 claims the bus and issues a start condition:
`twi_nonBlockingReadFrom` returns 0 with state `TWI_MRX`; `twi_nonBlockingReadRegisterFrom`
returns 0 with state `TWI_MTRX`; a queued read of length 0 is dispatched by
`twi_check_queues` like any other (state `TWI_MTRX`, slot cleared); `twi_writeTo` without wait
returns 0 with state `TWI_MTX` and programmed length 0, and with wait and an empty queue it
sends the address byte, no data byte, and a stop after the address ack; `twi_readFrom` sends
the start and the address byte and, when the address is not acknowledged, the stop, and
returns 0. -/
theorem length_zero_not_rejected (s : Twi) (address reg data t0 t1 p : Nat) (dst : Ptr)
    (evs : List Event) (hready : s.twi_state = TWI_READY) :
    ((twi_nonBlockingReadFrom address dst 0 s).1 = 0 ∧
      (twi_nonBlockingReadFrom address dst 0 s).2.twi_state = TWI_MRX ∧
      (twi_nonBlockingReadFrom address dst 0 s).2.hw = s.hw ++ [HwOp.TWCR TWCR_START]) ∧
    ((twi_nonBlockingReadRegisterFrom address reg dst 0 s).1 = 0 ∧
      (twi_nonBlockingReadRegisterFrom address reg dst 0 s).2.twi_state = TWI_MTRX ∧
      (twi_nonBlockingReadRegisterFrom address reg dst 0 s).2.hw
        = s.hw ++ [HwOp.TWCR TWCR_START]) ∧
    (s.twi_read_queue.getD p NULL ≠ NULL → none_pending 0 p s →
      (s.rd_trans (s.twi_read_queue.getD p NULL)).length = 0 →
      (twi_check_queues s).twi_state = TWI_MTRX ∧
      (twi_check_queues s).twi_read_queue = s.twi_read_queue.set p NULL ∧
      (twi_check_queues s).hw = s.hw ++ [HwOp.TWCR TWCR_START]) ∧
    (∃ s', twi_writeTo address data 0 0 evs s = some (0, s', evs) ∧
      s'.twi_state = TWI_MTX ∧ s'.twi_masterBufferLength = 0 ∧
      s'.hw = s.hw ++ [HwOp.TWCR TWCR_START]) ∧
    (nothing_pending s →
      ∃ s', twi_writeTo address data 0 1 [⟨TW_START, t0⟩, ⟨TW_MT_SLA_ACK, t1⟩] s
          = some (0, s', []) ∧
        s'.twi_state = TWI_READY ∧
        s'.hw = s.hw ++ [HwOp.TWCR TWCR_START, HwOp.TWDR ((address <<< 1) % 256),
          HwOp.TWCR TWCR_ACK, HwOp.TWCR TWCR_STOP]) ∧
    (nothing_pending s →
      ∃ s', twi_readFrom address data 0 [⟨TW_START, t0⟩, ⟨TW_MR_SLA_NACK, t1⟩] s
          = some (0, s', []) ∧
        s'.twi_state = TWI_READY ∧
        s'.hw = s.hw ++ [HwOp.TWCR TWCR_START, HwOp.TWDR ((1 ||| address <<< 1) % 256),
          HwOp.TWCR TWCR_ACK, HwOp.TWCR TWCR_STOP]) := by
  refine ⟨?_, ?_, ?_, ?_, ?_, ?_⟩
  · simp [twi_nonBlockingReadFrom, hready, out]
  · simp [twi_nonBlockingReadRegisterFrom, hready, out]
  · intro hr hnone _
    rw [check_queues_read s p hr hnone]
    have h := check_queues_read_ready s p hready
    exact ⟨h.1.1, h.2.1, h.2.2.2⟩
  · rw [twi_writeTo_ready _ _ _ _ _ _ hready (by decide), spin_of_false _ _ _ (by simp),
      twi_writeTo_setup_eq]
    refine ⟨_, rfl, ?_, ?_, ?_⟩
    all_goals simp
  · intro hq
    rw [twi_writeTo_ready _ _ _ _ _ _ hready (by decide), twi_writeTo_setup_eq]
    rw [spin_cons_of_true _ _ _ _ (by simp), vect_START]
    dsimp only
    rw [spin_cons_of_true _ _ _ _ (by simp), vect_MT_ACK_done _ _ _ (Or.inl rfl)]
    rotate_left
    · rfl
    · simp
    · exact fun q => hq q
    dsimp only
    rw [spin_of_false _ _ _ (by simp)]
    refine ⟨_, rfl, ?_, ?_⟩
    all_goals simp
  · intro hq
    have hnb := nonBlockingReadFrom_ready address Ptr.masterBuffer 0 s hready
    unfold twi_readFrom
    rw [if_neg (by decide), readFrom_claim_ready _ _ _ _ hready, hnb]
    dsimp only
    rw [spin_cons_of_true _ _ _ _ (by simp), vect_START]
    dsimp only
    rw [spin_cons_of_true _ _ _ _ (by simp), vect_MR_SLA_NACK]
    swap
    · exact fun q => hq q
    dsimp only
    rw [spin_of_false _ _ _ (by simp)]
    dsimp only
    simp only [Nat.lt_irrefl, if_false]
    rw [twi_readFrom_copy_eq]
    refine ⟨_, rfl, ?_, ?_⟩
    all_goals simp [TW_READ]

/-- Length 0 on an initialised engine: the register read is accepted and the bus is claimed. -/
theorem length_zero_not_rejected_witness :
    (twi_init (blank 2 2)).twi_state = TWI_READY ∧
    (twi_nonBlockingReadRegisterFrom 0x20 5 (Ptr.ram 50) 0 (twi_init (blank 2 2))).1 = 0 ∧
    (twi_nonBlockingReadRegisterFrom 0x20 5 (Ptr.ram 50) 0 (twi_init (blank 2 2))).2.twi_state
      = TWI_MTRX :=
  have h := length_zero_not_rejected (twi_init (blank 2 2)) 0x20 5 50 0 0 0 (Ptr.ram 50) []
    (by decide)
  ⟨by decide, h.2.1.1, h.2.1.2.1⟩

/-! ## Enqueue results -/

/-- C8: for both enqueue operations a priority at or above the queue size returns -2 with the
whole state (every queue slot, the bus state) unchanged; every call returns -2, -1 or 0; and 0
is returned exactly when the priority is valid and the slot was empty. -/
theorem enqueue_result_codes (s : Twi) (trans priority : Nat) :
    (TWI_RD_TRANS_QUEUE_SIZE s ≤ priority →
      twi_queue_read_transaction trans priority s = (-2, s)) ∧
    (TWI_WR1_TRANS_QUEUE_SIZE s ≤ priority →
      twi_queue_write_one_masked_transaction trans priority s = (-2, s)) ∧
    ((twi_queue_read_transaction trans priority s).1 = -2 ∨
      (twi_queue_read_transaction trans priority s).1 = -1 ∨
      (twi_queue_read_transaction trans priority s).1 = 0) ∧
    ((twi_queue_write_one_masked_transaction trans priority s).1 = -2 ∨
      (twi_queue_write_one_masked_transaction trans priority s).1 = -1 ∨
      (twi_queue_write_one_masked_transaction trans priority s).1 = 0) ∧
    ((twi_queue_read_transaction trans priority s).1 = 0 ↔
      priority < TWI_RD_TRANS_QUEUE_SIZE s ∧ s.twi_read_queue.getD priority NULL = NULL) ∧
    ((twi_queue_write_one_masked_transaction trans priority s).1 = 0 ↔
      priority < TWI_WR1_TRANS_QUEUE_SIZE s ∧ s.twi_wr1_queue.getD priority NULL = NULL) := by
  have h255 : int8_of_uint8 255 = -1 := by decide
  have h0 : int8_of_uint8 0 = 0 := by decide
  refine ⟨?_, ?_, ?_, ?_, ?_, ?_⟩
  · intro h
    unfold twi_queue_read_transaction
    rw [if_pos h]
  · intro h
    unfold twi_queue_write_one_masked_transaction
    rw [if_pos h]
  · unfold twi_queue_read_transaction
    split
    · exact Or.inl rfl
    · split
      · exact Or.inr (Or.inl h255)
      · exact Or.inr (Or.inr h0)
  · unfold twi_queue_write_one_masked_transaction
    split
    · exact Or.inl rfl
    · split
      · exact Or.inr (Or.inl h255)
      · exact Or.inr (Or.inr h0)
  · unfold twi_queue_read_transaction
    by_cases h : priority ≥ TWI_RD_TRANS_QUEUE_SIZE s
    · rw [if_pos h]
      constructor
      · intro h2
        have h3 : (-2 : Int) = 0 := h2
        exact absurd h3 (by decide)
      · intro h2; omega
    · rw [if_neg h]
      by_cases hs : s.twi_read_queue.getD priority NULL ≠ NULL
      · simp only [if_pos hs, h255]
        constructor
        · intro h2; exact absurd h2 (by decide)
        · intro h2; exact absurd h2.2 hs
      · simp only [if_neg hs, h0]
        exact ⟨fun _ => ⟨by omega, not_not.mp hs⟩, fun _ => trivial⟩
  · unfold twi_queue_write_one_masked_transaction
    by_cases h : priority ≥ TWI_WR1_TRANS_QUEUE_SIZE s
    · rw [if_pos h]
      constructor
      · intro h2
        have h3 : (-2 : Int) = 0 := h2
        exact absurd h3 (by decide)
      · intro h2; omega
    · rw [if_neg h]
      by_cases hs : s.twi_wr1_queue.getD priority NULL ≠ NULL
      · simp only [if_pos hs, h255]
        constructor
        · intro h2; exact absurd h2 (by decide)
        · intro h2; exact absurd h2.2 hs
      · simp only [if_neg hs, h0]
        exact ⟨fun _ => ⟨by omega, not_not.mp hs⟩, fun _ => trivial⟩

/-- Priority 2 on two-slot queues is refused with -2; priority 0 on an empty slot returns 0. -/
theorem enqueue_result_codes_witness :
    TWI_RD_TRANS_QUEUE_SIZE (twi_init (blank 2 2)) ≤ 2 ∧
    (twi_queue_read_transaction 7 2 (twi_init (blank 2 2))).1 = -2 ∧
    TWI_WR1_TRANS_QUEUE_SIZE (twi_init (blank 2 2)) ≤ 2 ∧
    (twi_queue_write_one_masked_transaction 7 2 (twi_init (blank 2 2))).1 = -2 ∧
    (twi_queue_read_transaction 7 0 (twi_init (blank 2 2))).1 = 0 :=
  have h := enqueue_result_codes (twi_init (blank 2 2)) 7 2
  have h0 := enqueue_result_codes (twi_init (blank 2 2)) 7 0
  ⟨by decide, congrArg Prod.fst (h.1 (by decide)), by decide,
    congrArg Prod.fst (h.2.1 (by decide)), h0.2.2.2.2.1.mpr (by decide)⟩

/-! ## Initialisation -/

/-- C9: after `twi_init`, from any prior state, the bus state is Ready and every read slot and
every masked-write slot is empty (the arrays keep their sizes); running `twi_init` twice gives
the same bus state and queues as running it once. -/
theorem twi_init_resets (s : Twi) :
    (twi_init s).twi_state = TWI_READY ∧
    (twi_init s).twi_read_queue = List.replicate (TWI_RD_TRANS_QUEUE_SIZE s) NULL ∧
    (twi_init s).twi_wr1_queue = List.replicate (TWI_WR1_TRANS_QUEUE_SIZE s) NULL ∧
    (∀ q, (twi_init s).twi_read_queue.getD q NULL = NULL ∧
      (twi_init s).twi_wr1_queue.getD q NULL = NULL) ∧
    (twi_init (twi_init s)).twi_state = (twi_init s).twi_state ∧
    (twi_init (twi_init s)).twi_read_queue = (twi_init s).twi_read_queue ∧
    (twi_init (twi_init s)).twi_wr1_queue = (twi_init s).twi_wr1_queue := by
  refine ⟨?_, ?_, ?_, nothing_pending_init s, ?_, ?_, ?_⟩ <;>
    simp [twi_init, twi_queue_init, out, TWI_RD_TRANS_QUEUE_SIZE, TWI_WR1_TRANS_QUEUE_SIZE]

/-! ## Non-blocking claim -/

/-- C10: each non-blocking operation called while the bus is not Ready returns -1 and leaves
the whole engine state unchanged (every variable, both queues, the hardware log: no start);
called while the bus is Ready it returns 0, sets the bus state to `TWI_MRX`, `TWI_MTRX`,
`TWI_M_RMW` respectively, resets the error record to 0xFF and the index to 0, and issues a
start. -/
theorem nonblocking_claim (s : Twi) (address reg data mask length : Nat) (dst : Ptr) :
    (s.twi_state ≠ TWI_READY →
      twi_nonBlockingReadFrom address dst length s = (-1, s) ∧
      twi_nonBlockingReadRegisterFrom address reg dst length s = (-1, s) ∧
      twi_writeRegisterMaskedOneByte address reg data mask s = (-1, s)) ∧
    (s.twi_state = TWI_READY →
      ((twi_nonBlockingReadFrom address dst length s).1 = 0 ∧
        (twi_nonBlockingReadFrom address dst length s).2.twi_state = TWI_MRX ∧
        (twi_nonBlockingReadFrom address dst length s).2.twi_error = 0xFF ∧
        (twi_nonBlockingReadFrom address dst length s).2.twi_masterBufferIndex = 0 ∧
        (twi_nonBlockingReadFrom address dst length s).2.hw
          = s.hw ++ [HwOp.TWCR TWCR_START]) ∧
      ((twi_nonBlockingReadRegisterFrom address reg dst length s).1 = 0 ∧
        (twi_nonBlockingReadRegisterFrom address reg dst length s).2.twi_state = TWI_MTRX ∧
        (twi_nonBlockingReadRegisterFrom address reg dst length s).2.twi_error = 0xFF ∧
        (twi_nonBlockingReadRegisterFrom address reg dst length s).2.twi_masterBufferIndex = 0 ∧
        (twi_nonBlockingReadRegisterFrom address reg dst length s).2.hw
          = s.hw ++ [HwOp.TWCR TWCR_START]) ∧
      ((twi_writeRegisterMaskedOneByte address reg data mask s).1 = 0 ∧
        (twi_writeRegisterMaskedOneByte address reg data mask s).2.twi_state = TWI_M_RMW ∧
        (twi_writeRegisterMaskedOneByte address reg data mask s).2.twi_error = 0xFF ∧
        (twi_writeRegisterMaskedOneByte address reg data mask s).2.twi_masterBufferIndex = 0 ∧
        (twi_writeRegisterMaskedOneByte address reg data mask s).2.hw
          = s.hw ++ [HwOp.TWCR TWCR_START])) := by
  constructor
  · intro h
    simp [twi_nonBlockingReadFrom, twi_nonBlockingReadRegisterFrom,
      twi_writeRegisterMaskedOneByte, h]
  · intro h
    simp [twi_nonBlockingReadFrom, twi_nonBlockingReadRegisterFrom,
      twi_writeRegisterMaskedOneByte, h, out]

/-- A masked write offered while a masked write owns the bus is refused with -1; offered to an
initialised engine it is accepted with 0. -/
theorem nonblocking_claim_witness :
    (rmw_before_final 0x20 5 0x0F 0x0F).twi_state ≠ TWI_READY ∧
    twi_writeRegisterMaskedOneByte 0x21 6 1 1 (rmw_before_final 0x20 5 0x0F 0x0F)
      = (-1, rmw_before_final 0x20 5 0x0F 0x0F) ∧
    (twi_init (blank 2 2)).twi_state = TWI_READY ∧
    (twi_writeRegisterMaskedOneByte 0x21 6 1 1 (twi_init (blank 2 2))).1 = 0 :=
  ⟨by decide,
    ((nonblocking_claim (rmw_before_final 0x20 5 0x0F 0x0F) 0x21 6 1 1 0 (Ptr.ram 0)).1
      (by decide)).2.2,
    by decide,
    ((nonblocking_claim (twi_init (blank 2 2)) 0x21 6 1 1 0 (Ptr.ram 0)).2 (by decide)).2.2.1⟩

/-! ## Further single handler steps -/

/-- The handler on "repeated start sent": address byte, then ack. -/
theorem vect_REP_START (s : Twi) (t : Nat) :
    TWI_vect TW_REP_START t s =
      { s with hw := s.hw ++ [HwOp.TWDR s.twi_slarw, HwOp.TWCR TWCR_ACK] } := by
  simp [TWI_vect, twi_reply, out, TW_START, TW_REP_START]

/-- The handler on "write address acked" during a register read or a masked write: the
register address is sent. -/
theorem vect_MT_SLA_ACK_reg (s : Twi) (t : Nat)
    (hstate : s.twi_state = TWI_MTRX ∨ s.twi_state = TWI_M_RMW) :
    TWI_vect TW_MT_SLA_ACK t s =
      { s with hw := s.hw ++ [HwOp.TWDR s.twi_reg, HwOp.TWCR TWCR_ACK] } := by
  simp [TWI_vect, twi_reply, out, hstate, TW_START, TW_REP_START, TW_MT_SLA_ACK]

/-- The handler on "data acked" during a register read or a masked write (the register
address has been acknowledged): stop, read bit set in the address byte, start.  The bus state
is not changed. -/
theorem vect_MT_DATA_ACK_turn (s : Twi) (t : Nat)
    (hstate : s.twi_state = TWI_MTRX ∨ s.twi_state = TWI_M_RMW) :
    TWI_vect TW_MT_DATA_ACK t s =
      { s with twi_slarw := s.twi_slarw ||| TW_READ,
               hw := s.hw ++ [HwOp.TWCR TWCR_STOP, HwOp.TWCR TWCR_START] } := by
  simp [TWI_vect, TWI_vect_MT_DATA_ACK, out, hstate, TW_START, TW_REP_START, TW_MT_SLA_ACK,
    TW_MT_DATA_ACK]

/-- The handler on "address acked" or "data acked" in `TWI_MTX` with a byte left in the
internal buffer: the byte at the index is sent and the index advances. -/
theorem vect_MT_ACK_send (s : Twi) (status t : Nat)
    (hstatus : status = TW_MT_SLA_ACK ∨ status = TW_MT_DATA_ACK)
    (hstate : s.twi_state = TWI_MTX) (hptr : s.twi_masterBufferPtr = Ptr.masterBuffer)
    (hidx : s.twi_masterBufferIndex < s.twi_masterBufferLength)
    (hlen : s.twi_masterBufferLength ≤ 8) :
    TWI_vect status t s =
      { s with twi_masterBufferIndex := s.twi_masterBufferIndex + 1,
               hw := s.hw ++ [HwOp.TWDR (s.twi_masterBuffer s.twi_masterBufferIndex),
                 HwOp.TWCR TWCR_ACK] } := by
  have h8 : s.twi_masterBufferIndex < 8 := by omega
  have h256 : (s.twi_masterBufferIndex + 1) % 256 = s.twi_masterBufferIndex + 1 :=
    Nat.mod_eq_of_lt (by omega)
  rcases hstatus with h1 | h1 <;> subst h1 <;>
    simp [TWI_vect, TWI_vect_MT_DATA_ACK, twi_reply, load, load_ub, out, hstate, hptr, hidx, h8,
      h256, TWI_BUFFER_LENGTH, TW_MT_SLA_ACK, TW_MT_DATA_ACK, TW_START, TW_REP_START]

/-- The handler on "address acked" or "data acked" in `TWI_MTX` when every buffered byte has
been sent: `twi_stop`. -/
theorem vect_MT_ACK_stop (s : Twi) (status t : Nat)
    (hstatus : status = TW_MT_SLA_ACK ∨ status = TW_MT_DATA_ACK)
    (hstate : s.twi_state = TWI_MTX)
    (hidx : ¬ s.twi_masterBufferIndex < s.twi_masterBufferLength) :
    TWI_vect status t s = twi_stop s := by
  rcases hstatus with h1 | h1 <;> subst h1 <;>
    simp [TWI_vect, TWI_vect_MT_DATA_ACK, hstate, hidx, TW_MT_SLA_ACK, TW_MT_DATA_ACK, TW_START,
      TW_REP_START]

/-- The handler on "write address not acked": error recorded, then `twi_stop`. -/
theorem vect_MT_SLA_NACK (s : Twi) (t : Nat) :
    TWI_vect TW_MT_SLA_NACK t s = twi_stop { s with twi_error := TW_MT_SLA_NACK } := by
  simp [TWI_vect, TW_MT_SLA_NACK, TW_START, TW_REP_START, TW_MT_SLA_ACK, TW_MT_DATA_ACK]

/-- The handler on "data not acked": error recorded, then `twi_stop`. -/
theorem vect_MT_DATA_NACK (s : Twi) (t : Nat) :
    TWI_vect TW_MT_DATA_NACK t s = twi_stop { s with twi_error := TW_MT_DATA_NACK } := by
  simp [TWI_vect, TW_MT_DATA_NACK, TW_MT_SLA_NACK, TW_START, TW_REP_START, TW_MT_SLA_ACK,
    TW_MT_DATA_ACK]

/-- The handler on a bus error: error recorded, then `twi_stop`. -/
theorem vect_BUS_ERROR_stop (s : Twi) (t : Nat) :
    TWI_vect TW_BUS_ERROR t s = twi_stop { s with twi_error := TW_BUS_ERROR } := by
  simp [TWI_vect, TW_BUS_ERROR, TW_MR_SLA_ACK, TW_START, TW_MR_DATA_NACK, TW_MR_SLA_NACK,
    TW_REP_START, TW_MT_SLA_ACK, TW_MT_DATA_ACK, TW_MT_SLA_NACK, TW_MT_DATA_NACK,
    TW_MT_ARB_LOST, TW_MR_DATA_ACK]

/-- The handler on "arbitration lost": error recorded, bus released, Ready; the queues are not
looked at. -/
theorem vect_ARB_LOST (s : Twi) (t : Nat) :
    TWI_vect TW_MT_ARB_LOST t s =
      { s with twi_error := TW_MT_ARB_LOST, hw := s.hw ++ [HwOp.TWCR TWCR_RELEASE],
               twi_state := TWI_READY } := by
  simp [TWI_vect, twi_releaseBus, out, TW_MT_ARB_LOST, TW_MT_DATA_NACK, TW_MT_SLA_NACK, TW_START,
    TW_REP_START, TW_MT_SLA_ACK, TW_MT_DATA_ACK]

/-- The handler on the final byte of the read phase of a masked write, pointer on the internal
buffer and index 0: merge, buffer `[reg, merged]`, write direction, start. -/
theorem vect_MR_DATA_NACK_rmw (s : Twi) (old : Nat) (hstate : s.twi_state = TWI_M_RMW)
    (hptr : s.twi_masterBufferPtr = Ptr.masterBuffer) (hidx : s.twi_masterBufferIndex = 0) :
    TWI_vect TW_MR_DATA_NACK old s =
      { s with
        twi_masterBuffer := upd (upd (upd s.twi_masterBuffer 0 (old % 256)) 1
          (((old % 256 &&& (255 - s.twi_rmw_mask % 256)) ||| (s.twi_rmw_data &&& s.twi_rmw_mask))
            % 256)) 0 s.twi_reg,
        twi_masterBufferIndex := 0, twi_masterBufferLength := 2, twi_state := TWI_MTX,
        twi_slarw := s.twi_slarw &&& 254, hw := s.hw ++ [HwOp.TWCR TWCR_START] } := by
  simp [TWI_vect, TWI_vect_put, store, load, out, upd, hstate, hptr, hidx, TW_MR_DATA_NACK,
    TW_START, TW_REP_START, TW_MT_SLA_ACK, TW_MT_DATA_ACK, TW_MT_SLA_NACK, TW_MT_DATA_NACK,
    TW_MT_ARB_LOST, TW_MR_DATA_ACK, TW_MR_SLA_ACK, TWI_BUFFER_LENGTH]

/-- A register read accepted on a Ready bus. -/
theorem nonBlockingReadRegisterFrom_ready (address reg : Nat) (data : Ptr) (length : Nat)
    (s : Twi) (hready : s.twi_state = TWI_READY) :
    twi_nonBlockingReadRegisterFrom address reg data length s =
      (0, { s with
        twi_state := TWI_MTRX, twi_error := 0xFF, twi_reg := reg, twi_masterBufferPtr := data,
        twi_masterBufferIndex := 0, twi_masterBufferLength := (length + 255) % 256,
        twi_slarw := (address <<< 1) % 256,
        hw := s.hw ++ [HwOp.TWCR TWCR_START] }) := by
  simp [twi_nonBlockingReadRegisterFrom, hready, out, TW_WRITE]

/-- A masked write accepted on a Ready bus. -/
theorem writeRegisterMaskedOneByte_ready (address reg data mask : Nat) (s : Twi)
    (hready : s.twi_state = TWI_READY) :
    twi_writeRegisterMaskedOneByte address reg data mask s =
      (0, { s with
        twi_state := TWI_M_RMW, twi_rmw_data := data, twi_rmw_mask := mask, twi_error := 0xFF,
        twi_reg := reg, twi_masterBufferPtr := Ptr.masterBuffer, twi_masterBufferIndex := 0,
        twi_masterBufferLength := 0, twi_slarw := (address <<< 1) % 256,
        hw := s.hw ++ [HwOp.TWCR TWCR_START] }) := by
  simp [twi_writeRegisterMaskedOneByte, hready, out, TW_WRITE]

/-- Any operation refused because the bus is busy leaves the state as it was. -/
theorem check_queues_busy (s : Twi) (hbusy : s.twi_state ≠ TWI_READY) :
    (∀ t, twi_check_queues_read t s = s) ∧ (∀ t, twi_check_queues_wr1 t s = s) := by
  constructor <;> intro t <;>
    simp [twi_check_queues_read, twi_check_queues_wr1, twi_nonBlockingReadRegisterFrom,
      twi_writeRegisterMaskedOneByte, hbusy]
/-! ## Address byte arithmetic -/

/-- The address byte built for a write: `address << 1` on eight bits. -/
theorem slaw_eq (a : Nat) : (a <<< 1) % 256 = (2 * a) % 256 := by
  rw [Nat.shiftLeft_eq, Nat.pow_one, Nat.mul_comm]

/-- Setting bit 0 of an even number adds one. -/
theorem even_or_one (c : Nat) : (2 * c) ||| 1 = 2 * c + 1 := by
  have h := Nat.mul_add_lt_is_or (show 1 < 2 ^ 1 by decide) c
  simpa using h.symm

/-- The address byte built for a read: `TW_READ | address << 1` on eight bits. -/
theorem slar_eq (a : Nat) : (TW_READ ||| (a <<< 1)) % 256 = (2 * a + 1) % 256 := by
  rw [Nat.shiftLeft_eq, Nat.pow_one, Nat.mul_comm, Nat.lor_comm, TW_READ, even_or_one]

/-- Setting the read bit of a write address byte. -/
theorem slaw_or_read (a : Nat) : ((2 * a) % 256) ||| TW_READ = (2 * a + 1) % 256 := by
  have h1 : (2 * a) % 256 = 2 * (a % 128) := by omega
  rw [h1, TW_READ, even_or_one]
  omega

/-- Clearing the read bit of a read address byte. -/
theorem slar_and_write (a : Nat) : ((2 * a + 1) % 256) &&& 254 = (2 * a) % 256 := by
  have h1 : (2 * a + 1) % 256 = 2 * (a % 128) + 1 := by omega
  have h2 : (2 * a) % 256 = 2 * (a % 128) := by omega
  have h3 : ∀ c, c < 128 → (2 * c + 1) &&& 254 = 2 * c := by decide
  rw [h1, h2]
  exact h3 _ (Nat.mod_lt _ (by decide))
/-! ## Register read, second phase -/

/-- C18 (as stated, refuted): after an accepted register read, start, address ack and the ack
of the register-address byte, the bus state is still `TWI_MTRX`, not `TWI_MRX`; the stop, the
start and the read bit are as the claim says. -/
theorem register_ack_state_not_MRX :
    (twi_nonBlockingReadRegisterFrom 0x20 5 (Ptr.ram 50) 2 (twi_init (blank 2 2))).1 = 0 ∧
    (run [⟨TW_START, 0⟩, ⟨TW_MT_SLA_ACK, 0⟩]
      (twi_nonBlockingReadRegisterFrom 0x20 5 (Ptr.ram 50) 2 (twi_init (blank 2 2))).2).twi_state
      = TWI_MTRX ∧
    (run [⟨TW_START, 0⟩, ⟨TW_MT_SLA_ACK, 0⟩, ⟨TW_MT_DATA_ACK, 0⟩]
      (twi_nonBlockingReadRegisterFrom 0x20 5 (Ptr.ram 50) 2 (twi_init (blank 2 2))).2).twi_state
      ≠ TWI_MRX ∧
    (run [⟨TW_START, 0⟩, ⟨TW_MT_SLA_ACK, 0⟩, ⟨TW_MT_DATA_ACK, 0⟩]
      (twi_nonBlockingReadRegisterFrom 0x20 5 (Ptr.ram 50) 2 (twi_init (blank 2 2))).2).twi_slarw
      = 0x41 := by
  decide

/-- C18 (amended): when the handler processes the acknowledge of the register-address byte
(`TW_MT_DATA_ACK`) in state `TWI_MTRX`, it issues a stop followed by a start, sets the
direction bit of the address byte to receive keeping its other bits, and leaves the bus state
`TWI_MTRX`; no other engine variable and no queue slot changes. -/
theorem register_ack_turns_around (s : Twi) (t : Nat) (hstate : s.twi_state = TWI_MTRX) :
    TWI_vect TW_MT_DATA_ACK t s =
      { s with twi_slarw := s.twi_slarw ||| TW_READ,
               hw := s.hw ++ [HwOp.TWCR TWCR_STOP, HwOp.TWCR TWCR_START] } ∧
    (TWI_vect TW_MT_DATA_ACK t s).twi_state = TWI_MTRX ∧
    (TWI_vect TW_MT_DATA_ACK t s).twi_slarw.testBit 0 = true ∧
    (TWI_vect TW_MT_DATA_ACK t s).twi_slarw / 2 = s.twi_slarw / 2 ∧
    (TWI_vect TW_MT_DATA_ACK t s).hw = s.hw ++ [HwOp.TWCR TWCR_STOP, HwOp.TWCR TWCR_START] ∧
    TWCR_STOP.testBit TWSTO = true ∧ TWCR_START.testBit TWSTA = true := by
  have h := vect_MT_DATA_ACK_turn s t (Or.inl hstate)
  refine ⟨h, ?_, ?_, ?_, ?_, by decide, by decide⟩
  · rw [h]; exact hstate
  · rw [h]; simp [TW_READ]
  · rw [h]
    show (s.twi_slarw ||| 1) / 2 = s.twi_slarw / 2
    have h1 := Nat.testBit_succ
    apply Nat.eq_of_testBit_eq
    intro i
    rw [← Nat.testBit_succ, ← Nat.testBit_succ, Nat.testBit_or]
    have : Nat.testBit 1 (i + 1) = false := by
      rw [Nat.testBit_succ]; simp
    simp [this]
  · rw [h]

/-- A register read on an initialised engine, up to the acknowledge of the register address. -/
theorem register_ack_turns_around_witness :
    (run [⟨TW_START, 0⟩, ⟨TW_MT_SLA_ACK, 0⟩]
      (twi_nonBlockingReadRegisterFrom 0x20 5 (Ptr.ram 50) 2 (twi_init (blank 2 2))).2).twi_state
      = TWI_MTRX ∧
    (TWI_vect TW_MT_DATA_ACK 0 (run [⟨TW_START, 0⟩, ⟨TW_MT_SLA_ACK, 0⟩]
      (twi_nonBlockingReadRegisterFrom 0x20 5 (Ptr.ram 50) 2
        (twi_init (blank 2 2))).2)).twi_state = TWI_MTRX :=
  ⟨by decide,
    (register_ack_turns_around (run [⟨TW_START, 0⟩, ⟨TW_MT_SLA_ACK, 0⟩]
      (twi_nonBlockingReadRegisterFrom 0x20 5 (Ptr.ram 50) 2 (twi_init (blank 2 2))).2) 0
      (by decide)).2.1⟩

/-! ## Error events -/

/-- C19 (as stated, refuted): a plain read is accepted and started, so the bus state is
`TWI_MRX` with nothing pending; the device does not answer its address and the handler
processes the read-address nack `TW_MR_SLA_NACK`. The bus state is Ready and a stop is
written, but the error record still holds 0xFF (no error), not that event's code. The same
holds in the second phase of a register read (state `TWI_MTRX`). -/
theorem read_address_nack_records_nothing :
    (run [⟨TW_START, 0⟩]
      (twi_nonBlockingReadFrom 0x20 (Ptr.ram 50) 1 (twi_init (blank 2 2))).2).twi_state
        = TWI_MRX ∧
    (TWI_vect TW_MR_SLA_NACK 0 (run [⟨TW_START, 0⟩]
      (twi_nonBlockingReadFrom 0x20 (Ptr.ram 50) 1 (twi_init (blank 2 2))).2)).twi_state
        = TWI_READY ∧
    (TWI_vect TW_MR_SLA_NACK 0 (run [⟨TW_START, 0⟩]
      (twi_nonBlockingReadFrom 0x20 (Ptr.ram 50) 1 (twi_init (blank 2 2))).2)).hw.getLast?
        = some (HwOp.TWCR TWCR_STOP) ∧
    (TWI_vect TW_MR_SLA_NACK 0 (run [⟨TW_START, 0⟩]
      (twi_nonBlockingReadFrom 0x20 (Ptr.ram 50) 1 (twi_init (blank 2 2))).2)).twi_error
        = 0xFF ∧
    (TWI_vect TW_MR_SLA_NACK 0 (run [⟨TW_START, 0⟩]
      (twi_nonBlockingReadFrom 0x20 (Ptr.ram 50) 1 (twi_init (blank 2 2))).2)).twi_error
        ≠ TW_MR_SLA_NACK ∧
    (run [⟨TW_START, 0⟩, ⟨TW_MT_SLA_ACK, 0⟩, ⟨TW_MT_DATA_ACK, 0⟩, ⟨TW_START, 0⟩]
      (twi_nonBlockingReadRegisterFrom 0x20 5 (Ptr.ram 50) 2
        (twi_init (blank 2 2))).2).twi_state = TWI_MTRX ∧
    (TWI_vect TW_MR_SLA_NACK 0
      (run [⟨TW_START, 0⟩, ⟨TW_MT_SLA_ACK, 0⟩, ⟨TW_MT_DATA_ACK, 0⟩, ⟨TW_START, 0⟩]
        (twi_nonBlockingReadRegisterFrom 0x20 5 (Ptr.ram 50) 2
          (twi_init (blank 2 2))).2)).twi_state = TWI_READY ∧
    (TWI_vect TW_MR_SLA_NACK 0
      (run [⟨TW_START, 0⟩, ⟨TW_MT_SLA_ACK, 0⟩, ⟨TW_MT_DATA_ACK, 0⟩, ⟨TW_START, 0⟩]
        (twi_nonBlockingReadRegisterFrom 0x20 5 (Ptr.ram 50) 2
          (twi_init (blank 2 2))).2)).twi_error ≠ TW_MR_SLA_NACK := by
  decide

/-- C19 (amended): with no request pending, from every bus state, after the handler processes
the write-address nack `TW_MT_SLA_NACK`, the data nack `TW_MT_DATA_NACK` or the bus error
`TW_BUS_ERROR`, the bus state is Ready, the error record is that event's code and the
control write has the stop bit set; after arbitration lost `TW_MT_ARB_LOST` the bus state is
Ready, the error record is that code and the control write has the stop bit clear. After the
read-address nack `TW_MR_SLA_NACK` the bus state is Ready and the same stop is written, but
the error record is left as it was. After each of the five events a non-blocking claim (plain
read, register read, masked write) returns 0. -/
theorem error_events_return_to_ready (s : Twi) (t : Nat) (hq : nothing_pending s) :
    (∀ e, e = TW_MT_SLA_NACK ∨ e = TW_MT_DATA_NACK ∨ e = TW_BUS_ERROR →
      (TWI_vect e t s).twi_state = TWI_READY ∧ (TWI_vect e t s).twi_error = e ∧
      (TWI_vect e t s).hw = s.hw ++ [HwOp.TWCR TWCR_STOP]) ∧
    TWCR_STOP.testBit TWSTO = true ∧
    ((TWI_vect TW_MT_ARB_LOST t s).twi_state = TWI_READY ∧
      (TWI_vect TW_MT_ARB_LOST t s).twi_error = TW_MT_ARB_LOST ∧
      (TWI_vect TW_MT_ARB_LOST t s).hw = s.hw ++ [HwOp.TWCR TWCR_RELEASE]) ∧
    TWCR_RELEASE.testBit TWSTO = false ∧
    (∀ e, e = TW_MT_SLA_NACK ∨ e = TW_MT_DATA_NACK ∨ e = TW_BUS_ERROR ∨ e = TW_MT_ARB_LOST →
      ∀ (address reg data mask length : Nat) (dst : Ptr),
        (twi_nonBlockingReadFrom address dst length (TWI_vect e t s)).1 = 0 ∧
        (twi_nonBlockingReadRegisterFrom address reg dst length (TWI_vect e t s)).1 = 0 ∧
        (twi_writeRegisterMaskedOneByte address reg data mask (TWI_vect e t s)).1 = 0) ∧
    ((TWI_vect TW_MR_SLA_NACK t s).twi_state = TWI_READY ∧
      (TWI_vect TW_MR_SLA_NACK t s).twi_error = s.twi_error ∧
      (TWI_vect TW_MR_SLA_NACK t s).hw = s.hw ++ [HwOp.TWCR TWCR_STOP] ∧
      ∀ (address reg data mask length : Nat) (dst : Ptr),
        (twi_nonBlockingReadFrom address dst length (TWI_vect TW_MR_SLA_NACK t s)).1 = 0 ∧
        (twi_nonBlockingReadRegisterFrom address reg dst length
          (TWI_vect TW_MR_SLA_NACK t s)).1 = 0 ∧
        (twi_writeRegisterMaskedOneByte address reg data mask
          (TWI_vect TW_MR_SLA_NACK t s)).1 = 0) := by
  have hstop : ∀ e, e = TW_MT_SLA_NACK ∨ e = TW_MT_DATA_NACK ∨ e = TW_BUS_ERROR →
      TWI_vect e t s = { s with twi_error := e, hw := s.hw ++ [HwOp.TWCR TWCR_STOP],
                                twi_state := TWI_READY } := by
    intro e he
    rcases he with h | h | h <;> subst h
    · rw [vect_MT_SLA_NACK, twi_stop_nothing_pending]
      exact fun q => hq q
    · rw [vect_MT_DATA_NACK, twi_stop_nothing_pending]
      exact fun q => hq q
    · rw [vect_BUS_ERROR_stop, twi_stop_nothing_pending]
      exact fun q => hq q
  have hready : ∀ e, e = TW_MT_SLA_NACK ∨ e = TW_MT_DATA_NACK ∨ e = TW_BUS_ERROR ∨
      e = TW_MT_ARB_LOST → (TWI_vect e t s).twi_state = TWI_READY := by
    intro e he
    rcases he with h | h | h | h
    · rw [hstop e (Or.inl h)]
    · rw [hstop e (Or.inr (Or.inl h))]
    · rw [hstop e (Or.inr (Or.inr h))]
    · subst h; rw [vect_ARB_LOST]
  have hnack : TWI_vect TW_MR_SLA_NACK t s =
      { s with hw := s.hw ++ [HwOp.TWCR TWCR_STOP], twi_state := TWI_READY } :=
    vect_MR_SLA_NACK s t hq
  have hnready : (TWI_vect TW_MR_SLA_NACK t s).twi_state = TWI_READY := by rw [hnack]
  refine ⟨?_, by decide, ?_, by decide, ?_, ?_⟩
  · intro e he
    rw [hstop e he]
    exact ⟨rfl, rfl, rfl⟩
  · rw [vect_ARB_LOST]
    exact ⟨rfl, rfl, rfl⟩
  · intro e he address reg data mask length dst
    have h := hready e he
    exact ⟨congrArg Prod.fst (nonBlockingReadFrom_ready address dst length _ h),
      congrArg Prod.fst (nonBlockingReadRegisterFrom_ready address reg dst length _ h),
      congrArg Prod.fst (writeRegisterMaskedOneByte_ready address reg data mask _ h)⟩
  · refine ⟨hnready, ?_, ?_, ?_⟩
    · rw [hnack]
    · rw [hnack]
    · intro address reg data mask length dst
      exact ⟨congrArg Prod.fst (nonBlockingReadFrom_ready address dst length _ hnready),
        congrArg Prod.fst (nonBlockingReadRegisterFrom_ready address reg dst length _ hnready),
        congrArg Prod.fst (writeRegisterMaskedOneByte_ready address reg data mask _ hnready)⟩

/-- A masked write in its read phase, empty queue, hit by a bus error: Ready, error recorded,
and the next masked write is accepted; hit by a read-address nack instead: Ready, the error
record unchanged, and the next masked write is accepted. -/
theorem error_events_return_to_ready_witness :
    (TWI_vect TW_BUS_ERROR 0 (rmw_before_final 0x20 5 0x0F 0x0F)).twi_state = TWI_READY ∧
    (TWI_vect TW_BUS_ERROR 0 (rmw_before_final 0x20 5 0x0F 0x0F)).twi_error = TW_BUS_ERROR ∧
    (twi_writeRegisterMaskedOneByte 0x21 6 1 1
      (TWI_vect TW_BUS_ERROR 0 (rmw_before_final 0x20 5 0x0F 0x0F))).1 = 0 ∧
    (TWI_vect TW_MR_SLA_NACK 0 (rmw_before_final 0x20 5 0x0F 0x0F)).twi_state = TWI_READY ∧
    (TWI_vect TW_MR_SLA_NACK 0 (rmw_before_final 0x20 5 0x0F 0x0F)).twi_error =
      (rmw_before_final 0x20 5 0x0F 0x0F).twi_error ∧
    (twi_writeRegisterMaskedOneByte 0x21 6 1 1
      (TWI_vect TW_MR_SLA_NACK 0 (rmw_before_final 0x20 5 0x0F 0x0F))).1 = 0 :=
  have hq : nothing_pending (rmw_before_final 0x20 5 0x0F 0x0F) := by
    intro q
    match q with
    | 0 => decide
    | 1 => decide
    | n + 2 => exact ⟨rfl, rfl⟩
  have h := error_events_return_to_ready (rmw_before_final 0x20 5 0x0F 0x0F) 0 hq
  ⟨(h.1 TW_BUS_ERROR (Or.inr (Or.inr rfl))).1, (h.1 TW_BUS_ERROR (Or.inr (Or.inr rfl))).2.1,
    (h.2.2.2.2.1 TW_BUS_ERROR (Or.inr (Or.inr (Or.inl rfl))) 0x21 6 1 1 0 (Ptr.ram 0)).2.2,
    h.2.2.2.2.2.1, h.2.2.2.2.2.2.1,
    (h.2.2.2.2.2.2.2.2 0x21 6 1 1 0 (Ptr.ram 0)).2.2⟩

/-- The function `twi_stop` with a read pending first in dispatch order: after the stop that
read is handed to the engine and its slot cleared. -/
theorem twi_stop_dispatch_read (s : Twi) (p : Nat) (hnone : none_pending 0 p s)
    (hr : s.twi_read_queue.getD p NULL ≠ NULL) :
    loaded_read (s.rd_trans (s.twi_read_queue.getD p NULL)) (twi_stop s) ∧
    (twi_stop s).twi_read_queue = s.twi_read_queue.set p NULL ∧
    (twi_stop s).twi_wr1_queue = s.twi_wr1_queue ∧
    (twi_stop s).hw = s.hw ++ [HwOp.TWCR TWCR_STOP, HwOp.TWCR TWCR_START] := by
  have h := (check_queues_dispatch
    { out (HwOp.TWCR TWCR_STOP) s with twi_state := TWI_READY } p rfl
    (fun q h1 h2 => hnone q h1 h2)).1 hr
  refine ⟨h.1, h.2.1, h.2.2.1, ?_⟩
  have h4 := h.2.2.2
  simp only [out, List.append_assoc, List.singleton_append] at h4
  exact h4

/-- The function `twi_stop` with a masked write pending first in dispatch order: after the stop
that write is handed to the engine and its slot cleared. -/
theorem twi_stop_dispatch_wr1 (s : Twi) (p : Nat) (hnone : none_pending 0 p s)
    (hr : s.twi_read_queue.getD p NULL = NULL) (hw : s.twi_wr1_queue.getD p NULL ≠ NULL) :
    loaded_wr1 (s.wr1_trans (s.twi_wr1_queue.getD p NULL)) (twi_stop s) ∧
    (twi_stop s).twi_wr1_queue = s.twi_wr1_queue.set p NULL ∧
    (twi_stop s).twi_read_queue = s.twi_read_queue ∧
    (twi_stop s).hw = s.hw ++ [HwOp.TWCR TWCR_STOP, HwOp.TWCR TWCR_START] := by
  have h := (check_queues_dispatch
    { out (HwOp.TWCR TWCR_STOP) s with twi_state := TWI_READY } p rfl
    (fun q h1 h2 => hnone q h1 h2)).2 hr hw
  refine ⟨h.1, h.2.1, h.2.2.1, ?_⟩
  have h4 := h.2.2.2
  simp only [out, List.append_assoc, List.singleton_append] at h4
  exact h4
/-! ## Bus ownership of a masked write -/

/-- C11 (as stated, refuted): the claim's sequence has one data ack more than the write phase
`[reg, merged]` uses.  After ten of its eleven interrupts the handler has already issued the
final stop: with an empty queue the bus state is Ready before the last interrupt, and with a
read pending that read has been dispatched (slot cleared, state `TWI_MTRX`) before the last
interrupt. -/
theorem rmw_eleventh_event_late :
    (rmw_events (fun _ => 0) 0xF0 ++ [Event.mk TW_MT_DATA_ACK 0]).length = 11 ∧
    (run ((rmw_events (fun _ => 0) 0xF0 ++ [Event.mk TW_MT_DATA_ACK 0]).take 10)
      (twi_writeRegisterMaskedOneByte 0x20 5 0x0F 0x0F (twi_init (blank 2 2))).2).twi_state
      = TWI_READY ∧
    rmw_with_pending_read.twi_state = TWI_M_RMW ∧
    rmw_with_pending_read.twi_read_queue = [1, NULL] ∧
    (run ((rmw_events (fun _ => 0) 0xF0 ++ [Event.mk TW_MT_DATA_ACK 0]).take 10)
      rmw_with_pending_read).twi_read_queue = [NULL, NULL] ∧
    (run ((rmw_events (fun _ => 0) 0xF0 ++ [Event.mk TW_MT_DATA_ACK 0]).take 10)
      rmw_with_pending_read).twi_state = TWI_MTRX := by
  decide

/-- C11 (amended): starting from an accepted `twi_writeRegisterMaskedOneByte`, for every queue
content, along the all-acknowledged sequence start, address ack, register ack, start,
read-address ack, final byte, repeated start, address ack, data ack, data ack (ten
interrupts): before the handler processes the last interrupt the bus state is never Ready
and no queue slot has changed; the state is `TWI_M_RMW` up to the merge (the sixth interrupt)
and `TWI_MTX` afterwards.  The last interrupt runs `twi_stop`, which returns to Ready and runs
queue dispatch: with nothing pending the bus ends Ready, and a request pending first in
dispatch order is handed to the engine then. -/
theorem rmw_owns_bus (s : Twi) (address reg data mask old : Nat) (t : Nat → Nat)
    (hready : s.twi_state = TWI_READY) :
    (twi_writeRegisterMaskedOneByte address reg data mask s).1 = 0 ∧
    (∀ k, k < 10 →
      (rmw_after s address reg data mask t old k).twi_state ≠ TWI_READY ∧
      (rmw_after s address reg data mask t old k).twi_read_queue = s.twi_read_queue ∧
      (rmw_after s address reg data mask t old k).twi_wr1_queue = s.twi_wr1_queue ∧
      (k ≤ 5 → (rmw_after s address reg data mask t old k).twi_state = TWI_M_RMW) ∧
      (6 ≤ k → (rmw_after s address reg data mask t old k).twi_state = TWI_MTX)) ∧
    rmw_after s address reg data mask t old 10
      = twi_stop (rmw_after s address reg data mask t old 9) ∧
    (nothing_pending s →
      (rmw_after s address reg data mask t old 10).twi_state = TWI_READY ∧
      (rmw_after s address reg data mask t old 10).twi_error = 0xFF) ∧
    (∀ p, none_pending 0 p s → s.twi_read_queue.getD p NULL ≠ NULL →
      loaded_read (s.rd_trans (s.twi_read_queue.getD p NULL))
        (rmw_after s address reg data mask t old 10) ∧
      (rmw_after s address reg data mask t old 10).twi_read_queue
        = s.twi_read_queue.set p NULL) ∧
    (∀ p, none_pending 0 p s → s.twi_read_queue.getD p NULL = NULL →
      s.twi_wr1_queue.getD p NULL ≠ NULL →
      loaded_wr1 (s.wr1_trans (s.twi_wr1_queue.getD p NULL))
        (rmw_after s address reg data mask t old 10) ∧
      (rmw_after s address reg data mask t old 10).twi_wr1_queue
        = s.twi_wr1_queue.set p NULL) := by
  have h9 : rmw_after s address reg data mask t old 9 =
      { s with
        twi_state := TWI_MTX, twi_rmw_data := data, twi_rmw_mask := mask, twi_error := 0xFF,
        twi_reg := reg, twi_masterBufferPtr := Ptr.masterBuffer, twi_masterBufferIndex := 2,
        twi_masterBufferLength := 2,
        twi_masterBuffer := (rmw_after s address reg data mask t old 9).twi_masterBuffer,
        twi_slarw := (rmw_after s address reg data mask t old 9).twi_slarw,
        hw := (rmw_after s address reg data mask t old 9).hw } := by
    unfold rmw_after
    rw [writeRegisterMaskedOneByte_ready _ _ _ _ _ hready]
    simp [run, rmw_events, vect_START, vect_REP_START, vect_MT_SLA_ACK_reg,
      vect_MT_DATA_ACK_turn, vect_MR_SLA_ACK, vect_MR_DATA_NACK_rmw,
      vect_MT_ACK_send _ TW_MT_SLA_ACK _ (Or.inl rfl),
      vect_MT_ACK_send _ TW_MT_DATA_ACK _ (Or.inr rfl)]
  have h10 : rmw_after s address reg data mask t old 10
      = twi_stop (rmw_after s address reg data mask t old 9) := by
    have hstep : rmw_after s address reg data mask t old 10
        = TWI_vect TW_MT_DATA_ACK (t 9) (rmw_after s address reg data mask t old 9) := by
      simp [rmw_after, run, rmw_events]
    rw [hstep, vect_MT_ACK_stop _ _ _ (Or.inr rfl)]
    · rw [h9]
    · rw [h9]; simp
  refine ⟨?_, ?_, h10, ?_, ?_, ?_⟩
  · rw [writeRegisterMaskedOneByte_ready _ _ _ _ _ hready]
  · intro k hk
    unfold rmw_after
    rw [writeRegisterMaskedOneByte_ready _ _ _ _ _ hready]
    interval_cases k <;>
      simp [run, rmw_events, vect_START, vect_REP_START, vect_MT_SLA_ACK_reg,
        vect_MT_DATA_ACK_turn, vect_MR_SLA_ACK, vect_MR_DATA_NACK_rmw,
        vect_MT_ACK_send _ TW_MT_SLA_ACK _ (Or.inl rfl),
        vect_MT_ACK_send _ TW_MT_DATA_ACK _ (Or.inr rfl)]
  · intro hq
    rw [h10, h9, twi_stop_nothing_pending]
    · exact ⟨rfl, rfl⟩
    · exact fun q => hq q
  · intro p hnone hr
    have hd := twi_stop_dispatch_read (rmw_after s address reg data mask t old 9) p
      (by rw [h9]; exact hnone) (by rw [h9]; exact hr)
    rw [h9] at hd
    rw [h10, h9]
    exact ⟨hd.1, hd.2.1⟩
  · intro p hnone hr hw
    have hd := twi_stop_dispatch_wr1 (rmw_after s address reg data mask t old 9) p
      (by rw [h9]; exact hnone) (by rw [h9]; exact hr) (by rw [h9]; exact hw)
    rw [h9] at hd
    rw [h10, h9]
    exact ⟨hd.1, hd.2.1⟩

/-- A masked write on an initialised engine: still `TWI_MTX` after nine interrupts, Ready after
the tenth. -/
theorem rmw_owns_bus_witness :
    (twi_init (blank 2 2)).twi_state = TWI_READY ∧
    (rmw_after (twi_init (blank 2 2)) 0x20 5 0x0F 0x0F (fun _ => 0) 0xF0 9).twi_state
      = TWI_MTX ∧
    (rmw_after (twi_init (blank 2 2)) 0x20 5 0x0F 0x0F (fun _ => 0) 0xF0 10).twi_state
      = TWI_READY :=
  have h := rmw_owns_bus (twi_init (blank 2 2)) 0x20 5 0x0F 0x0F 0xF0 (fun _ => 0) (by decide)
  ⟨by decide, (h.2.1 9 (by decide)).2.2.2.2 (by decide),
    (h.2.2.2.1 (nothing_pending_init (blank 2 2))).1⟩

/-! ## Return to Ready and queue dispatch -/

/-- C14 (the code at the failing input): a masked write owns the bus and a read is pending at
priority 0; the handler processes "arbitration lost".  It returns with the bus Ready and the
read still pending: `twi_releaseBus` does not run `twi_check_queues`.  On the same engine a
bus error, which goes through `twi_stop`, dispatches the read (slot cleared, state
`TWI_MTRX`). -/
theorem arb_lost_leaves_request_pending :
    rmw_with_pending_read.twi_state = TWI_M_RMW ∧
    rmw_with_pending_read.twi_read_queue = [1, NULL] ∧
    (TWI_vect TW_MT_ARB_LOST 0 rmw_with_pending_read).twi_state = TWI_READY ∧
    (TWI_vect TW_MT_ARB_LOST 0 rmw_with_pending_read).twi_read_queue = [1, NULL] ∧
    (TWI_vect TW_BUS_ERROR 0 rmw_with_pending_read).twi_state = TWI_MTRX ∧
    (TWI_vect TW_BUS_ERROR 0 rmw_with_pending_read).twi_read_queue = [NULL, NULL] := by
  decide

/-! ## One dispatch per call -/

/-- The loop of `twi_check_queues` either changes nothing or runs the block of one occupied
slot. -/
theorem loop_cases (s : Twi) :
    ∀ fuel p, twi_check_queues_loop fuel p s = s ∨
      (∃ t, s.twi_read_queue.getD t NULL ≠ NULL ∧
        twi_check_queues_loop fuel p s = twi_check_queues_read t s) ∨
      (∃ t, s.twi_wr1_queue.getD t NULL ≠ NULL ∧
        twi_check_queues_loop fuel p s = twi_check_queues_wr1 t s) := by
  intro fuel
  induction fuel with
  | zero => intro p; exact Or.inl rfl
  | succ n ih =>
    intro p
    rw [twi_check_queues_loop]
    split
    · split
      · rename_i h
        exact Or.inr (Or.inl ⟨p, h.2, rfl⟩)
      · split
        · rename_i h
          exact Or.inr (Or.inr ⟨p, h.2, rfl⟩)
        · exact ih (p + 1)
    · exact Or.inl rfl

/-- C15: one call of `twi_check_queues` changes nothing when the bus is not Ready, and nothing
when no request is pending; in every case it either changes nothing at all, or the bus was
Ready and exactly one occupied slot `t` of one queue is emptied (set to `NULL`), every other
slot of both queues keeping its content and none being filled, and then that slot's request
was accepted: the bus state has become `TWI_MTRX` (read slot) or `TWI_M_RMW` (masked-write
slot). -/
theorem check_queues_one_dispatch (s : Twi) :
    (s.twi_state ≠ TWI_READY → twi_check_queues s = s) ∧
    (nothing_pending s → twi_check_queues s = s) ∧
    (twi_check_queues s = s ∨
      (s.twi_state = TWI_READY ∧
        ((∃ t, s.twi_read_queue.getD t NULL ≠ NULL ∧
            (twi_check_queues s).twi_read_queue = s.twi_read_queue.set t NULL ∧
            (twi_check_queues s).twi_wr1_queue = s.twi_wr1_queue ∧
            (twi_check_queues s).twi_state = TWI_MTRX) ∨
         (∃ t, s.twi_wr1_queue.getD t NULL ≠ NULL ∧
            (twi_check_queues s).twi_wr1_queue = s.twi_wr1_queue.set t NULL ∧
            (twi_check_queues s).twi_read_queue = s.twi_read_queue ∧
            (twi_check_queues s).twi_state = TWI_M_RMW)))) := by
  have hc := loop_cases s (max (TWI_RD_TRANS_QUEUE_SIZE s) (TWI_WR1_TRANS_QUEUE_SIZE s)) 0
  refine ⟨?_, check_queues_nothing_pending s, ?_⟩
  · intro hbusy
    have hb := check_queues_busy s hbusy
    rcases hc with h | ⟨t, _, h⟩ | ⟨t, _, h⟩
    · exact h
    · exact h.trans (hb.1 t)
    · exact h.trans (hb.2 t)
  · by_cases hready : s.twi_state = TWI_READY
    · rcases hc with h | ⟨t, ht, h⟩ | ⟨t, ht, h⟩
      · exact Or.inl h
      · have hr := check_queues_read_ready s t hready
        refine Or.inr ⟨hready, Or.inl ⟨t, ht, ?_, ?_, ?_⟩⟩
        · show (twi_check_queues_loop _ 0 s).twi_read_queue = _
          rw [h]; exact hr.2.1
        · show (twi_check_queues_loop _ 0 s).twi_wr1_queue = _
          rw [h]; exact hr.2.2.1
        · show (twi_check_queues_loop _ 0 s).twi_state = _
          rw [h]; exact hr.1.1
      · have hw := check_queues_wr1_ready s t hready
        refine Or.inr ⟨hready, Or.inr ⟨t, ht, ?_, ?_, ?_⟩⟩
        · show (twi_check_queues_loop _ 0 s).twi_wr1_queue = _
          rw [h]; exact hw.2.1
        · show (twi_check_queues_loop _ 0 s).twi_read_queue = _
          rw [h]; exact hw.2.2.1
        · show (twi_check_queues_loop _ 0 s).twi_state = _
          rw [h]; exact hw.1.1
    · have hb := check_queues_busy s hready
      rcases hc with h | ⟨t, _, h⟩ | ⟨t, _, h⟩
      · exact Or.inl h
      · exact Or.inl (h.trans (hb.1 t))
      · exact Or.inl (h.trans (hb.2 t))

/-- Dispatch on a busy engine with a pending read changes nothing; on a Ready engine with two
pending requests it empties one slot only. -/
theorem check_queues_one_dispatch_witness :
    rmw_with_pending_read.twi_state ≠ TWI_READY ∧
    (twi_check_queues rmw_with_pending_read).twi_read_queue = [1, NULL] ∧
    (twi_check_queues ready_with_two_pending).twi_wr1_queue = [NULL, NULL] ∧
    (twi_check_queues ready_with_two_pending).twi_read_queue = [NULL, 1] :=
  ⟨by decide,
    (congrArg Twi.twi_read_queue
      ((check_queues_one_dispatch rmw_with_pending_read).1 (by decide))).trans (by decide),
    by decide, by decide⟩

/-! ## Enqueue into an empty slot -/

/-- When some slot is occupied there is a first occupied priority. -/
theorem exists_first_pending (s : Twi) (p : Nat)
    (h : s.twi_read_queue.getD p NULL ≠ NULL ∨ s.twi_wr1_queue.getD p NULL ≠ NULL) :
    ∃ t, t ≤ p ∧ none_pending 0 t s ∧
      (s.twi_read_queue.getD t NULL ≠ NULL ∨ s.twi_wr1_queue.getD t NULL ≠ NULL) := by
  induction p using Nat.strong_induction_on with
  | _ p ih =>
    by_cases hex : ∃ q, q < p ∧
        (s.twi_read_queue.getD q NULL ≠ NULL ∨ s.twi_wr1_queue.getD q NULL ≠ NULL)
    · obtain ⟨q, hq, hpend⟩ := hex
      obtain ⟨t, ht, hnone, htp⟩ := ih q hq hpend
      exact ⟨t, by omega, hnone, htp⟩
    · refine ⟨p, Nat.le_refl p, ?_, h⟩
      intro q _ hq
      by_contra hne
      apply hex
      refine ⟨q, hq, ?_⟩
      by_cases h1 : s.twi_read_queue.getD q NULL = NULL
      · right
        intro h2
        exact hne ⟨h1, h2⟩
      · exact Or.inl h1

/-- Dispatch on a Ready bus with some request pending hands over the first one in dispatch
order. -/
theorem check_queues_first_dispatched (s : Twi) (p : Nat) (hready : s.twi_state = TWI_READY)
    (h : s.twi_read_queue.getD p NULL ≠ NULL ∨ s.twi_wr1_queue.getD p NULL ≠ NULL) :
    first_dispatched s (twi_check_queues s) ∧
    ((twi_check_queues s).twi_state = TWI_MTRX ∨ (twi_check_queues s).twi_state = TWI_M_RMW) := by
  obtain ⟨t, _, hnone, htp⟩ := exists_first_pending s p h
  have hd := check_queues_dispatch s t hready hnone
  by_cases hr : s.twi_read_queue.getD t NULL = NULL
  · have hw : s.twi_wr1_queue.getD t NULL ≠ NULL := by
      rcases htp with h1 | h1
      · exact absurd hr h1
      · exact h1
    have h2 := hd.2 hr hw
    exact ⟨⟨t, hnone, Or.inr ⟨hr, hw, h2.1, h2.2.1, h2.2.2.1⟩⟩, Or.inr h2.1.1⟩
  · have h1 := hd.1 hr
    exact ⟨⟨t, hnone, Or.inl ⟨hr, h1.1, h1.2.1, h1.2.2.1⟩⟩, Or.inl h1.1.1⟩

/-- Storing a value in a slot and then `NULL` in the same slot, when the slot held `NULL`. -/
theorem set_set_null (l : List Nat) (p v : Nat) (h : l.getD p NULL = NULL) :
    (l.set p v).set p NULL = l := by
  rw [List.set_set]
  apply List.ext_getElem?
  intro i
  by_cases hi : p = i
  · subst hi
    rw [List.getElem?_set]
    simp only [if_true]
    by_cases hlt : p < l.length
    · rw [if_pos hlt]
      have h2 : l.getD p NULL = l[p] := by
        rw [List.getD_eq_getElem?_getD, List.getElem?_eq_getElem hlt]; rfl
      rw [List.getElem?_eq_getElem hlt, ← h2, h]
    · rw [if_neg hlt]
      exact (List.getElem?_eq_none (Nat.le_of_not_lt hlt)).symm
  · rw [List.getElem?_set_ne hi]

/-- Reading back the slot just written. -/
theorem getD_set_self (l : List Nat) (p v : Nat) (h : p < l.length) :
    (l.set p v).getD p NULL = v := by
  rw [List.getD_eq_getElem?_getD, List.getElem?_set, if_pos rfl, if_pos h]
  rfl

/-- Reading another slot than the one just written. -/
theorem getD_set_other (l : List Nat) (p q v : Nat) (h : p ≠ q) :
    (l.set p v).getD q NULL = l.getD q NULL := by
  rw [List.getD_eq_getElem?_getD, List.getD_eq_getElem?_getD, List.getElem?_set_ne h]

/-- C13: enqueue of a request (a non-null pointer) with a valid priority into an empty slot
returns 0.  If the bus is busy the pointer is stored in that slot and nothing else changes.
If the bus is Ready dispatch runs at once: on return the bus state is `TWI_MTRX` or
`TWI_M_RMW`, the request first in dispatch order among the pending ones (the new one
included) has been handed to the engine and its slot is empty; when nothing was pending before
the new request in dispatch order, the new request is the one handed over and both queues are
as before the call. -/
theorem enqueue_into_empty_slot (s : Twi) (trans priority : Nat) (htrans : trans ≠ NULL) :
    (priority < TWI_RD_TRANS_QUEUE_SIZE s → s.twi_read_queue.getD priority NULL = NULL →
      (twi_queue_read_transaction trans priority s).1 = 0 ∧
      (s.twi_state ≠ TWI_READY →
        (twi_queue_read_transaction trans priority s).2
          = { s with twi_read_queue := s.twi_read_queue.set priority trans } ∧
        (twi_queue_read_transaction trans priority s).2.twi_read_queue.getD priority NULL
          = trans) ∧
      (s.twi_state = TWI_READY →
        ((twi_queue_read_transaction trans priority s).2.twi_state = TWI_MTRX ∨
          (twi_queue_read_transaction trans priority s).2.twi_state = TWI_M_RMW) ∧
        first_dispatched { s with twi_read_queue := s.twi_read_queue.set priority trans }
          (twi_queue_read_transaction trans priority s).2 ∧
        (none_pending 0 priority s →
          loaded_read (s.rd_trans trans) (twi_queue_read_transaction trans priority s).2 ∧
          (twi_queue_read_transaction trans priority s).2.twi_read_queue = s.twi_read_queue ∧
          (twi_queue_read_transaction trans priority s).2.twi_wr1_queue = s.twi_wr1_queue))) ∧
    (priority < TWI_WR1_TRANS_QUEUE_SIZE s → s.twi_wr1_queue.getD priority NULL = NULL →
      (twi_queue_write_one_masked_transaction trans priority s).1 = 0 ∧
      (s.twi_state ≠ TWI_READY →
        (twi_queue_write_one_masked_transaction trans priority s).2
          = { s with twi_wr1_queue := s.twi_wr1_queue.set priority trans } ∧
        (twi_queue_write_one_masked_transaction trans priority s).2.twi_wr1_queue.getD
          priority NULL = trans) ∧
      (s.twi_state = TWI_READY →
        ((twi_queue_write_one_masked_transaction trans priority s).2.twi_state = TWI_MTRX ∨
          (twi_queue_write_one_masked_transaction trans priority s).2.twi_state = TWI_M_RMW) ∧
        first_dispatched { s with twi_wr1_queue := s.twi_wr1_queue.set priority trans }
          (twi_queue_write_one_masked_transaction trans priority s).2 ∧
        (none_pending 0 priority s → s.twi_read_queue.getD priority NULL = NULL →
          loaded_wr1 (s.wr1_trans trans)
            (twi_queue_write_one_masked_transaction trans priority s).2 ∧
          (twi_queue_write_one_masked_transaction trans priority s).2.twi_wr1_queue
            = s.twi_wr1_queue ∧
          (twi_queue_write_one_masked_transaction trans priority s).2.twi_read_queue
            = s.twi_read_queue))) := by
  have h0 : int8_of_uint8 0 = 0 := by decide
  constructor
  · intro hlt hempty
    have hlt2 : priority < s.twi_read_queue.length := hlt
    have hres : twi_queue_read_transaction trans priority s =
        (0, if s.twi_state = TWI_READY
          then twi_check_queues { s with twi_read_queue := s.twi_read_queue.set priority trans }
          else { s with twi_read_queue := s.twi_read_queue.set priority trans }) := by
      unfold twi_queue_read_transaction
      rw [if_neg (Nat.not_le_of_lt hlt), if_neg (not_not.mpr hempty)]
      simp only [h0]
    rw [hres]
    refine ⟨rfl, ?_, ?_⟩
    · intro hbusy
      simp only [if_neg hbusy]
      exact ⟨trivial, getD_set_self _ _ _ hlt2⟩
    · intro hready
      simp only [if_pos hready]
      have hslot : (s.twi_read_queue.set priority trans).getD priority NULL ≠ NULL := by
        rw [getD_set_self _ _ _ hlt2]; exact htrans
      have hfd := check_queues_first_dispatched
        { s with twi_read_queue := s.twi_read_queue.set priority trans } priority hready
        (Or.inl hslot)
      refine ⟨hfd.2, hfd.1, ?_⟩
      intro hnone
      have hnone2 : none_pending 0 priority
          { s with twi_read_queue := s.twi_read_queue.set priority trans } := by
        intro q h1 h2
        have hne : priority ≠ q := by omega
        exact ⟨(getD_set_other _ _ _ _ hne).trans (hnone q h1 h2).1, (hnone q h1 h2).2⟩
      have hd := (check_queues_dispatch
        { s with twi_read_queue := s.twi_read_queue.set priority trans } priority hready
        hnone2).1 hslot
      have hl := hd.1
      rw [show ({ s with twi_read_queue := s.twi_read_queue.set priority trans } : Twi
        ).twi_read_queue.getD priority NULL = trans from getD_set_self _ _ _ hlt2] at hl
      exact ⟨hl, hd.2.1.trans (set_set_null _ _ _ hempty), hd.2.2.1⟩
  · intro hlt hempty
    have hlt2 : priority < s.twi_wr1_queue.length := hlt
    have hres : twi_queue_write_one_masked_transaction trans priority s =
        (0, if s.twi_state = TWI_READY
          then twi_check_queues { s with twi_wr1_queue := s.twi_wr1_queue.set priority trans }
          else { s with twi_wr1_queue := s.twi_wr1_queue.set priority trans }) := by
      unfold twi_queue_write_one_masked_transaction
      rw [if_neg (Nat.not_le_of_lt hlt), if_neg (not_not.mpr hempty)]
      simp only [h0]
    rw [hres]
    refine ⟨rfl, ?_, ?_⟩
    · intro hbusy
      simp only [if_neg hbusy]
      exact ⟨trivial, getD_set_self _ _ _ hlt2⟩
    · intro hready
      simp only [if_pos hready]
      have hslot : (s.twi_wr1_queue.set priority trans).getD priority NULL ≠ NULL := by
        rw [getD_set_self _ _ _ hlt2]; exact htrans
      have hfd := check_queues_first_dispatched
        { s with twi_wr1_queue := s.twi_wr1_queue.set priority trans } priority hready
        (Or.inr hslot)
      refine ⟨hfd.2, hfd.1, ?_⟩
      intro hnone hnoread
      have hnone2 : none_pending 0 priority
          { s with twi_wr1_queue := s.twi_wr1_queue.set priority trans } := by
        intro q h1 h2
        have hne : priority ≠ q := by omega
        exact ⟨(hnone q h1 h2).1, (getD_set_other _ _ _ _ hne).trans (hnone q h1 h2).2⟩
      have hd := (check_queues_dispatch
        { s with twi_wr1_queue := s.twi_wr1_queue.set priority trans } priority hready
        hnone2).2 hnoread hslot
      have hl := hd.1
      rw [show ({ s with twi_wr1_queue := s.twi_wr1_queue.set priority trans } : Twi
        ).twi_wr1_queue.getD priority NULL = trans from getD_set_self _ _ _ hlt2] at hl
      exact ⟨hl, hd.2.1.trans (set_set_null _ _ _ hempty), hd.2.2.1⟩

/-- A read offered to an initialised engine is accepted with 0; offered while a masked write
owns the bus it is stored in its slot. -/
theorem enqueue_into_empty_slot_witness :
    (1 : Nat) ≠ NULL ∧
    0 < TWI_RD_TRANS_QUEUE_SIZE (twi_init (blank 2 2)) ∧
    (twi_init (blank 2 2)).twi_read_queue.getD 0 NULL = NULL ∧
    (twi_queue_read_transaction 1 0 (twi_init (blank 2 2))).1 = 0 ∧
    (rmw_before_final 0x20 5 0x0F 0x0F).twi_state ≠ TWI_READY ∧
    (twi_queue_read_transaction 1 0
      (rmw_before_final 0x20 5 0x0F 0x0F)).2.twi_read_queue.getD 0 NULL = 1 :=
  ⟨by decide, by decide, by decide,
    ((enqueue_into_empty_slot (twi_init (blank 2 2)) 1 0 (by decide)).1
      (by decide) (by decide)).1,
    by decide,
    ((((enqueue_into_empty_slot (rmw_before_final 0x20 5 0x0F 0x0F) 1 0 (by decide)).1
      (by decide) (by decide)).2.1) (by decide)).2⟩

/-! ## Address byte framing -/

/-- C20: the byte the handler loads after a start condition is the address byte `twi_slarw`,
and for every device address `a` it is `(2 * a + d) mod 256`: `d = 1` after an accepted
`twi_nonBlockingReadFrom`, `d = 0` after an accepted `twi_writeTo`,
`twi_nonBlockingReadRegisterFrom` or `twi_writeRegisterMaskedOneByte`; at the start that
follows the register-address phase of a register read or of a masked write it is
`(2 * a + 1) mod 256`, and at the repeated start that follows the merge of a masked write it
is `(2 * a) mod 256` again.  For `a < 128` these are `2 * a + d` and their upper seven bits
are `a`. -/
theorem address_byte_framing (s : Twi) (a reg data mask L src old : Nat) (dst : Ptr)
    (t : Nat → Nat) (evs : List Event) (hready : s.twi_state = TWI_READY) (hL : L ≤ 8) :
    (TWI_vect TW_START (t 0) (twi_nonBlockingReadFrom a dst L s).2).hw
      = (twi_nonBlockingReadFrom a dst L s).2.hw
        ++ [HwOp.TWDR ((2 * a + 1) % 256), HwOp.TWCR TWCR_ACK] ∧
    (∃ s1, twi_writeTo a src L 0 evs s = some (0, s1, evs) ∧
      (TWI_vect TW_START (t 0) s1).hw
        = s1.hw ++ [HwOp.TWDR ((2 * a) % 256), HwOp.TWCR TWCR_ACK]) ∧
    (TWI_vect TW_START (t 0) (twi_nonBlockingReadRegisterFrom a reg dst L s).2).hw
      = (twi_nonBlockingReadRegisterFrom a reg dst L s).2.hw
        ++ [HwOp.TWDR ((2 * a) % 256), HwOp.TWCR TWCR_ACK] ∧
    (rmw_after s a reg data mask t old 1).hw
      = (rmw_after s a reg data mask t old 0).hw
        ++ [HwOp.TWDR ((2 * a) % 256), HwOp.TWCR TWCR_ACK] ∧
    (TWI_vect TW_START (t 3)
        (run [⟨TW_START, t 0⟩, ⟨TW_MT_SLA_ACK, t 1⟩, ⟨TW_MT_DATA_ACK, t 2⟩]
          (twi_nonBlockingReadRegisterFrom a reg dst L s).2)).hw
      = (run [⟨TW_START, t 0⟩, ⟨TW_MT_SLA_ACK, t 1⟩, ⟨TW_MT_DATA_ACK, t 2⟩]
          (twi_nonBlockingReadRegisterFrom a reg dst L s).2).hw
        ++ [HwOp.TWDR ((2 * a + 1) % 256), HwOp.TWCR TWCR_ACK] ∧
    (rmw_after s a reg data mask t old 4).hw
      = (rmw_after s a reg data mask t old 3).hw
        ++ [HwOp.TWDR ((2 * a + 1) % 256), HwOp.TWCR TWCR_ACK] ∧
    (rmw_after s a reg data mask t old 7).hw
      = (rmw_after s a reg data mask t old 6).hw
        ++ [HwOp.TWDR ((2 * a) % 256), HwOp.TWCR TWCR_ACK] ∧
    (a < 128 → (2 * a + 1) % 256 = 2 * a + 1 ∧ (2 * a) % 256 = 2 * a ∧
      (twi_nonBlockingReadFrom a dst L s).2.twi_slarw / 2 = a ∧
      (twi_nonBlockingReadRegisterFrom a reg dst L s).2.twi_slarw / 2 = a ∧
      (rmw_after s a reg data mask t old 0).twi_slarw / 2 = a ∧
      (rmw_after s a reg data mask t old 3).twi_slarw / 2 = a ∧
      (rmw_after s a reg data mask t old 6).twi_slarw / 2 = a) := by
  have e1 := slar_eq a
  have e2 := slaw_eq a
  have e3 := slaw_or_read a
  have e4 := slar_and_write a
  refine ⟨?_, ?_, ?_, ?_, ?_, ?_, ?_, ?_⟩
  · rw [nonBlockingReadFrom_ready _ _ _ _ hready, vect_START]
    simp only [e1]
  · rw [twi_writeTo_ready _ _ _ _ _ _ hready hL, spin_of_false _ _ _ (by simp),
      twi_writeTo_setup_eq]
    refine ⟨_, rfl, ?_⟩
    rw [vect_START]
    simp only [e2]
  · rw [nonBlockingReadRegisterFrom_ready _ _ _ _ _ hready, vect_START]
    simp only [e2]
  · unfold rmw_after
    rw [writeRegisterMaskedOneByte_ready _ _ _ _ _ hready]
    simp [run, rmw_events, vect_START, e2]
  · rw [nonBlockingReadRegisterFrom_ready _ _ _ _ _ hready]
    simp [run, vect_START, vect_MT_SLA_ACK_reg, vect_MT_DATA_ACK_turn, e2, e3]
  · unfold rmw_after
    rw [writeRegisterMaskedOneByte_ready _ _ _ _ _ hready]
    simp [run, rmw_events, vect_START, vect_MT_SLA_ACK_reg, vect_MT_DATA_ACK_turn, e2, e3]
  · unfold rmw_after
    rw [writeRegisterMaskedOneByte_ready _ _ _ _ _ hready]
    simp [run, rmw_events, vect_START, vect_REP_START, vect_MT_SLA_ACK_reg,
      vect_MT_DATA_ACK_turn, vect_MR_SLA_ACK, vect_MR_DATA_NACK_rmw, e2, e3, e4]
  · intro ha
    refine ⟨by omega, by omega, ?_, ?_, ?_, ?_, ?_⟩
    · rw [nonBlockingReadFrom_ready _ _ _ _ hready]
      simp only [e1]; omega
    · rw [nonBlockingReadRegisterFrom_ready _ _ _ _ _ hready]
      simp only [e2]; omega
    · unfold rmw_after
      rw [writeRegisterMaskedOneByte_ready _ _ _ _ _ hready]
      simp [run, rmw_events, e2]; omega
    · unfold rmw_after
      rw [writeRegisterMaskedOneByte_ready _ _ _ _ _ hready]
      simp [run, rmw_events, vect_START, vect_MT_SLA_ACK_reg, vect_MT_DATA_ACK_turn, e2, e3]
      omega
    · unfold rmw_after
      rw [writeRegisterMaskedOneByte_ready _ _ _ _ _ hready]
      simp [run, rmw_events, vect_START, vect_REP_START, vect_MT_SLA_ACK_reg,
        vect_MT_DATA_ACK_turn, vect_MR_SLA_ACK, vect_MR_DATA_NACK_rmw, e2, e3, e4]
      omega

/-- Device address 0x20: a plain read sends 0x41 after its start, a masked write 0x40, then
0x41 after the register phase and 0x40 again after the merge. -/
theorem address_byte_framing_witness :
    (twi_init (blank 2 2)).twi_state = TWI_READY ∧ 1 ≤ 8 ∧
    (TWI_vect TW_START 0 (twi_nonBlockingReadFrom 0x20 (Ptr.ram 50) 1 (twi_init (blank 2 2))).2).hw
      = (twi_nonBlockingReadFrom 0x20 (Ptr.ram 50) 1 (twi_init (blank 2 2))).2.hw
        ++ [HwOp.TWDR 0x41, HwOp.TWCR TWCR_ACK] ∧
    (rmw_after (twi_init (blank 2 2)) 0x20 5 0x0F 0x0F (fun _ => 0) 0xF0 7).hw
      = (rmw_after (twi_init (blank 2 2)) 0x20 5 0x0F 0x0F (fun _ => 0) 0xF0 6).hw
        ++ [HwOp.TWDR 0x40, HwOp.TWCR TWCR_ACK] :=
  have h := address_byte_framing (twi_init (blank 2 2)) 0x20 5 0x0F 0x0F 1 50 0xF0 (Ptr.ram 50)
    (fun _ => 0) [] (by decide) (by decide)
  ⟨by decide, by decide, h.1, h.2.2.2.2.2.2.1⟩

/-! ## Facts about transmission from the internal buffer -/

/-- The handler run on two sequences of interrupts in a row. -/
theorem run_append (xs ys : List Event) (s : Twi) : run (xs ++ ys) s = run ys (run xs s) := by
  simp [run, List.foldl_append]

/-- A wait loop whose condition holds before each of the interrupts `evs` serves them all. -/
theorem spin_run (cond : Twi → Bool) (evs : List Event) :
    ∀ s : Twi, (∀ k, k < evs.length → cond (run (evs.take k) s) = true) →
      spin cond evs s = spin cond [] (run evs s) := by
  induction evs with
  | nil => intro s _; rfl
  | cons e es ih =>
    intro s h
    have h0 := h 0 (by simp)
    rw [spin_cons_of_true cond e es s (by simpa [run] using h0)]
    rw [ih (TWI_vect e.status e.twdr s)
      (fun k hk => by simpa [run] using h (k + 1) (by simpa using hk))]
    rfl

/-- The handler run on address/data acks in `TWI_MTX` while buffered bytes remain: one byte is
sent per ack. -/
theorem run_mt_acks (es : List Event) :
    (∀ e ∈ es, e.status = TW_MT_SLA_ACK ∨ e.status = TW_MT_DATA_ACK) →
    ∀ s : Twi, s.twi_state = TWI_MTX → s.twi_masterBufferPtr = Ptr.masterBuffer →
      s.twi_masterBufferLength ≤ 8 →
      s.twi_masterBufferIndex + es.length ≤ s.twi_masterBufferLength →
      run es s =
        { s with
          twi_masterBufferIndex := s.twi_masterBufferIndex + es.length,
          hw := s.hw ++ send_log s.twi_masterBuffer s.twi_masterBufferIndex es.length } := by
  induction es with
  | nil => intro _ s _ _ _ _; simp [run, send_log]
  | cons e es ih =>
    intro hes s hstate hptr hlen hidx
    have hidx2 : s.twi_masterBufferIndex + (es.length + 1) ≤ s.twi_masterBufferLength := by
      simpa using hidx
    have hstep := vect_MT_ACK_send s e.status e.twdr (hes e (by simp)) hstate hptr
      (by omega) hlen
    have hrun : run (e :: es) s = run es (TWI_vect e.status e.twdr s) := by simp [run]
    rw [hrun, hstep, ih (fun x hx => hes x (by simp [hx])) _ (by simpa using hstate)
      (by simpa using hptr) (by simpa using hlen) (by simp; omega)]
    simp [send_log, Nat.add_assoc, Nat.add_comm 1]

/-- The data register writes of a send phase are the buffer bytes in order. -/
theorem twdr_writes_send_log (buf : Nat → Nat) :
    ∀ n i, twdr_writes (send_log buf i n) = (List.range' i n).map buf := by
  intro n
  induction n with
  | zero => intro i; rfl
  | succ n ih =>
    intro i
    have h := ih (i + 1)
    simp only [twdr_writes] at h ⊢
    simp [send_log, List.range', List.filterMap_cons, h]

/-- The send log depends only on the buffer bytes it sends. -/
theorem send_log_congr (f g : Nat → Nat) :
    ∀ n i, (∀ j, i ≤ j → j < i + n → f j = g j) → send_log f i n = send_log g i n := by
  intro n
  induction n with
  | zero => intro i _; rfl
  | succ n ih =>
    intro i h
    rw [send_log, send_log, h i (Nat.le_refl i) (by omega),
      ih (i + 1) (fun j h1 h2 => h j (by omega) (by omega))]

/-- The engine while an all-acknowledged write is under way: after the start and `j ≤ L` acks
the first `j` bytes have been sent and the state is still `TWI_MTX`. -/
theorem write_run_upto (s : Twi) (address src L t0 t1 : Nat) (ts : List Nat)
    (hL : L ≤ 8) (hts : ts.length = L) (j : Nat) (hj : j ≤ L) :
    run ((write_events t0 t1 ts).take (j + 1)) (twi_writeTo_setup address src L s) =
      { s with
        twi_state := TWI_MTX, twi_error := 0xFF, twi_masterBufferPtr := Ptr.masterBuffer,
        twi_masterBufferIndex := j, twi_masterBufferLength := L,
        twi_masterBuffer := fun i => if i < L then s.ram (src + i) else s.twi_masterBuffer i,
        twi_slarw := (address <<< 1) % 256,
        hw := s.hw ++ HwOp.TWCR TWCR_START :: HwOp.TWDR ((address <<< 1) % 256)
          :: HwOp.TWCR TWCR_ACK :: send_log (fun i => s.ram (src + i)) 0 j } := by
  have hacks : ∀ e ∈ (⟨TW_MT_SLA_ACK, t1⟩ :: ts.map (fun x => (⟨TW_MT_DATA_ACK, x⟩ : Event))).take j,
      e.status = TW_MT_SLA_ACK ∨ e.status = TW_MT_DATA_ACK := by
    intro e he
    have hmem := List.mem_of_mem_take he
    rcases List.mem_cons.mp hmem with h | h
    · subst h; exact Or.inl rfl
    · obtain ⟨x, _, hx⟩ := List.mem_map.mp h
      subst hx; exact Or.inr rfl
  have hlen : ((⟨TW_MT_SLA_ACK, t1⟩ :: ts.map (fun x => (⟨TW_MT_DATA_ACK, x⟩ : Event))).take j).length
      = j := by
    simp [List.length_take, hts]; omega
  have hrun : run ((write_events t0 t1 ts).take (j + 1)) (twi_writeTo_setup address src L s)
      = run ((⟨TW_MT_SLA_ACK, t1⟩ :: ts.map (fun x => (⟨TW_MT_DATA_ACK, x⟩ : Event))).take j)
          (TWI_vect TW_START t0 (twi_writeTo_setup address src L s)) := by
    simp [write_events, run]
  rw [hrun, twi_writeTo_setup_eq, vect_START]
  rw [run_mt_acks _ hacks _ rfl rfl (by simpa using hL) (by simp [hlen]; exact hj)]
  simp only [hlen, Nat.zero_add]
  have hcongr := send_log_congr
    (fun i => if i < L then s.ram (src + i) else s.twi_masterBuffer i)
    (fun i => s.ram (src + i)) j 0
    (fun i _ h2 => by
      have : i < L := by omega
      simp [this])
  simp [hcongr]

/-- The engine after an all-acknowledged write with an empty queue: every byte sent, then the
stop, Ready, no error. -/
theorem write_run_all (s : Twi) (address src L t0 t1 : Nat) (ts : List Nat)
    (hq : nothing_pending s) (hL : L ≤ 8) (hts : ts.length = L) :
    run (write_events t0 t1 ts) (twi_writeTo_setup address src L s) =
      { s with
        twi_state := TWI_READY, twi_error := 0xFF, twi_masterBufferPtr := Ptr.masterBuffer,
        twi_masterBufferIndex := L, twi_masterBufferLength := L,
        twi_masterBuffer := fun i => if i < L then s.ram (src + i) else s.twi_masterBuffer i,
        twi_slarw := (address <<< 1) % 256,
        hw := s.hw ++ HwOp.TWCR TWCR_START :: HwOp.TWDR ((address <<< 1) % 256)
          :: HwOp.TWCR TWCR_ACK
          :: (send_log (fun i => s.ram (src + i)) 0 L ++ [HwOp.TWCR TWCR_STOP]) } := by
  have hdrop : ((⟨TW_MT_SLA_ACK, t1⟩ :: ts.map (fun x => (⟨TW_MT_DATA_ACK, x⟩ : Event))).drop
      L).length = 1 := by
    simp [List.length_drop, hts]
  obtain ⟨x, hx⟩ := List.length_eq_one.mp hdrop
  have hxmem : x ∈ (⟨TW_MT_SLA_ACK, t1⟩ :: ts.map (fun x => (⟨TW_MT_DATA_ACK, x⟩ : Event))) :=
    List.mem_of_mem_drop (hx ▸ List.mem_singleton_self x)
  have hxstat : x.status = TW_MT_SLA_ACK ∨ x.status = TW_MT_DATA_ACK := by
    rcases List.mem_cons.mp hxmem with h | h
    · subst h; exact Or.inl rfl
    · obtain ⟨y, _, hy⟩ := List.mem_map.mp h
      subst hy; exact Or.inr rfl
  have hsplit : write_events t0 t1 ts = (write_events t0 t1 ts).take (L + 1) ++ [x] := by
    have h1 : (write_events t0 t1 ts).drop (L + 1) = [x] := by
      rw [← hx]; rfl
    rw [← h1, List.take_append_drop]
  rw [hsplit, run_append, write_run_upto s address src L t0 t1 ts hL hts L (Nat.le_refl L)]
  have hone : ∀ S : Twi, run [x] S = TWI_vect x.status x.twdr S := fun S => rfl
  rw [hone, vect_MT_ACK_stop _ _ _ hxstat rfl (by simp), twi_stop_nothing_pending]
  · simp
  · exact fun q => hq q

/-! ## Transmit correctness -/

/-- C16: a write of `L ≤ 8` bytes started from Ready with an empty queue, every byte
acknowledged.  Without wait `twi_writeTo` returns 0 at once with the transfer set up.  The
handler then keeps the bus state `TWI_MTX` before each of the `L + 1` acknowledge interrupts;
after the address byte it loads into the data register exactly `data[0], ..., data[L-1]` in
order; on the `(L+1)`-th acknowledge it issues the stop and returns to Ready with the error
record still 0xFF.  The blocking call run against these interrupts returns 0. -/
theorem transmit_correctness (s : Twi) (address src L t0 t1 : Nat) (ts : List Nat)
    (evs : List Event) (hready : s.twi_state = TWI_READY) (hq : nothing_pending s)
    (hL : L ≤ 8) (hts : ts.length = L) :
    twi_writeTo address src L 0 evs s = some (0, twi_writeTo_setup address src L s, evs) ∧
    (∀ k, k ≤ L + 1 →
      (run ((write_events t0 t1 ts).take k) (twi_writeTo_setup address src L s)).twi_state
        = TWI_MTX) ∧
    (run (write_events t0 t1 ts) (twi_writeTo_setup address src L s)).twi_state = TWI_READY ∧
    (run (write_events t0 t1 ts) (twi_writeTo_setup address src L s)).twi_error = 0xFF ∧
    (run (write_events t0 t1 ts) (twi_writeTo_setup address src L s)).hw =
      s.hw ++ HwOp.TWCR TWCR_START :: HwOp.TWDR ((2 * address) % 256) :: HwOp.TWCR TWCR_ACK
        :: (send_log (fun i => s.ram (src + i)) 0 L ++ [HwOp.TWCR TWCR_STOP]) ∧
    twdr_writes (run (write_events t0 t1 ts) (twi_writeTo_setup address src L s)).hw =
      twdr_writes s.hw ++ ((2 * address) % 256) :: (List.range L).map (fun i => s.ram (src + i)) ∧
    twi_writeTo address src L 1 (write_events t0 t1 ts) s =
      some (0, run (write_events t0 t1 ts) (twi_writeTo_setup address src L s), []) := by
  have hall := write_run_all s address src L t0 t1 ts hq hL hts
  have hpre : ∀ k, k ≤ L + 1 →
      (run ((write_events t0 t1 ts).take k) (twi_writeTo_setup address src L s)).twi_state
        = TWI_MTX := by
    intro k hk
    cases k with
    | zero => simp [run, twi_writeTo_setup_eq]
    | succ j => rw [write_run_upto s address src L t0 t1 ts hL hts j (by omega)]
  refine ⟨?_, hpre, ?_, ?_, ?_, ?_, ?_⟩
  · rw [twi_writeTo_ready _ _ _ _ _ _ hready hL, spin_of_false _ _ _ (by simp)]
    simp [twi_writeTo_status, twi_writeTo_setup_eq]
  · rw [hall]
  · rw [hall]
  · rw [hall, slaw_eq]
  · rw [hall, slaw_eq]
    simp only [twdr_writes, List.filterMap_append, List.filterMap_cons, List.filterMap_nil,
      List.append_nil]
    have h := twdr_writes_send_log (fun i => s.ram (src + i)) L 0
    simp only [twdr_writes] at h
    rw [h, ← List.range_eq_range']
  · rw [twi_writeTo_ready _ _ _ _ _ _ hready hL]
    rw [spin_run _ _ _ (fun k hk => by
      have hlen : (write_events t0 t1 ts).length = L + 2 := by simp [write_events, hts]
      simp [hpre k (by omega)])]
    rw [hall, spin_of_false _ _ _ (by simp)]
    simp [twi_writeTo_status]

/-- A blocking write of the two bytes at addresses 50 and 51 to device 0x20 on an initialised
engine, all acknowledged, returns 0. -/
theorem transmit_correctness_witness :
    (twi_init (blank 2 2)).twi_state = TWI_READY ∧ 2 ≤ 8 ∧ [0, 0].length = 2 ∧
    (twi_writeTo 0x20 50 2 1 (write_events 0 0 [0, 0]) (twi_init (blank 2 2))).map
      (fun r => r.1) = some 0 :=
  have h := transmit_correctness (twi_init (blank 2 2)) 0x20 50 2 0 0 [0, 0] []
    (by decide) (nothing_pending_init (blank 2 2)) (by decide) (by decide)
  ⟨by decide, by decide, by decide, by rw [h.2.2.2.2.2.2]; rfl⟩

/-! ## Facts about reception into caller memory -/

/-- One "data received, ack sent" interrupt while the buffer pointer is on caller memory. -/
theorem vect_MR_DATA_ACK_ram (s : Twi) (b a : Nat) (hptr : s.twi_masterBufferPtr = Ptr.ram a)
    (hidx : s.twi_masterBufferIndex < 255) :
    TWI_vect TW_MR_DATA_ACK b s =
      { s with
        ram := upd s.ram (a + s.twi_masterBufferIndex) (b % 256),
        twi_masterBufferIndex := s.twi_masterBufferIndex + 1,
        hw := s.hw ++ [HwOp.TWCR (if s.twi_masterBufferIndex + 1 < s.twi_masterBufferLength
          then TWCR_ACK else TWCR_NACK)] } := by
  have h256 : (s.twi_masterBufferIndex + 1) % 256 = s.twi_masterBufferIndex + 1 :=
    Nat.mod_eq_of_lt (by omega)
  by_cases hlt : s.twi_masterBufferIndex + 1 < s.twi_masterBufferLength
  · simp [TWI_vect, TWI_vect_put, TWI_vect_MR_SLA_ACK, twi_reply, store, out, hptr,
      TW_MR_DATA_ACK, TW_START, TW_REP_START, TW_MT_SLA_ACK, TW_MT_DATA_ACK,
      TW_MT_SLA_NACK, TW_MT_DATA_NACK, TW_MT_ARB_LOST, h256, hlt]
  · simp [TWI_vect, TWI_vect_put, TWI_vect_MR_SLA_ACK, twi_reply, store, out, hptr,
      TW_MR_DATA_ACK, TW_START, TW_REP_START, TW_MT_SLA_ACK, TW_MT_DATA_ACK,
      TW_MT_SLA_NACK, TW_MT_DATA_NACK, TW_MT_ARB_LOST, h256, hlt]

/-- The handler run on a block of "data received, ack sent" interrupts, receiving into caller
memory. -/
theorem run_data_acks_ram (bs : List Nat) (a : Nat) :
    ∀ s : Twi, s.twi_masterBufferPtr = Ptr.ram a →
      s.twi_masterBufferIndex + bs.length ≤ 255 →
      run (data_acks bs) s =
        { s with
          ram := recv_buf s.ram (a + s.twi_masterBufferIndex) bs,
          twi_masterBufferIndex := s.twi_masterBufferIndex + bs.length,
          hw := s.hw ++ recv_hw s.twi_masterBufferIndex s.twi_masterBufferLength bs } := by
  induction bs with
  | nil => intro s _ _; simp [run, data_acks, recv_buf, recv_hw]
  | cons b bs ih =>
    intro s hptr hlen
    have hlen2 : s.twi_masterBufferIndex + (bs.length + 1) ≤ 255 := by simpa using hlen
    have hstep := vect_MR_DATA_ACK_ram s b a hptr (by omega)
    have hrun : run (data_acks (b :: bs)) s = run (data_acks bs) (TWI_vect TW_MR_DATA_ACK b s) := by
      simp [run, data_acks]
    rw [hrun, hstep, ih _ (by simpa using hptr) (by simp; omega)]
    simp [recv_buf, recv_hw, Nat.add_assoc, Nat.add_comm 1]

/-- The handler on the final byte of a plain read (`TWI_MRX`) into caller memory, with an
empty queue: byte stored, stop, Ready. -/
theorem vect_MR_DATA_NACK_mrx_ram (s : Twi) (b a : Nat) (hstate : s.twi_state = TWI_MRX)
    (hptr : s.twi_masterBufferPtr = Ptr.ram a) (hidx : s.twi_masterBufferIndex < 255)
    (h : nothing_pending s) :
    TWI_vect TW_MR_DATA_NACK b s =
      { s with
        ram := upd s.ram (a + s.twi_masterBufferIndex) (b % 256),
        twi_masterBufferIndex := s.twi_masterBufferIndex + 1,
        hw := s.hw ++ [HwOp.TWCR TWCR_STOP], twi_state := TWI_READY } := by
  have h256 : (s.twi_masterBufferIndex + 1) % 256 = s.twi_masterBufferIndex + 1 :=
    Nat.mod_eq_of_lt (by omega)
  have hs := twi_stop_nothing_pending
    { s with
      ram := upd s.ram (a + s.twi_masterBufferIndex) (b % 256),
      twi_masterBufferIndex := s.twi_masterBufferIndex + 1 } (fun q => h q)
  simpa [TWI_vect, TWI_vect_put, store, hptr, hstate, h256,
      TW_BUS_ERROR, TW_MR_SLA_ACK, TW_START, TW_MR_DATA_NACK, TW_MR_SLA_NACK,
      TW_REP_START, TW_MT_SLA_ACK, TW_MT_DATA_ACK, TW_MT_SLA_NACK, TW_MT_DATA_NACK,
      TW_MT_ARB_LOST, TW_MR_DATA_ACK] using hs

/-- The replies of a read of `n + 1` bytes: the reply given at the read-address ack followed
by the replies given after each of the first `n` bytes are `n` acks and then one nack. -/
theorem recv_replies (n : Nat) (bs : List Nat) :
    ∀ i, i + bs.length = n →
      HwOp.TWCR (if i < n then TWCR_ACK else TWCR_NACK) :: recv_hw i n bs
        = List.replicate (n - i) (HwOp.TWCR TWCR_ACK) ++ [HwOp.TWCR TWCR_NACK] := by
  induction bs with
  | nil =>
    intro i hi
    have : i = n := by simpa using hi
    subst this
    simp [recv_hw]
  | cons b bs ih =>
    intro i hi
    have hlen : i + 1 + bs.length = n := by simp at hi; omega
    have hlt : i < n := by omega
    have hsub : n - i = (n - (i + 1)) + 1 := by omega
    rw [recv_hw, ih (i + 1) hlen, if_pos hlt, hsub, List.replicate_succ]
    rfl

/-- Interrupts "start sent", "read address acked" and "data received, ack sent" never change
the bus state. -/
theorem vect_keeps_state (s : Twi) (status twdr : Nat)
    (h : status = TW_START ∨ status = TW_MR_SLA_ACK ∨ status = TW_MR_DATA_ACK) :
    (TWI_vect status twdr s).twi_state = s.twi_state := by
  rcases h with h | h | h
  · subst h; rw [vect_START]
  · subst h; rw [vect_MR_SLA_ACK]
  · subst h
    cases hp : s.twi_masterBufferPtr <;>
      by_cases hi : s.twi_masterBufferIndex < 8 <;>
      by_cases hl : (s.twi_masterBufferIndex + 1) % 256 < s.twi_masterBufferLength <;>
      simp [TWI_vect, TWI_vect_put, TWI_vect_MR_SLA_ACK, twi_reply, store, out, hp, hi, hl,
        TWI_BUFFER_LENGTH, TW_MR_DATA_ACK, TW_START, TW_REP_START, TW_MT_SLA_ACK,
        TW_MT_DATA_ACK, TW_MT_SLA_NACK, TW_MT_DATA_NACK, TW_MT_ARB_LOST]

/-- A run of such interrupts leaves the bus state as it was. -/
theorem run_keeps_state (es : List Event) :
    (∀ e ∈ es, e.status = TW_START ∨ e.status = TW_MR_SLA_ACK ∨ e.status = TW_MR_DATA_ACK) →
    ∀ s : Twi, (run es s).twi_state = s.twi_state := by
  induction es with
  | nil => intro _ s; rfl
  | cons e es ih =>
    intro h s
    have hrun : run (e :: es) s = run es (TWI_vect e.status e.twdr s) := by simp [run]
    rw [hrun, ih (fun x hx => h x (by simp [hx])), vect_keeps_state s _ _ (h e (by simp))]
/-- The engine after a complete plain read into the internal buffer, empty queue. -/
theorem read_all_buf (s : Twi) (address L t0 t1 last : Nat) (bs : List Nat)
    (hready : s.twi_state = TWI_READY) (hq : nothing_pending s)
    (hlen : bs.length + 1 = L) (hL8 : L ≤ 8) :
    read_after s address Ptr.masterBuffer L (full_read_events t0 t1 bs last) =
      { s with
        twi_state := TWI_READY, twi_error := 0xFF, twi_masterBufferPtr := Ptr.masterBuffer,
        twi_masterBufferIndex := L, twi_masterBufferLength := L - 1,
        twi_slarw := (2 * address + 1) % 256,
        twi_masterBuffer := upd (recv_buf s.twi_masterBuffer 0 bs) bs.length (last % 256),
        hw := s.hw ++ HwOp.TWCR TWCR_START :: HwOp.TWDR ((2 * address + 1) % 256)
          :: HwOp.TWCR TWCR_ACK
          :: (List.replicate (L - 1) (HwOp.TWCR TWCR_ACK)
            ++ [HwOp.TWCR TWCR_NACK, HwOp.TWCR TWCR_STOP]) } := by
  have hsplit : ∀ S : Twi, run (full_read_events t0 t1 bs last) S =
      TWI_vect TW_MR_DATA_NACK last (run (data_acks bs)
        (TWI_vect TW_MR_SLA_ACK t1 (TWI_vect TW_START t0 S))) := by
    intro S
    simp [full_read_events, run, List.foldl_append]
  have hmod : (L + 255) % 256 = L - 1 := by omega
  have hrep := recv_replies (L - 1) bs 0 (by omega)
  unfold read_after
  rw [hsplit, nonBlockingReadFrom_ready _ _ _ _ hready, vect_START]
  dsimp only
  rw [vect_MR_SLA_ACK]
  dsimp only
  rw [run_data_acks bs _ (by simp) (by simp; omega)]
  dsimp only
  rw [vect_MR_DATA_NACK_mrx]
  rotate_left
  · rfl
  · rfl
  · simp; omega
  · exact fun q => hq q
  dsimp only
  have hfin : HwOp.TWCR (if 1 < L then TWCR_ACK else TWCR_NACK)
      :: (recv_hw 0 (L - 1) bs ++ [HwOp.TWCR TWCR_STOP])
      = List.replicate (L - 1) (HwOp.TWCR TWCR_ACK)
        ++ [HwOp.TWCR TWCR_NACK, HwOp.TWCR TWCR_STOP] := by
    simp only [Nat.sub_zero] at hrep
    by_cases h : 1 < L
    · have h2 : 0 < L - 1 := by omega
      rw [if_pos h2] at hrep
      rw [if_pos h, ← List.cons_append, hrep]
      simp
    · have h2 : ¬ 0 < L - 1 := by omega
      rw [if_neg h2] at hrep
      rw [if_neg h, ← List.cons_append, hrep]
      simp
  simp [hmod, slar_eq, hlen, hfin]

/-- The engine after a complete plain read into caller memory at address `a`, empty queue. -/
theorem read_all_ram (s : Twi) (address a L t0 t1 last : Nat) (bs : List Nat)
    (hready : s.twi_state = TWI_READY) (hq : nothing_pending s)
    (hlen : bs.length + 1 = L) (hL8 : L ≤ 8) :
    read_after s address (Ptr.ram a) L (full_read_events t0 t1 bs last) =
      { s with
        twi_state := TWI_READY, twi_error := 0xFF, twi_masterBufferPtr := Ptr.ram a,
        twi_masterBufferIndex := L, twi_masterBufferLength := L - 1,
        twi_slarw := (2 * address + 1) % 256,
        ram := upd (recv_buf s.ram a bs) (a + bs.length) (last % 256),
        hw := s.hw ++ HwOp.TWCR TWCR_START :: HwOp.TWDR ((2 * address + 1) % 256)
          :: HwOp.TWCR TWCR_ACK
          :: (List.replicate (L - 1) (HwOp.TWCR TWCR_ACK)
            ++ [HwOp.TWCR TWCR_NACK, HwOp.TWCR TWCR_STOP]) } := by
  have hsplit : ∀ S : Twi, run (full_read_events t0 t1 bs last) S =
      TWI_vect TW_MR_DATA_NACK last (run (data_acks bs)
        (TWI_vect TW_MR_SLA_ACK t1 (TWI_vect TW_START t0 S))) := by
    intro S
    simp [full_read_events, run, List.foldl_append]
  have hmod : (L + 255) % 256 = L - 1 := by omega
  have hrep := recv_replies (L - 1) bs 0 (by omega)
  unfold read_after
  rw [hsplit, nonBlockingReadFrom_ready _ _ _ _ hready, vect_START]
  dsimp only
  rw [vect_MR_SLA_ACK]
  dsimp only
  rw [run_data_acks_ram bs a _ (by simp) (by simp; omega)]
  dsimp only
  rw [vect_MR_DATA_NACK_mrx_ram _ _ a]
  rotate_left
  · rfl
  · rfl
  · simp; omega
  · exact fun q => hq q
  dsimp only
  have hfin : HwOp.TWCR (if 1 < L then TWCR_ACK else TWCR_NACK)
      :: (recv_hw 0 (L - 1) bs ++ [HwOp.TWCR TWCR_STOP])
      = List.replicate (L - 1) (HwOp.TWCR TWCR_ACK)
        ++ [HwOp.TWCR TWCR_NACK, HwOp.TWCR TWCR_STOP] := by
    simp only [Nat.sub_zero] at hrep
    by_cases h : 1 < L
    · have h2 : 0 < L - 1 := by omega
      rw [if_pos h2] at hrep
      rw [if_pos h, ← List.cons_append, hrep]
      simp
    · have h2 : ¬ 0 < L - 1 := by omega
      rw [if_neg h2] at hrep
      rw [if_neg h, ← List.cons_append, hrep]
      simp
  simp [hmod, slar_eq, hlen, hfin]

/-! ## Receive correctness -/

/-- C17: a read of `L` bytes, `1 ≤ L ≤ 8`, accepted by `twi_nonBlockingReadFrom` from Ready
with an empty queue, the bytes `bs` then `last` arriving as the handler's replies dictate (the
first `L - 1` with "ack sent", the `L`-th with "nack sent").  The bus state is `TWI_MRX` before
each interrupt; the handler's replies after the address phase are `L - 1` acks followed by one
nack (for `L = 1` the nack is the reply at the read-address ack); the destination holds the
`L` bytes in order (each as the eight-bit data register delivers it) and nothing outside the
first `L` destination bytes is written; the index ends at `L`, the error record is clean, and
after the `L`-th byte the stop is issued and the bus is Ready. -/
theorem receive_correctness (s : Twi) (address L t0 t1 last : Nat) (bs : List Nat) (dst : Ptr)
    (hready : s.twi_state = TWI_READY) (hq : nothing_pending s)
    (hlen : bs.length + 1 = L) (hL8 : L ≤ 8) :
    (twi_nonBlockingReadFrom address dst L s).1 = 0 ∧
    (∀ k, k ≤ L + 1 →
      (read_after s address dst L ((full_read_events t0 t1 bs last).take k)).twi_state
        = TWI_MRX) ∧
    (read_after s address dst L (full_read_events t0 t1 bs last)).twi_state = TWI_READY ∧
    (read_after s address dst L (full_read_events t0 t1 bs last)).twi_masterBufferIndex = L ∧
    (read_after s address dst L (full_read_events t0 t1 bs last)).twi_error = 0xFF ∧
    (read_after s address dst L (full_read_events t0 t1 bs last)).ub = s.ub ∧
    (read_after s address dst L (full_read_events t0 t1 bs last)).hw =
      s.hw ++ HwOp.TWCR TWCR_START :: HwOp.TWDR ((2 * address + 1) % 256)
        :: HwOp.TWCR TWCR_ACK
        :: (List.replicate (L - 1) (HwOp.TWCR TWCR_ACK)
          ++ [HwOp.TWCR TWCR_NACK, HwOp.TWCR TWCR_STOP]) ∧
    (∀ i, i < L →
      load dst i (read_after s address dst L (full_read_events t0 t1 bs last))
        = (bs ++ [last]).getD i 0 % 256) ∧
    (∀ a, dst = Ptr.ram a →
      (∀ x, x < a ∨ a + L ≤ x →
        (read_after s address dst L (full_read_events t0 t1 bs last)).ram x = s.ram x) ∧
      (read_after s address dst L (full_read_events t0 t1 bs last)).twi_masterBuffer
        = s.twi_masterBuffer) ∧
    (dst = Ptr.masterBuffer →
      (∀ j, L ≤ j →
        (read_after s address dst L (full_read_events t0 t1 bs last)).twi_masterBuffer j
          = s.twi_masterBuffer j) ∧
      (read_after s address dst L (full_read_events t0 t1 bs last)).ram = s.ram) := by
  have hbytes : ∀ i, i < L → ∀ f : Nat → Nat, ∀ base : Nat,
      upd (recv_buf f base bs) (base + bs.length) (last % 256) (base + i)
        = (bs ++ [last]).getD i 0 % 256 := by
    intro i hi f base
    by_cases hlast : i = bs.length
    · subst hlast
      simp [upd]
    · have hlt : i < bs.length := by omega
      have hne : base + i ≠ base + bs.length := by omega
      simp [upd, hne, recv_buf_apply, hlt, List.getElem?_append_left hlt]
  have hpre : ∀ k, k ≤ L + 1 →
      (read_after s address dst L ((full_read_events t0 t1 bs last).take k)).twi_state
        = TWI_MRX := by
    intro k hk
    have hE : full_read_events t0 t1 bs last
        = (⟨TW_START, t0⟩ :: ⟨TW_MR_SLA_ACK, t1⟩ :: data_acks bs)
          ++ [⟨TW_MR_DATA_NACK, last⟩] := by
      simp [full_read_events]
    have hk2 : k ≤ (⟨TW_START, t0⟩ :: ⟨TW_MR_SLA_ACK, t1⟩ :: data_acks bs).length := by
      simp [data_acks]; omega
    unfold read_after
    rw [hE, List.take_append_of_le_length hk2, run_keeps_state]
    · rw [nonBlockingReadFrom_ready _ _ _ _ hready]
    · intro e he
      have hmem := List.mem_of_mem_take he
      rcases List.mem_cons.mp hmem with h | h
      · subst h; exact Or.inl rfl
      · rcases List.mem_cons.mp h with h | h
        · subst h; exact Or.inr (Or.inl rfl)
        · unfold data_acks at h
          obtain ⟨x, _, hx⟩ := List.mem_map.mp h
          subst hx; exact Or.inr (Or.inr rfl)
  refine ⟨congrArg Prod.fst (nonBlockingReadFrom_ready _ _ _ _ hready), hpre, ?_⟩
  cases dst with
  | masterBuffer =>
    rw [read_all_buf s address L t0 t1 last bs hready hq hlen hL8]
    refine ⟨rfl, rfl, rfl, rfl, rfl, ?_, ?_, ?_⟩
    · intro i hi
      have h := hbytes i hi s.twi_masterBuffer 0
      simp only [Nat.zero_add] at h
      have h8 : i < TWI_BUFFER_LENGTH := by simp [TWI_BUFFER_LENGTH]; omega
      simp only [load, if_pos h8]
      exact h
    · intro a ha
      exact absurd ha (by simp)
    · intro _
      refine ⟨?_, rfl⟩
      intro j hj
      have hne : j ≠ bs.length := by omega
      have hnot : ¬ (0 ≤ j ∧ j < 0 + bs.length) := by omega
      show upd (recv_buf s.twi_masterBuffer 0 bs) bs.length (last % 256) j = s.twi_masterBuffer j
      rw [upd, if_neg hne, recv_buf_apply, if_neg hnot]
  | ram a =>
    rw [read_all_ram s address a L t0 t1 last bs hready hq hlen hL8]
    refine ⟨rfl, rfl, rfl, rfl, rfl, ?_, ?_, ?_⟩
    · intro i hi
      simp only [load]
      exact hbytes i hi s.ram a
    · intro a2 ha2
      have : a2 = a := by cases ha2; rfl
      subst this
      refine ⟨?_, rfl⟩
      intro x hx
      have hne : x ≠ a2 + bs.length := by omega
      have hnot : ¬ (a2 ≤ x ∧ x < a2 + bs.length) := by omega
      show upd (recv_buf s.ram a2 bs) (a2 + bs.length) (last % 256) x = s.ram x
      rw [upd, if_neg hne, recv_buf_apply, if_neg hnot]
    · intro h
      exact absurd h (by simp)

/-- A three-byte read into caller memory at address 50 on an initialised engine. -/
theorem receive_correctness_witness :
    (twi_init (blank 2 2)).twi_state = TWI_READY ∧ [0xA1, 0xB2].length + 1 = 3 ∧ 3 ≤ 8 ∧
    (read_after (twi_init (blank 2 2)) 0x20 (Ptr.ram 50) 3
      (full_read_events 0 0 [0xA1, 0xB2] 0xC3)).twi_state = TWI_READY ∧
    load (Ptr.ram 50) 2 (read_after (twi_init (blank 2 2)) 0x20 (Ptr.ram 50) 3
      (full_read_events 0 0 [0xA1, 0xB2] 0xC3)) = 0xC3 :=
  have h := receive_correctness (twi_init (blank 2 2)) 0x20 3 0 0 0xC3 [0xA1, 0xB2] (Ptr.ram 50)
    (by decide) (nothing_pending_init (blank 2 2)) (by decide) (by decide)
  ⟨by decide, by decide, by decide, h.2.2.1, (h.2.2.2.2.2.2.2.1 2 (by decide)).trans (by decide)⟩

/-! ## Buffer capacity -/

/-- C12 (as stated, refuted): a non-blocking read of nine bytes is accepted from Ready, it
programs nine bytes (`twi_masterBufferLength = 8`), and the handler moves nine bytes into the
destination; a register read of length 200 is accepted as well. -/
theorem long_read_accepted :
    TWI_BUFFER_LENGTH = 8 ∧
    (twi_nonBlockingReadFrom 0x20 (Ptr.ram 50) 9 (twi_init (blank 2 2))).1 = 0 ∧
    (twi_nonBlockingReadFrom 0x20 (Ptr.ram 50) 9 (twi_init (blank 2 2))).2.twi_masterBufferLength
      = 8 ∧
    (read_after (twi_init (blank 2 2)) 0x20 (Ptr.ram 50) 9
      (full_read_events 0 0 [1, 2, 3, 4, 5, 6, 7, 8] 9)).twi_masterBufferIndex = 9 ∧
    (read_after (twi_init (blank 2 2)) 0x20 (Ptr.ram 50) 9
      (full_read_events 0 0 [1, 2, 3, 4, 5, 6, 7, 8] 9)).ram 58 = 9 ∧
    (twi_nonBlockingReadRegisterFrom 0x20 5 (Ptr.ram 50) 200 (twi_init (blank 2 2))).1 = 0 ∧
    (twi_nonBlockingReadRegisterFrom 0x20 5 (Ptr.ram 50) 200
      (twi_init (blank 2 2))).2.twi_masterBufferLength = 199 := by
  decide

/-- C12 (amended): the buffer capacity bounds the transfers that go through the internal
buffer.  `twi_writeTo` and `twi_readFrom` refuse every length above `TWI_BUFFER_LENGTH` with
the state unchanged; an accepted `twi_writeTo` programs `length ≤ 8` bytes from the internal
buffer; `twi_readFrom` with `1 ≤ length ≤ 8` programs `length` bytes into the internal buffer;
`twi_writeRegisterMaskedOneByte` programs one byte into the internal buffer.  The
non-blocking reads and a read dispatched from the queue have no length bound: for every
`1 ≤ length ≤ 255` they are accepted and program `length` bytes into the caller's
destination. -/
theorem buffer_capacity (s : Twi) (address reg data mask src dstaddr L wait p : Nat) (dst : Ptr)
    (evs : List Event) :
    (TWI_BUFFER_LENGTH < L →
      twi_writeTo address src L wait evs s = some (1, s, evs) ∧
      twi_readFrom address dstaddr L evs s = some (0, s, evs)) ∧
    (s.twi_state = TWI_READY → L ≤ 8 →
      twi_writeTo address src L 0 evs s = some (0, twi_writeTo_setup address src L s, evs) ∧
      (twi_writeTo_setup address src L s).twi_masterBufferLength = L ∧
      (twi_writeTo_setup address src L s).twi_masterBufferPtr = Ptr.masterBuffer) ∧
    (s.twi_state = TWI_READY → 1 ≤ L → L ≤ 8 →
      ∃ s1, twi_readFrom_claim address L evs s = some (s1, evs) ∧
        s1.twi_masterBufferLength + 1 = L ∧ s1.twi_masterBufferPtr = Ptr.masterBuffer) ∧
    (s.twi_state = TWI_READY →
      (twi_writeRegisterMaskedOneByte address reg data mask s).1 = 0 ∧
      (twi_writeRegisterMaskedOneByte address reg data mask s).2.twi_masterBufferLength + 1 = 1 ∧
      (twi_writeRegisterMaskedOneByte address reg data mask s).2.twi_masterBufferPtr
        = Ptr.masterBuffer) ∧
    (s.twi_state = TWI_READY → 1 ≤ L → L ≤ 255 →
      ((twi_nonBlockingReadFrom address dst L s).1 = 0 ∧
        (twi_nonBlockingReadFrom address dst L s).2.twi_masterBufferLength + 1 = L ∧
        (twi_nonBlockingReadFrom address dst L s).2.twi_masterBufferPtr = dst) ∧
      ((twi_nonBlockingReadRegisterFrom address reg dst L s).1 = 0 ∧
        (twi_nonBlockingReadRegisterFrom address reg dst L s).2.twi_masterBufferLength + 1 = L ∧
        (twi_nonBlockingReadRegisterFrom address reg dst L s).2.twi_masterBufferPtr = dst)) ∧
    (s.twi_state = TWI_READY → none_pending 0 p s → s.twi_read_queue.getD p NULL ≠ NULL →
      1 ≤ (s.rd_trans (s.twi_read_queue.getD p NULL)).length →
      (s.rd_trans (s.twi_read_queue.getD p NULL)).length ≤ 255 →
      (twi_check_queues s).twi_state = TWI_MTRX ∧
      (twi_check_queues s).twi_masterBufferLength + 1
        = (s.rd_trans (s.twi_read_queue.getD p NULL)).length ∧
      (twi_check_queues s).twi_masterBufferPtr
        = (s.rd_trans (s.twi_read_queue.getD p NULL)).data) := by
  refine ⟨?_, ?_, ?_, ?_, ?_, ?_⟩
  · intro h
    exact ⟨by simp [twi_writeTo, h], by simp [twi_readFrom, h]⟩
  · intro hready hL
    refine ⟨?_, ?_, ?_⟩
    · rw [twi_writeTo_ready _ _ _ _ _ _ hready hL, spin_of_false _ _ _ (by simp)]
      simp [twi_writeTo_status, twi_writeTo_setup_eq]
    · rw [twi_writeTo_setup_eq]
    · rw [twi_writeTo_setup_eq]
  · intro hready h1 h8
    rw [readFrom_claim_ready _ _ _ _ hready, nonBlockingReadFrom_ready _ _ _ _ hready]
    refine ⟨_, rfl, ?_, rfl⟩
    show (L + 255) % 256 + 1 = L
    omega
  · intro hready
    rw [writeRegisterMaskedOneByte_ready _ _ _ _ _ hready]
    exact ⟨rfl, rfl, rfl⟩
  · intro hready h1 h255
    rw [nonBlockingReadFrom_ready _ _ _ _ hready,
      nonBlockingReadRegisterFrom_ready _ _ _ _ _ hready]
    have hm : (L + 255) % 256 + 1 = L := by omega
    exact ⟨⟨rfl, hm, rfl⟩, ⟨rfl, hm, rfl⟩⟩
  · intro hready hnone hr h1 h255
    have hd := ((check_queues_dispatch s p hready hnone).1 hr).1
    refine ⟨hd.1, ?_, hd.2.2.2.1⟩
    rw [hd.2.2.2.2.1]
    omega

/-- A nine-byte blocking read is refused on an initialised engine; a three-byte write is set
up with programmed length 3. -/
theorem buffer_capacity_witness :
    TWI_BUFFER_LENGTH < 9 ∧
    twi_readFrom 0x20 50 9 [] (twi_init (blank 2 2)) = some (0, twi_init (blank 2 2), []) ∧
    (twi_init (blank 2 2)).twi_state = TWI_READY ∧ 3 ≤ 8 ∧
    (twi_writeTo_setup 0x20 50 3 (twi_init (blank 2 2))).twi_masterBufferLength = 3 :=
  ⟨by decide,
    ((buffer_capacity (twi_init (blank 2 2)) 0x20 5 0 0 50 50 9 0 0 (Ptr.ram 50) []).1
      (by decide)).2,
    by decide, by decide,
    ((buffer_capacity (twi_init (blank 2 2)) 0x20 5 0 0 50 50 3 0 0 (Ptr.ram 50) []).2.1
      (by decide) (by decide)).2.1⟩

/-! ## Result codes of the register operations -/

/-- Dispatch on a bus that is not Ready changes nothing. -/
theorem check_queues_not_ready (s : Twi) (hbusy : s.twi_state ≠ TWI_READY) :
    twi_check_queues s = s := by
  have hb := check_queues_busy s hbusy
  rcases loop_cases s (max (TWI_RD_TRANS_QUEUE_SIZE s) (TWI_WR1_TRANS_QUEUE_SIZE s)) 0
    with h | ⟨t, _, h⟩ | ⟨t, _, h⟩
  · exact h
  · exact h.trans (hb.1 t)
  · exact h.trans (hb.2 t)

/-- C22: run without an interrupt in between, `twi_nonBlockingReadRegisterFrom` and
`twi_writeRegisterMaskedOneByte` never return -2: for every argument and every engine state
the result is -1 exactly when the bus is not Ready and 0 exactly when it is Ready (the error
record tested before returning is the 0xFF just written).  Hence `twi_check_queues` empties
the slot of the request first in dispatch order exactly when the bus was Ready, and on a bus
that is not Ready it changes nothing. -/
theorem register_ops_never_other_error (s : Twi) (address reg data mask length p : Nat)
    (dst : Ptr) :
    ((twi_nonBlockingReadRegisterFrom address reg dst length s).1 ≠ -2 ∧
      ((twi_nonBlockingReadRegisterFrom address reg dst length s).1 = -1
        ↔ s.twi_state ≠ TWI_READY) ∧
      ((twi_nonBlockingReadRegisterFrom address reg dst length s).1 = 0
        ↔ s.twi_state = TWI_READY) ∧
      (s.twi_state = TWI_READY →
        (twi_nonBlockingReadRegisterFrom address reg dst length s).2.twi_error = 0xFF)) ∧
    ((twi_writeRegisterMaskedOneByte address reg data mask s).1 ≠ -2 ∧
      ((twi_writeRegisterMaskedOneByte address reg data mask s).1 = -1
        ↔ s.twi_state ≠ TWI_READY) ∧
      ((twi_writeRegisterMaskedOneByte address reg data mask s).1 = 0
        ↔ s.twi_state = TWI_READY) ∧
      (s.twi_state = TWI_READY →
        (twi_writeRegisterMaskedOneByte address reg data mask s).2.twi_error = 0xFF)) ∧
    (s.twi_state ≠ TWI_READY → twi_check_queues s = s) ∧
    (none_pending 0 p s → s.twi_read_queue.getD p NULL ≠ NULL →
      ((twi_check_queues s).twi_read_queue.getD p NULL = NULL ↔ s.twi_state = TWI_READY)) ∧
    (none_pending 0 p s → s.twi_read_queue.getD p NULL = NULL →
      s.twi_wr1_queue.getD p NULL ≠ NULL →
      ((twi_check_queues s).twi_wr1_queue.getD p NULL = NULL ↔ s.twi_state = TWI_READY)) := by
  refine ⟨?_, ?_, check_queues_not_ready s, ?_, ?_⟩
  · by_cases hready : s.twi_state = TWI_READY
    · rw [nonBlockingReadRegisterFrom_ready _ _ _ _ _ hready]
      simp [hready]
    · have h : twi_nonBlockingReadRegisterFrom address reg dst length s = (-1, s) := by
        simp [twi_nonBlockingReadRegisterFrom, hready]
      rw [h]
      simp [hready]
  · by_cases hready : s.twi_state = TWI_READY
    · rw [writeRegisterMaskedOneByte_ready _ _ _ _ _ hready]
      simp [hready]
    · have h : twi_writeRegisterMaskedOneByte address reg data mask s = (-1, s) := by
        simp [twi_writeRegisterMaskedOneByte, hready]
      rw [h]
      simp [hready]
  · intro hnone hr
    have hlt : p < s.twi_read_queue.length := lt_length_of_getD_ne hr
    constructor
    · intro h
      by_contra hbusy
      rw [check_queues_not_ready s hbusy] at h
      exact hr h
    · intro hready
      rw [((check_queues_dispatch s p hready hnone).1 hr).2.1]
      exact getD_set_self _ _ _ hlt
  · intro hnone hr hw
    have hlt : p < s.twi_wr1_queue.length := lt_length_of_getD_ne hw
    constructor
    · intro h
      by_contra hbusy
      rw [check_queues_not_ready s hbusy] at h
      exact hw h
    · intro hready
      rw [((check_queues_dispatch s p hready hnone).2 hr hw).2.1]
      exact getD_set_self _ _ _ hlt

/-- A read pending at priority 1, first in dispatch order: on the Ready engine dispatch empties
its slot; while a masked write owns the bus a pending read stays in its slot. -/
theorem register_ops_never_other_error_witness :
    ready_with_pending_read.twi_read_queue.getD 1 NULL ≠ NULL ∧
    ready_with_pending_read.twi_state = TWI_READY ∧
    (twi_check_queues ready_with_pending_read).twi_read_queue.getD 1 NULL = NULL ∧
    rmw_with_pending_read.twi_state ≠ TWI_READY ∧
    twi_check_queues rmw_with_pending_read = rmw_with_pending_read :=
  have h := register_ops_never_other_error ready_with_pending_read 0 0 0 0 0 1 (Ptr.ram 0)
  have h2 := register_ops_never_other_error rmw_with_pending_read 0 0 0 0 0 0 (Ptr.ram 0)
  ⟨by decide, by decide,
    (h.2.2.2.1 (by intro q _ h2; interval_cases q; decide) (by decide)).mpr (by decide),
    by decide, h2.2.2.1 (by decide)⟩

/-! ## Blocking calls followed by further interrupts -/

/-- A wait loop whose condition holds before each of the interrupts `evs` and fails after them
serves exactly `evs` and leaves the interrupts that follow. -/
theorem spin_run_append (cond : Twi → Bool) (evs rest : List Event) :
    ∀ s : Twi, (∀ k, k < evs.length → cond (run (evs.take k) s) = true) →
      cond (run evs s) = false →
      spin cond (evs ++ rest) s = some (run evs s, rest) := by
  induction evs with
  | nil =>
    intro s _ hend
    exact spin_of_false cond rest s hend
  | cons e es ih =>
    intro s h hend
    have h0 := h 0 (by simp)
    rw [List.cons_append, spin_cons_of_true cond e (es ++ rest) s (by simpa [run] using h0)]
    rw [ih (TWI_vect e.status e.twdr s)
      (fun k hk => by simpa [run] using h (k + 1) (by simpa using hk))
      (by simpa [run] using hend)]
    rfl

/-- A blocking write of `L ≤ 8` bytes from Ready with an empty queue, every byte acknowledged,
returns 0 after its own interrupts and leaves the interrupts that follow. -/
theorem twi_writeTo_blocking (s : Twi) (address src L wait t0 t1 : Nat) (ts : List Nat)
    (rest : List Event) (hready : s.twi_state = TWI_READY) (hq : nothing_pending s)
    (hL : L ≤ 8) (hts : ts.length = L) (hwait : wait ≠ 0) :
    twi_writeTo address src L wait (write_events t0 t1 ts ++ rest) s =
      some (0,
        { s with
          twi_state := TWI_READY, twi_error := 0xFF, twi_masterBufferPtr := Ptr.masterBuffer,
          twi_masterBufferIndex := L, twi_masterBufferLength := L,
          twi_masterBuffer := fun i => if i < L then s.ram (src + i) else s.twi_masterBuffer i,
          twi_slarw := (address <<< 1) % 256,
          hw := s.hw ++ HwOp.TWCR TWCR_START :: HwOp.TWDR ((address <<< 1) % 256)
            :: HwOp.TWCR TWCR_ACK
            :: (send_log (fun i => s.ram (src + i)) 0 L ++ [HwOp.TWCR TWCR_STOP]) },
        rest) := by
  have hall := write_run_all s address src L t0 t1 ts hq hL hts
  have hlen : (write_events t0 t1 ts).length = L + 2 := by simp [write_events, hts]
  have hpre : ∀ k, k < (write_events t0 t1 ts).length →
      (fun s : Twi => decide (wait ≠ 0) && decide (s.twi_state = TWI_MTX))
        (run ((write_events t0 t1 ts).take k) (twi_writeTo_setup address src L s)) = true := by
    intro k hk
    cases k with
    | zero => simp [run, twi_writeTo_setup_eq, hwait]
    | succ j =>
      rw [write_run_upto s address src L t0 t1 ts hL hts j (by omega)]
      simp [hwait]
  rw [twi_writeTo_ready _ _ _ _ _ _ hready hL, spin_run_append _ _ _ _ hpre (by rw [hall]; simp),
    hall]
  simp [twi_writeTo_status]

/-- A blocking one-byte read from Ready with an empty queue returns 1 after its own
interrupts, with the byte stored at `data`, and leaves the interrupts that follow. -/
theorem twi_readFrom_one (s : Twi) (address data t0 t1 old : Nat) (rest : List Event)
    (hready : s.twi_state = TWI_READY) (hq : nothing_pending s) :
    twi_readFrom address data 1 (full_read_events t0 t1 [] old ++ rest) s =
      some (1,
        { s with
          twi_state := TWI_READY, twi_error := 0xFF, twi_masterBufferPtr := Ptr.masterBuffer,
          twi_masterBufferIndex := 1, twi_masterBufferLength := 0,
          twi_slarw := (2 * address + 1) % 256,
          twi_masterBuffer := upd s.twi_masterBuffer 0 (old % 256),
          ram := upd s.ram data (old % 256),
          hw := s.hw ++ [HwOp.TWCR TWCR_START, HwOp.TWDR ((2 * address + 1) % 256),
            HwOp.TWCR TWCR_ACK, HwOp.TWCR TWCR_NACK, HwOp.TWCR TWCR_STOP] },
        rest) := by
  have hnb := nonBlockingReadFrom_ready address Ptr.masterBuffer 1 s hready
  unfold twi_readFrom full_read_events
  rw [if_neg (by decide), readFrom_claim_ready _ _ _ _ hready, hnb]
  dsimp only [data_acks, List.map_nil, List.nil_append, List.cons_append]
  rw [spin_cons_of_true _ _ _ _ (by simp), vect_START]
  dsimp only
  rw [spin_cons_of_true _ _ _ _ (by simp), vect_MR_SLA_ACK]
  dsimp only
  rw [spin_cons_of_true _ _ _ _ (by simp), vect_MR_DATA_NACK_mrx]
  rotate_left
  · rfl
  · rfl
  · simp
  · exact fun q => hq q
  dsimp only
  rw [spin_of_false _ _ _ (by simp)]
  dsimp only
  simp only [Nat.lt_irrefl, if_false, Nat.zero_add]
  rw [twi_readFrom_copy_eq]
  have hram : (fun a => if data ≤ a ∧ a < data + 1 then upd s.twi_masterBuffer 0 (old % 256)
      (a - data) else s.ram a) = upd s.ram data (old % 256) := by
    funext a
    by_cases h : a = data
    · subst h; simp [upd]
    · have h2 : ¬ (data ≤ a ∧ a < data + 1) := by omega
      simp [upd, h, h2]
  simp [hram, slar_eq]
/-! ## Single-bit updates of the driver -/

/-- A pin below 8 selects a power of two below 256. -/
theorem pin_pow_lt (p : Nat) (hp : p < 8) : 2 ^ p < 256 := by
  have h : 2 ^ p < 2 ^ 8 := Nat.pow_lt_pow_right (by decide) hp
  simpa using h

/-- Bits of a byte above bit 7 are clear. -/
theorem byte_testBit_high (v i : Nat) (hv : v < 256) (hi : 8 ≤ i) : v.testBit i = false :=
  Nat.testBit_lt_two_pow (Nat.lt_of_lt_of_le hv
    (by simpa using Nat.pow_le_pow_right (by decide : 0 < 2) hi))

/-- Setting the pin bit: bit `p` becomes 1, the other bits of the byte are kept. -/
theorem set_pin_bit_testBit (v p i : Nat) (hv : v < 256) (hp : p < 8) :
    (set_pin_bit v p).testBit i = if i = p then true else v.testBit i := by
  have h256 : (256 : Nat) = 2 ^ 8 := by decide
  unfold set_pin_bit
  rw [h256, Nat.testBit_mod_two_pow, Nat.testBit_or, Nat.one_shiftLeft, Nat.testBit_two_pow]
  by_cases hi : i < 8
  · by_cases hip : i = p
    · subst hip; simp [hi]
    · have hpi : ¬ p = i := fun h => hip h.symm
      simp [hi, hip, hpi]
  · have hv2 := byte_testBit_high v i hv (by omega)
    have hip : ¬ i = p := by omega
    simp [hi, hip, hv2]

/-- Clearing the pin bit: bit `p` becomes 0, the other bits of the byte are kept. -/
theorem clear_pin_bit_testBit (v p i : Nat) (hv : v < 256) (hp : p < 8) :
    (clear_pin_bit v p).testBit i = if i = p then false else v.testBit i := by
  have h256 : (256 : Nat) = 2 ^ 8 := by decide
  have hpow := pin_pow_lt p hp
  unfold clear_pin_bit
  rw [Nat.one_shiftLeft, Nat.mod_eq_of_lt hpow]
  rw [h256, Nat.testBit_mod_two_pow, Nat.testBit_and, testBit_compl8 hpow, Nat.testBit_two_pow]
  by_cases hi : i < 8
  · by_cases hip : i = p
    · subst hip; simp [hi]
    · have hpi : ¬ p = i := fun h => hip h.symm
      simp [hi, hip, hpi]
  · have hv2 := byte_testBit_high v i hv (by omega)
    have hip : ¬ i = p := by omega
    simp [hi, hip, hv2]
/-- The driver's `pinMode` on a pin `p ≤ 15`, Ready bus, empty queue, every byte acknowledged
and the device delivering `old`. -/
theorem pinMode_run (c : MCP23017_consts) (s : Twi) (localbuf p d old : Nat) (t : Nat → Nat)
    (rest : List Event) (hready : s.twi_state = TWI_READY) (hq : nothing_pending s)
    (hwait : c.DO_WAIT ≠ 0) (hp : p ≤ 15) :
    ∃ s1, MCP23017_pinMode c localbuf p d (driver_events t old ++ rest) s = some (s1, rest) ∧
      s1.twi_state = TWI_READY ∧
      twdr_writes s1.hw = twdr_writes s.hw ++
        [(2 * c.i2caddr) % 256,
         if p < 8 then c.MCP23017_IODIRA else c.MCP23017_IODIRB,
         (2 * c.i2caddr + 1) % 256,
         (2 * c.i2caddr) % 256,
         if p < 8 then c.MCP23017_IODIRA else c.MCP23017_IODIRB,
         if d = c.INPUT then set_pin_bit (old % 256) (p % 8)
           else clear_pin_bit (old % 256) (p % 8)] := by
  have hev : driver_events t old ++ rest =
      write_events (t 0) (t 1) [t 2] ++ (full_read_events (t 3) (t 4) [] old ++
        (write_events (t 5) (t 6) [t 7, t 8] ++ rest)) := by
    simp [driver_events, List.append_assoc]
  have hp8 : (if p < 8 then p else p - 8) = p % 8 := by
    split <;> omega
  unfold MCP23017_pinMode
  rw [if_neg (by omega), hev]
  dsimp only
  rw [twi_writeTo_blocking _ c.i2caddr localbuf 1 c.DO_WAIT (t 0) (t 1) [t 2]]
  rotate_left
  · exact hready
  · exact fun q => hq q
  · decide
  · rfl
  · exact hwait
  dsimp only
  simp only [ne_eq, not_true_eq_false, if_false]
  rw [twi_readFrom_one]
  rotate_left
  · rfl
  · exact fun q => hq q
  dsimp only
  simp only [ne_eq, not_true_eq_false, if_false]
  rw [twi_writeTo_blocking _ c.i2caddr localbuf 2 c.DO_WAIT (t 5) (t 6) [t 7, t 8]]
  rotate_left
  · rfl
  · exact fun q => hq q
  · decide
  · rfl
  · exact hwait
  refine ⟨_, rfl, rfl, ?_⟩
  simp [twdr_writes, send_log, upd, slaw_eq, hp8, List.filterMap_append]

/-- The driver's `digitalWrite` on a pin `p ≤ 15`, Ready bus, empty queue, every byte
acknowledged and the device delivering `old`. -/
theorem digitalWrite_run (c : MCP23017_consts) (s : Twi) (localbuf olataddr p d old : Nat)
    (t : Nat → Nat) (rest : List Event) (hready : s.twi_state = TWI_READY)
    (hq : nothing_pending s) (hwait : c.DO_WAIT ≠ 0) (hp : p ≤ 15)
    (hvars : olataddr ≠ localbuf) :
    ∃ s1, MCP23017_digitalWrite c localbuf olataddr p d (driver_events t old ++ rest) s
        = some (s1, rest) ∧
      s1.twi_state = TWI_READY ∧
      twdr_writes s1.hw = twdr_writes s.hw ++
        [(2 * c.i2caddr) % 256,
         if p < 8 then c.MCP23017_OLATA else c.MCP23017_OLATB,
         (2 * c.i2caddr + 1) % 256,
         (2 * c.i2caddr) % 256,
         if p < 8 then c.MCP23017_GPIOA else c.MCP23017_GPIOB,
         if d ≠ 0 then set_pin_bit (old % 256) (p % 8)
           else clear_pin_bit (old % 256) (p % 8)] := by
  have hev : driver_events t old ++ rest =
      write_events (t 0) (t 1) [t 2] ++ (full_read_events (t 3) (t 4) [] old ++
        (write_events (t 5) (t 6) [t 7, t 8] ++ rest)) := by
    simp [driver_events, List.append_assoc]
  have hp8 : (if p < 8 then p else p - 8) = p % 8 := by
    split <;> omega
  unfold MCP23017_digitalWrite
  rw [if_neg (by omega), hev]
  dsimp only
  rw [twi_writeTo_blocking _ c.i2caddr olataddr 1 c.DO_WAIT (t 0) (t 1) [t 2]]
  rotate_left
  · exact hready
  · exact fun q => hq q
  · decide
  · rfl
  · exact hwait
  dsimp only
  rw [twi_readFrom_one]
  rotate_left
  · rfl
  · exact fun q => hq q
  dsimp only
  simp only [ne_eq, not_true_eq_false, if_false]
  rw [twi_writeTo_blocking _ c.i2caddr localbuf 2 c.DO_WAIT (t 5) (t 6) [t 7, t 8]]
  rotate_left
  · rfl
  · exact fun q => hq q
  · decide
  · rfl
  · exact hwait
  refine ⟨_, rfl, rfl, ?_⟩
  simp [twdr_writes, send_log, upd, slaw_eq, hp8, hvars, List.filterMap_append]

/-! ## Pin mapping -/

/-- C21: on a Ready bus with an empty queue, every byte acknowledged and the device delivering
`old` for the register read.  For a pin `p ≤ 15`, `MCP23017_pinMode` addresses the direction
register of bank A when `p < 8` and of bank B otherwise (both for the read and for the write
back), and the value it writes back is `old` with bit `p mod 8` set when `d` is `INPUT` and
cleared otherwise, every other bit as in `old`.  `MCP23017_digitalWrite` computes the value
it writes by the same rule with the bit set when `d ≠ 0`.  For `p > 15` both return at once
with the engine untouched: no bus operation. -/
theorem pin_mapping (c : MCP23017_consts) (s : Twi) (localbuf olataddr p d old : Nat)
    (t : Nat → Nat) (rest : List Event) (hready : s.twi_state = TWI_READY)
    (hq : nothing_pending s) (hwait : c.DO_WAIT ≠ 0) (hvars : olataddr ≠ localbuf) :
    (15 < p →
      MCP23017_pinMode c localbuf p d rest s = some (s, rest) ∧
      MCP23017_digitalWrite c localbuf olataddr p d rest s = some (s, rest)) ∧
    (p ≤ 15 →
      (∃ s1, MCP23017_pinMode c localbuf p d (driver_events t old ++ rest) s = some (s1, rest) ∧
        s1.twi_state = TWI_READY ∧
        twdr_writes s1.hw = twdr_writes s.hw ++
          [(2 * c.i2caddr) % 256,
           if p < 8 then c.MCP23017_IODIRA else c.MCP23017_IODIRB,
           (2 * c.i2caddr + 1) % 256,
           (2 * c.i2caddr) % 256,
           if p < 8 then c.MCP23017_IODIRA else c.MCP23017_IODIRB,
           if d = c.INPUT then set_pin_bit (old % 256) (p % 8)
             else clear_pin_bit (old % 256) (p % 8)]) ∧
      (∃ s1, MCP23017_digitalWrite c localbuf olataddr p d (driver_events t old ++ rest) s
          = some (s1, rest) ∧
        s1.twi_state = TWI_READY ∧
        twdr_writes s1.hw = twdr_writes s.hw ++
          [(2 * c.i2caddr) % 256,
           if p < 8 then c.MCP23017_OLATA else c.MCP23017_OLATB,
           (2 * c.i2caddr + 1) % 256,
           (2 * c.i2caddr) % 256,
           if p < 8 then c.MCP23017_GPIOA else c.MCP23017_GPIOB,
           if d ≠ 0 then set_pin_bit (old % 256) (p % 8)
             else clear_pin_bit (old % 256) (p % 8)])) ∧
    (∀ i, (set_pin_bit (old % 256) (p % 8)).testBit i
      = if i = p % 8 then true else (old % 256).testBit i) ∧
    (∀ i, (clear_pin_bit (old % 256) (p % 8)).testBit i
      = if i = p % 8 then false else (old % 256).testBit i) := by
  have hold : old % 256 < 256 := Nat.mod_lt _ (by decide)
  have hp8 : p % 8 < 8 := Nat.mod_lt _ (by decide)
  refine ⟨?_, ?_, ?_, ?_⟩
  · intro hp
    constructor
    · simp [MCP23017_pinMode, hp]
    · simp [MCP23017_digitalWrite, hp]
  · intro hp
    exact ⟨pinMode_run c s localbuf p d old t rest hready hq hwait hp,
      digitalWrite_run c s localbuf olataddr p d old t rest hready hq hwait hp hvars⟩
  · intro i
    exact set_pin_bit_testBit _ _ i hold hp8
  · intro i
    exact clear_pin_bit_testBit _ _ i hold hp8

/-- Pin 10 made an input on an initialised engine whose device holds 0xF0 in the direction
register of bank B: the driver writes back 0xF4 to register 0x01. -/
theorem pin_mapping_witness :
    (twi_init (blank 2 2)).twi_state = TWI_READY ∧ example_consts.DO_WAIT ≠ 0 ∧
    (500 : Nat) ≠ 400 ∧ 10 ≤ 15 ∧
    (MCP23017_pinMode example_consts 400 10 0 (driver_events (fun _ => 0) 0xF0)
      (twi_init (blank 2 2))).map (fun r => twdr_writes r.1.hw)
      = some [0x40, 0x01, 0x41, 0x40, 0x01, 0xF4] ∧
    MCP23017_pinMode example_consts 400 16 0 [] (twi_init (blank 2 2))
      = some (twi_init (blank 2 2), []) :=
  have h := pin_mapping example_consts (twi_init (blank 2 2)) 400 500 16 0 0xF0 (fun _ => 0) []
    (by decide) (nothing_pending_init (blank 2 2)) (by decide) (by decide)
  ⟨by decide, by decide, by decide, by decide, by decide, (h.1 (by decide)).1⟩

end Grbl
